import Mathlib

/-!
Verification development for the motoplugas firmware (src/src/main.c), a
three-position linear-actuator controller for an AVR microcontroller.

The global state of the firmware (its volatile globals, the relevant output
port bits, the timer-1 clock bit and the two persisted NVRAM words) is
embedded as the structure MState.  Each C function becomes a state
transformer MState -> MState, translated statement by statement from the
source; longer C bodies are split into named stages (one statement or one
conditional each) composed in source order.  The three interrupt handlers
and one iteration of the supervisor while-loop are the atomic events of a
transition system; Reachable is the set of states reachable from the boot
state under arbitrary input bits.  Machine integers: clicks and the
thresholds are int32_t counters whose arithmetic never relies on
wraparound (signed overflow is undefined in C), so they are modelled as
Int; the debounce shift registers are uint8_t and are modelled as Nat
reduced mod 256.
-/

namespace Motoplugas

/-- Carriage positions.  In the source these are the uint8 pin numbers
POS_BOT = PC4, POS_MID = PC0, POS_TOP = PC1; they are only ever compared
for equality and used to index the three LEDs, so an enumeration is a
faithful model. -/
inductive Pos where
  | bot
  | mid
  | top
deriving DecidableEq

/-- Modelled from the spec: the switch_t record of debounce.h (not present
in the repository snapshot).  Per spec section 3 ButtonState it holds the
8-bit shift-register byte, the stable pressed flag and the last-serviced
flag; initialiser in main.c is \x7b0xFF, FALSE, FALSE\x7d. -/
structure SwitchT where
  pinBuffer : Nat
  pressed : Bool
  last : Bool
deriving DecidableEq

/-- The global state of the firmware: the volatile globals of main.c plus
the output bits it drives (relay switches, speed select, LEDs, timer-1
clock) and the two NVRAM double words at offsets 0 and 4. -/
structure MState where
  tumbler : SwitchT
  progBtn : SwitchT
  upBtn : SwitchT
  downBtn : SwitchT
  clicks : Int
  mode : Nat
  block : Bool
  nextPosition : Pos
  currPosition : Pos
  blinkRate : Nat
  blinkCounter : Nat
  lastDirection : Nat
  modePullState : Nat
  stateOnPullDown : Nat
  stateOnPullUp : Nat
  middlePositionTimeout : Bool
  topThreshold : Int
  middleThreshold : Int
  bottomThreshold : Int
  currThreshold : Int
  upSwitchClosed : Bool
  downSwitchClosed : Bool
  speedFullSel : Bool
  ledBot : Bool
  ledMid : Bool
  ledTop : Bool
  timer1running : Bool
  eeprom0 : Int
  eeprom4 : Int
deriving DecidableEq

/-- ledOn / ledOff on the LED selected by a position (main.c ledOn, ledOff). -/
def ledSet (p : Pos) (b : Bool) (s : MState) : MState :=
  { s with
    ledBot := if p = Pos.bot then b else s.ledBot
    ledMid := if p = Pos.mid then b else s.ledMid
    ledTop := if p = Pos.top then b else s.ledTop }

/-- toggleLed of main.c, on the LED selected by a position. -/
def toggleLed (p : Pos) (s : MState) : MState :=
  { s with
    ledBot := if p = Pos.bot then !s.ledBot else s.ledBot
    ledMid := if p = Pos.mid then !s.ledMid else s.ledMid
    ledTop := if p = Pos.top then !s.ledTop else s.ledTop }

/-- Modelled from the spec: the debounce routine of debounce.h (not present
in the repository snapshot).  Per spec section 4.1: shift the 8-bit register
left by one, OR the sampled level into the LSB; stable pressed when the
register is 0x00 (buttons are active low), released when 0xFF, otherwise
the previous stable value is retained. -/
def debounce (sw : SwitchT) (bit : Bool) : SwitchT :=
  { sw with
    pinBuffer := (sw.pinBuffer * 2 + (if bit then 1 else 0)) % 256
    pressed :=
      if (sw.pinBuffer * 2 + (if bit then 1 else 0)) % 256 = 0 then true
      else if (sw.pinBuffer * 2 + (if bit then 1 else 0)) % 256 = 255 then false
      else sw.pressed }

/-- getNextPosition of main.c: the cyclic successor of currPosition. -/
def getNextPosition (s : MState) : Pos :=
  match s.currPosition with
  | Pos.bot => Pos.mid
  | Pos.mid => Pos.top
  | Pos.top => Pos.bot

/-- Cyclic successor BOT -> MID -> TOP -> BOT as the spec words it
(section 4.5); stated separately from getNextPosition so that claims about
the spec sentence compare against the code. -/
def succPos : Pos → Pos
  | Pos.bot => Pos.mid
  | Pos.mid => Pos.top
  | Pos.top => Pos.bot

/-- First half of setUpNextPosition (main.c lines 177-178): ledOff on the
old current position, then currPosition := nextPosition. -/
def advanceStep1 (s : MState) : MState :=
  { ledSet s.currPosition false s with currPosition := s.nextPosition }

/-- Second half of setUpNextPosition (main.c lines 179-180): ledOn on the
new current position, then nextPosition := getNextPosition(). -/
def advanceStep2 (s : MState) : MState :=
  { ledSet s.currPosition true s with nextPosition := getNextPosition s }

/-- Tail of setUpNextPosition (main.c lines 182-191): select currThreshold
and motor speed from the new target position. -/
def applyTargetPreset (s : MState) : MState :=
  match s.nextPosition with
  | Pos.bot => { s with currThreshold := s.bottomThreshold, speedFullSel := true }
  | Pos.mid => { s with currThreshold := s.middleThreshold, speedFullSel := false }
  | Pos.top => { s with currThreshold := s.topThreshold, speedFullSel := true }

/-- setUpNextPosition of main.c: advance current to next, move the solid
LED, recompute next, and select threshold and motor speed for the new
target. -/
def setUpNextPosition (s : MState) : MState :=
  applyTargetPreset (advanceStep2 (advanceStep1 s))

/-- startBlockTimeout of main.c: latch block and start timer 1. -/
def startBlockTimeout (s : MState) : MState :=
  { s with block := true, timer1running := true }

/-- startMiddlePositionTimeout of main.c: arm the settle flag, start
timer 1, and clear the BOT LED. -/
def startMiddlePositionTimeout (s : MState) : MState :=
  ledSet Pos.bot false { s with middlePositionTimeout := true, timer1running := true }

/-- stopMiddlePositionTimeout of main.c: stop timer 1 (TCCR1B = 0) and
clear the settle flag. -/
def stopMiddlePositionTimeout (s : MState) : MState :=
  { s with timer1running := false, middlePositionTimeout := false }

/-- canGoUp of main.c. -/
def canGoUp (s : MState) : Bool :=
  decide (s.mode = 3 ∨ s.mode = 1 ∨
    (s.mode = 2 ∧ (s.currPosition = Pos.mid ∨ s.currPosition = Pos.bot)))

/-- canGoDown of main.c. -/
def canGoDown (s : MState) : Bool :=
  decide (s.mode = 3 ∨ s.mode = 1 ∨
    (s.mode = 2 ∧ (s.currPosition = Pos.mid ∨ s.currPosition = Pos.top)))

/-- isGoingBelowPreviousThreshold of main.c. -/
def isGoingBelowPreviousThreshold (s : MState) : Bool :=
  decide (s.downBtn.pressed = true ∧
    ((s.nextPosition = Pos.mid ∧ s.clicks ≤ s.bottomThreshold) ∨
     (s.nextPosition = Pos.top ∧ s.clicks ≤ s.middleThreshold)))

/-- onUpButtonPressed of main.c. -/
def onUpButtonPressed (s : MState) : MState :=
  if canGoUp s then
    { s with lastDirection := 1, upSwitchClosed := true, blinkRate := 5 }
  else s

/-- onUpButtonReleased of main.c. -/
def onUpButtonReleased (s : MState) : MState :=
  { s with upSwitchClosed := false, blinkRate := 10 }

/-- onDownButtonPressed of main.c. -/
def onDownButtonPressed (s : MState) : MState :=
  if canGoDown s then
    { s with lastDirection := 2, downSwitchClosed := true, blinkRate := 5 }
  else s

/-- onDownButtonReleased of main.c. -/
def onDownButtonReleased (s : MState) : MState :=
  { s with downSwitchClosed := false, blinkRate := 10 }

/-- Walker advance at the head of onProgramButtonPressed (main.c line 239):
currPosition := nextPosition. -/
def teachAdv1 (s : MState) : MState :=
  { s with currPosition := s.nextPosition }

/-- Walker advance, second statement (main.c line 240): nextPosition :=
getNextPosition(), computed from the already-updated currPosition. -/
def teachAdv2 (s : MState) : MState :=
  { s with nextPosition := getNextPosition s }

/-- Commit cases of onProgramButtonPressed (main.c lines 243-253), after
ledOff on the new current position: BOT zeroes bottomThreshold and clicks;
MID takes max(clicks, bottomThreshold) and persists it at NVRAM offset 0;
TOP takes max(clicks, middleThreshold), persists it at offset 4 and
latches block. -/
def teachCommit (s : MState) : MState :=
  match s.currPosition with
  | Pos.bot => { s with bottomThreshold := 0, clicks := 0 }
  | Pos.mid =>
      { s with
        middleThreshold := if s.clicks > s.bottomThreshold then s.clicks else s.bottomThreshold
        eeprom0 := if s.clicks > s.bottomThreshold then s.clicks else s.bottomThreshold }
  | Pos.top =>
      { s with
        topThreshold := if s.clicks > s.middleThreshold then s.clicks else s.middleThreshold
        eeprom4 := if s.clicks > s.middleThreshold then s.clicks else s.middleThreshold
        block := true }

/-- onProgramButtonPressed of main.c: in PROGRAM mode advance the teach
walker, turn off the LED of the position just reached, and commit it. -/
def onProgramButtonPressed (s : MState) : MState :=
  if s.mode = 1 then
    teachCommit (ledSet (teachAdv2 (teachAdv1 s)).currPosition false (teachAdv2 (teachAdv1 s)))
  else s

/-- allLedsOff of main.c. -/
def allLedsOff (s : MState) : MState :=
  { s with ledBot := false, ledMid := false, ledTop := false }

/-- Mode-dependent body of changeMode (main.c lines 262-273). -/
def changeModeBody (newMode : Nat) (s : MState) : MState :=
  if newMode = 2 then
    { ledSet s.currPosition true s with currThreshold := s.bottomThreshold, block := false }
  else if newMode = 1 then
    if s.nextPosition = Pos.top then
      { s with currPosition := Pos.bot, nextPosition := Pos.mid }
    else s
  else s

/-- changeMode of main.c: clear LEDs, stop the shared timer, apply the
mode-dependent body, and store the new mode. -/
def changeMode (newMode : Nat) (s : MState) : MState :=
  { changeModeBody newMode (stopMiddlePositionTimeout (allLedsOff s)) with mode := newMode }

/-- Recording phase of serviceTumbler (main.c lines 281-289): store the
terminal register value for the active bias phase, reseed the register to
1 and flip the bias. -/
def tumblerRecord (s : MState) : MState :=
  if s.modePullState = 0 then
    { s with stateOnPullDown := s.tumbler.pinBuffer,
             tumbler := { s.tumbler with pinBuffer := 1 },
             modePullState := 1 }
  else if s.modePullState = 1 then
    { s with stateOnPullUp := s.tumbler.pinBuffer,
             tumbler := { s.tumbler with pinBuffer := 1 },
             modePullState := 0 }
  else s

/-- Decode of serviceTumbler (main.c lines 291-297): the mode encoded by
the recorded pair of bias readings; 0 when no case matches. -/
def tumblerDecode (s : MState) : Nat :=
  if s.stateOnPullUp = 255 ∧ s.stateOnPullDown = 0 then 2
  else if s.stateOnPullUp = 0 ∧ s.stateOnPullDown = 0 then 1
  else if s.stateOnPullUp = 255 ∧ s.stateOnPullDown = 255 then 3
  else 0

/-- Commit of serviceTumbler (main.c lines 298-300): change mode when the
decoded mode differs from the current one. -/
def tumblerCommit (s : MState) : MState :=
  if s.mode ≠ tumblerDecode s then changeMode (tumblerDecode s) s else s

/-- serviceTumbler of main.c: when the tumbler debounce register is at a
terminal value, record it for the active bias phase and commit the decoded
mode. -/
def serviceTumbler (s : MState) : MState :=
  if s.tumbler.pinBuffer = 255 ∨ s.tumbler.pinBuffer = 0 then
    tumblerCommit (tumblerRecord s)
  else s

/-- Edge dispatch for the UP button once a transition was detected. -/
def serviceUpEdge (s : MState) : MState :=
  if s.upBtn.pressed then onUpButtonPressed s else onUpButtonReleased s

/-- Modelled from the spec: serviceButton of debounce.h (not present in the
repository snapshot) specialised to the UP button.  Per spec section 4.4 it
dispatches exactly on transitions of the stable flag, comparing it against
the last-serviced flag. -/
def serviceUpButton (s : MState) : MState :=
  if s.upBtn.pressed = s.upBtn.last then s
  else serviceUpEdge { s with upBtn := { s.upBtn with last := s.upBtn.pressed } }

/-- Edge dispatch for the DOWN button once a transition was detected. -/
def serviceDownEdge (s : MState) : MState :=
  if s.downBtn.pressed then onDownButtonPressed s else onDownButtonReleased s

/-- Modelled from the spec: serviceButton specialised to the DOWN button. -/
def serviceDownButton (s : MState) : MState :=
  if s.downBtn.pressed = s.downBtn.last then s
  else serviceDownEdge { s with downBtn := { s.downBtn with last := s.downBtn.pressed } }

/-- Edge dispatch for the PROGRAM button; its release callback in main.c is
the null pointer, so a release transition only updates the last-serviced
flag. -/
def serviceProgEdge (s : MState) : MState :=
  if s.progBtn.pressed then onProgramButtonPressed s else s

/-- Modelled from the spec: serviceButton specialised to the PROGRAM
button. -/
def serviceProgramButton (s : MState) : MState :=
  if s.progBtn.pressed = s.progBtn.last then s
  else serviceProgEdge { s with progBtn := { s.progBtn with last := s.progBtn.pressed } }

/-- Both relay outputs forced open (openSwitch on UP_SWITCH and
DOWN_SWITCH). -/
def openBothSwitches (s : MState) : MState :=
  { s with upSwitchClosed := false, downSwitchClosed := false }

/-- Tumbler sampling at the head of TIMER0_OVF_vect (main.c line 334). -/
def sampleTumbler (tb : Bool) (s : MState) : MState :=
  { s with tumbler := debounce s.tumbler tb }

/-- UP sampling of TIMER0_OVF_vect (main.c lines 336-338): skipped while
DOWN is stably pressed. -/
def sampleUp (u : Bool) (s : MState) : MState :=
  if s.downBtn.pressed then s else { s with upBtn := debounce s.upBtn u }

/-- DOWN sampling of TIMER0_OVF_vect (main.c lines 340-342): skipped while
UP is stably pressed (reading the value just updated by sampleUp). -/
def sampleDown (d : Bool) (s : MState) : MState :=
  if s.upBtn.pressed then s else { s with downBtn := debounce s.downBtn d }

/-- PROGRAM sampling of TIMER0_OVF_vect (main.c lines 344-346): only when
neither UP nor DOWN is stably pressed. -/
def sampleProg (p : Bool) (s : MState) : MState :=
  if s.upBtn.pressed ∨ s.downBtn.pressed then s
  else { s with progBtn := debounce s.progBtn p }

/-- Blink divider of TIMER0_OVF_vect (main.c lines 348-353): in PROGRAM or
RUN mode and not blocked, count down and toggle the target LED on zero
(the uint8 post-decrement wraps and is immediately overwritten by
blinkRate in the zero case). -/
def blinkService (s : MState) : MState :=
  if (s.mode = 1 ∨ s.mode = 2) ∧ s.block = false then
    if s.blinkCounter = 0 then
      { toggleLed s.nextPosition s with blinkCounter := s.blinkRate }
    else { s with blinkCounter := s.blinkCounter - 1 }
  else s

/-- TIMER0_OVF_vect of main.c.  The four Booleans are the raw levels
sampled from the pins this tick. -/
def timer0Tick (u d p tb : Bool) (s : MState) : MState :=
  blinkService (sampleProg p (sampleDown d (sampleUp u (sampleTumbler tb s))))

/-- INT0_vect of main.c: a Hall pulse increments clicks when the last
commanded direction is UP and decrements it when DOWN. -/
def int0Pulse (s : MState) : MState :=
  if s.lastDirection = 1 then { s with clicks := s.clicks + 1 }
  else if s.lastDirection = 2 then { s with clicks := s.clicks - 1 }
  else s

/-- Settle-expiry half of TIMER1_OVF_vect (main.c lines 311-314). -/
def timer1Settle (s : MState) : MState :=
  if s.middlePositionTimeout then
    setUpNextPosition { s with middlePositionTimeout := false }
  else s

/-- TIMER1_OVF_vect of main.c: clear block if latched; when the settle flag
is armed, clear it and advance; stop the timer clock (TCCR1B = 0). -/
def timer1Expire (s : MState) : MState :=
  { timer1Settle (if s.block then { s with block := false } else s) with
    timer1running := false }

/-- UP autostop of the RUN-mode body (main.c lines 390-395). -/
def autoStopUp (s : MState) : MState :=
  if (s.nextPosition = Pos.mid ∧ s.clicks ≥ s.middleThreshold) ∨
     (s.nextPosition = Pos.top ∧ s.clicks ≥ s.topThreshold) then
    setUpNextPosition
      { startBlockTimeout s with blinkRate := 10, upSwitchClosed := false }
  else s

/-- DOWN autostop of the RUN-mode body (main.c lines 400-405). -/
def autoStopDown (s : MState) : MState :=
  if s.nextPosition = Pos.bot ∧ s.clicks ≤ s.bottomThreshold then
    setUpNextPosition
      { startBlockTimeout s with blinkRate := 10, downSwitchClosed := false }
  else s

/-- Settle arming of the RUN-mode body (main.c lines 407-409). -/
def settleArm (s : MState) : MState :=
  if s.nextPosition = Pos.mid ∧ s.clicks ≥ s.middleThreshold - 10 then
    startMiddlePositionTimeout s
  else s

/-- RUN-mode body of the supervisor loop (main.c lines 385-409): while UP
is held, cancel the settle timer and autostop at the MID or TOP threshold;
while DOWN is held, cancel the settle timer and autostop at the BOT
threshold; while neither is held, arm the settle timer inside the MID grace
window. -/
def runModeEvaluation (s : MState) : MState :=
  if s.upBtn.pressed then autoStopUp (stopMiddlePositionTimeout s)
  else if s.downBtn.pressed then autoStopDown (stopMiddlePositionTimeout s)
  else settleArm s

/-- PROGRAM-mode safety of the supervisor loop (main.c lines 410-415). -/
def progSafety (s : MState) : MState :=
  if isGoingBelowPreviousThreshold s then openBothSwitches s else s

/-- Mode-dependent tail of the supervisor loop body. -/
def modeBody (s : MState) : MState :=
  if s.mode = 2 then runModeEvaluation s
  else if s.mode = 1 then progSafety s
  else s

/-- Unblocked branch of the supervisor loop (main.c lines 382-415): service
UP and DOWN, then run the mode-dependent body. -/
def unblockedBody (s : MState) : MState :=
  modeBody (serviceDownButton (serviceUpButton s))

/-- PROGRAM-button phase of the supervisor loop (main.c lines 377-379). -/
def progPhase (s : MState) : MState :=
  if s.mode = 1 then serviceProgramButton s else s

/-- Block gate of the supervisor loop (main.c lines 381-419): when block is
latched force both relays open, otherwise run the unblocked branch. -/
def blockGate (s : MState) : MState :=
  if s.block then openBothSwitches s else unblockedBody s

/-- One iteration of the supervisor while-loop of main (main.c lines
375-420). -/
def loopIter (s : MState) : MState :=
  blockGate (progPhase (serviceTumbler s))

/-- The state after main's initialisation (main.c lines 357-373) given the
two NVRAM words m (offset 0) and t (offset 4): globals at their C initial
values, thresholds read from NVRAM, clicks preset to the top threshold,
full speed selected, the TOP LED lit for currPosition. -/
def bootState (m t : Int) : MState :=
  { tumbler := ⟨255, false, false⟩
    progBtn := ⟨255, false, false⟩
    upBtn := ⟨255, false, false⟩
    downBtn := ⟨255, false, false⟩
    clicks := t
    mode := 0
    block := false
    nextPosition := Pos.bot
    currPosition := Pos.top
    blinkRate := 10
    blinkCounter := 10
    lastDirection := 0
    modePullState := 1
    stateOnPullDown := 14
    stateOnPullUp := 14
    middlePositionTimeout := false
    topThreshold := t
    middleThreshold := m
    bottomThreshold := 0
    currThreshold := 0
    upSwitchClosed := false
    downSwitchClosed := false
    speedFullSel := true
    ledBot := false
    ledMid := false
    ledTop := true
    timer1running := false
    eeprom0 := m
    eeprom4 := t }

/-- States reachable from some boot state under arbitrary input bits.  The
tick, pulse and supervisor-iteration events may occur at any time; the
timer-1 overflow only while its clock is running. -/
inductive Reachable : MState → Prop where
  | boot (m t : Int) : Reachable (bootState m t)
  | tick {s : MState} (u d p tb : Bool) : Reachable s → Reachable (timer0Tick u d p tb s)
  | pulse {s : MState} : Reachable s → Reachable (int0Pulse s)
  | timer1 {s : MState} : Reachable s → s.timer1running = true → Reachable (timer1Expire s)
  | loop {s : MState} : Reachable s → Reachable (loopIter s)

/-- Events usable in concrete executions (timer-1 expiry is applied through
its Reachable constructor directly where needed). -/
inductive Event where
  | tick (u d p tb : Bool)
  | pulse
  | loop
deriving DecidableEq

/-- Apply one event. -/
def stepE (e : Event) (s : MState) : MState :=
  match e with
  | Event.tick u d p tb => timer0Tick u d p tb s
  | Event.pulse => int0Pulse s
  | Event.loop => loopIter s

/-- Run a list of events left to right. -/
def runEvents (s : MState) (tr : List Event) : MState :=
  tr.foldl (fun st e => stepE e st) s

theorem reachable_stepE {s : MState} (e : Event) (h : Reachable s) :
    Reachable (stepE e s) := by
  cases e with
  | tick u d p tb => exact Reachable.tick u d p tb h
  | pulse => exact Reachable.pulse h
  | loop => exact Reachable.loop h

theorem reachable_runEvents {s : MState} (tr : List Event) (h : Reachable s) :
    Reachable (runEvents s tr) := by
  induction tr generalizing s with
  | nil => exact h
  | cons e tr ih => exact ih (reachable_stepE e h)

@[simp] theorem ledSet_tumbler (p : Pos) (b : Bool) (s : MState) :
    (ledSet p b s).tumbler = s.tumbler := rfl

@[simp] theorem ledSet_progBtn (p : Pos) (b : Bool) (s : MState) :
    (ledSet p b s).progBtn = s.progBtn := rfl

@[simp] theorem ledSet_upBtn (p : Pos) (b : Bool) (s : MState) :
    (ledSet p b s).upBtn = s.upBtn := rfl

@[simp] theorem ledSet_downBtn (p : Pos) (b : Bool) (s : MState) :
    (ledSet p b s).downBtn = s.downBtn := rfl

@[simp] theorem ledSet_clicks (p : Pos) (b : Bool) (s : MState) :
    (ledSet p b s).clicks = s.clicks := rfl

@[simp] theorem ledSet_mode (p : Pos) (b : Bool) (s : MState) :
    (ledSet p b s).mode = s.mode := rfl

@[simp] theorem ledSet_block (p : Pos) (b : Bool) (s : MState) :
    (ledSet p b s).block = s.block := rfl

@[simp] theorem ledSet_nextPosition (p : Pos) (b : Bool) (s : MState) :
    (ledSet p b s).nextPosition = s.nextPosition := rfl

@[simp] theorem ledSet_currPosition (p : Pos) (b : Bool) (s : MState) :
    (ledSet p b s).currPosition = s.currPosition := rfl

@[simp] theorem ledSet_blinkRate (p : Pos) (b : Bool) (s : MState) :
    (ledSet p b s).blinkRate = s.blinkRate := rfl

@[simp] theorem ledSet_lastDirection (p : Pos) (b : Bool) (s : MState) :
    (ledSet p b s).lastDirection = s.lastDirection := rfl

@[simp] theorem ledSet_modePullState (p : Pos) (b : Bool) (s : MState) :
    (ledSet p b s).modePullState = s.modePullState := rfl

@[simp] theorem ledSet_stateOnPullDown (p : Pos) (b : Bool) (s : MState) :
    (ledSet p b s).stateOnPullDown = s.stateOnPullDown := rfl

@[simp] theorem ledSet_stateOnPullUp (p : Pos) (b : Bool) (s : MState) :
    (ledSet p b s).stateOnPullUp = s.stateOnPullUp := rfl

@[simp] theorem ledSet_middlePositionTimeout (p : Pos) (b : Bool) (s : MState) :
    (ledSet p b s).middlePositionTimeout = s.middlePositionTimeout := rfl

@[simp] theorem ledSet_topThreshold (p : Pos) (b : Bool) (s : MState) :
    (ledSet p b s).topThreshold = s.topThreshold := rfl

@[simp] theorem ledSet_middleThreshold (p : Pos) (b : Bool) (s : MState) :
    (ledSet p b s).middleThreshold = s.middleThreshold := rfl

@[simp] theorem ledSet_bottomThreshold (p : Pos) (b : Bool) (s : MState) :
    (ledSet p b s).bottomThreshold = s.bottomThreshold := rfl

@[simp] theorem ledSet_upSwitchClosed (p : Pos) (b : Bool) (s : MState) :
    (ledSet p b s).upSwitchClosed = s.upSwitchClosed := rfl

@[simp] theorem ledSet_downSwitchClosed (p : Pos) (b : Bool) (s : MState) :
    (ledSet p b s).downSwitchClosed = s.downSwitchClosed := rfl

@[simp] theorem ledSet_timer1running (p : Pos) (b : Bool) (s : MState) :
    (ledSet p b s).timer1running = s.timer1running := rfl

@[simp] theorem ledSet_eeprom0 (p : Pos) (b : Bool) (s : MState) :
    (ledSet p b s).eeprom0 = s.eeprom0 := rfl

@[simp] theorem ledSet_eeprom4 (p : Pos) (b : Bool) (s : MState) :
    (ledSet p b s).eeprom4 = s.eeprom4 := rfl

@[simp] theorem toggleLed_tumbler (p : Pos) (s : MState) :
    (toggleLed p s).tumbler = s.tumbler := rfl

@[simp] theorem toggleLed_progBtn (p : Pos) (s : MState) :
    (toggleLed p s).progBtn = s.progBtn := rfl

@[simp] theorem toggleLed_upBtn (p : Pos) (s : MState) :
    (toggleLed p s).upBtn = s.upBtn := rfl

@[simp] theorem toggleLed_downBtn (p : Pos) (s : MState) :
    (toggleLed p s).downBtn = s.downBtn := rfl

@[simp] theorem toggleLed_clicks (p : Pos) (s : MState) :
    (toggleLed p s).clicks = s.clicks := rfl

@[simp] theorem toggleLed_mode (p : Pos) (s : MState) :
    (toggleLed p s).mode = s.mode := rfl

@[simp] theorem toggleLed_block (p : Pos) (s : MState) :
    (toggleLed p s).block = s.block := rfl

@[simp] theorem toggleLed_nextPosition (p : Pos) (s : MState) :
    (toggleLed p s).nextPosition = s.nextPosition := rfl

@[simp] theorem toggleLed_currPosition (p : Pos) (s : MState) :
    (toggleLed p s).currPosition = s.currPosition := rfl

@[simp] theorem toggleLed_blinkRate (p : Pos) (s : MState) :
    (toggleLed p s).blinkRate = s.blinkRate := rfl

@[simp] theorem toggleLed_lastDirection (p : Pos) (s : MState) :
    (toggleLed p s).lastDirection = s.lastDirection := rfl

@[simp] theorem toggleLed_modePullState (p : Pos) (s : MState) :
    (toggleLed p s).modePullState = s.modePullState := rfl

@[simp] theorem toggleLed_stateOnPullDown (p : Pos) (s : MState) :
    (toggleLed p s).stateOnPullDown = s.stateOnPullDown := rfl

@[simp] theorem toggleLed_stateOnPullUp (p : Pos) (s : MState) :
    (toggleLed p s).stateOnPullUp = s.stateOnPullUp := rfl

@[simp] theorem toggleLed_middlePositionTimeout (p : Pos) (s : MState) :
    (toggleLed p s).middlePositionTimeout = s.middlePositionTimeout := rfl

@[simp] theorem toggleLed_topThreshold (p : Pos) (s : MState) :
    (toggleLed p s).topThreshold = s.topThreshold := rfl

@[simp] theorem toggleLed_middleThreshold (p : Pos) (s : MState) :
    (toggleLed p s).middleThreshold = s.middleThreshold := rfl

@[simp] theorem toggleLed_bottomThreshold (p : Pos) (s : MState) :
    (toggleLed p s).bottomThreshold = s.bottomThreshold := rfl

@[simp] theorem toggleLed_upSwitchClosed (p : Pos) (s : MState) :
    (toggleLed p s).upSwitchClosed = s.upSwitchClosed := rfl

@[simp] theorem toggleLed_downSwitchClosed (p : Pos) (s : MState) :
    (toggleLed p s).downSwitchClosed = s.downSwitchClosed := rfl

@[simp] theorem toggleLed_timer1running (p : Pos) (s : MState) :
    (toggleLed p s).timer1running = s.timer1running := rfl

@[simp] theorem toggleLed_eeprom0 (p : Pos) (s : MState) :
    (toggleLed p s).eeprom0 = s.eeprom0 := rfl

@[simp] theorem toggleLed_eeprom4 (p : Pos) (s : MState) :
    (toggleLed p s).eeprom4 = s.eeprom4 := rfl

@[simp] theorem advanceStep1_tumbler (s : MState) :
    (advanceStep1 s).tumbler = s.tumbler := rfl

@[simp] theorem advanceStep1_progBtn (s : MState) :
    (advanceStep1 s).progBtn = s.progBtn := rfl

@[simp] theorem advanceStep1_upBtn (s : MState) :
    (advanceStep1 s).upBtn = s.upBtn := rfl

@[simp] theorem advanceStep1_downBtn (s : MState) :
    (advanceStep1 s).downBtn = s.downBtn := rfl

@[simp] theorem advanceStep1_clicks (s : MState) :
    (advanceStep1 s).clicks = s.clicks := rfl

@[simp] theorem advanceStep1_mode (s : MState) :
    (advanceStep1 s).mode = s.mode := rfl

@[simp] theorem advanceStep1_block (s : MState) :
    (advanceStep1 s).block = s.block := rfl

@[simp] theorem advanceStep1_nextPosition (s : MState) :
    (advanceStep1 s).nextPosition = s.nextPosition := rfl

@[simp] theorem advanceStep1_blinkRate (s : MState) :
    (advanceStep1 s).blinkRate = s.blinkRate := rfl

@[simp] theorem advanceStep1_lastDirection (s : MState) :
    (advanceStep1 s).lastDirection = s.lastDirection := rfl

@[simp] theorem advanceStep1_modePullState (s : MState) :
    (advanceStep1 s).modePullState = s.modePullState := rfl

@[simp] theorem advanceStep1_stateOnPullDown (s : MState) :
    (advanceStep1 s).stateOnPullDown = s.stateOnPullDown := rfl

@[simp] theorem advanceStep1_stateOnPullUp (s : MState) :
    (advanceStep1 s).stateOnPullUp = s.stateOnPullUp := rfl

@[simp] theorem advanceStep1_middlePositionTimeout (s : MState) :
    (advanceStep1 s).middlePositionTimeout = s.middlePositionTimeout := rfl

@[simp] theorem advanceStep1_topThreshold (s : MState) :
    (advanceStep1 s).topThreshold = s.topThreshold := rfl

@[simp] theorem advanceStep1_middleThreshold (s : MState) :
    (advanceStep1 s).middleThreshold = s.middleThreshold := rfl

@[simp] theorem advanceStep1_bottomThreshold (s : MState) :
    (advanceStep1 s).bottomThreshold = s.bottomThreshold := rfl

@[simp] theorem advanceStep1_upSwitchClosed (s : MState) :
    (advanceStep1 s).upSwitchClosed = s.upSwitchClosed := rfl

@[simp] theorem advanceStep1_downSwitchClosed (s : MState) :
    (advanceStep1 s).downSwitchClosed = s.downSwitchClosed := rfl

@[simp] theorem advanceStep1_timer1running (s : MState) :
    (advanceStep1 s).timer1running = s.timer1running := rfl

@[simp] theorem advanceStep1_eeprom0 (s : MState) :
    (advanceStep1 s).eeprom0 = s.eeprom0 := rfl

@[simp] theorem advanceStep1_eeprom4 (s : MState) :
    (advanceStep1 s).eeprom4 = s.eeprom4 := rfl

@[simp] theorem advanceStep2_tumbler (s : MState) :
    (advanceStep2 s).tumbler = s.tumbler := rfl

@[simp] theorem advanceStep2_progBtn (s : MState) :
    (advanceStep2 s).progBtn = s.progBtn := rfl

@[simp] theorem advanceStep2_upBtn (s : MState) :
    (advanceStep2 s).upBtn = s.upBtn := rfl

@[simp] theorem advanceStep2_downBtn (s : MState) :
    (advanceStep2 s).downBtn = s.downBtn := rfl

@[simp] theorem advanceStep2_clicks (s : MState) :
    (advanceStep2 s).clicks = s.clicks := rfl

@[simp] theorem advanceStep2_mode (s : MState) :
    (advanceStep2 s).mode = s.mode := rfl

@[simp] theorem advanceStep2_block (s : MState) :
    (advanceStep2 s).block = s.block := rfl

@[simp] theorem advanceStep2_currPosition (s : MState) :
    (advanceStep2 s).currPosition = s.currPosition := rfl

@[simp] theorem advanceStep2_blinkRate (s : MState) :
    (advanceStep2 s).blinkRate = s.blinkRate := rfl

@[simp] theorem advanceStep2_lastDirection (s : MState) :
    (advanceStep2 s).lastDirection = s.lastDirection := rfl

@[simp] theorem advanceStep2_modePullState (s : MState) :
    (advanceStep2 s).modePullState = s.modePullState := rfl

@[simp] theorem advanceStep2_stateOnPullDown (s : MState) :
    (advanceStep2 s).stateOnPullDown = s.stateOnPullDown := rfl

@[simp] theorem advanceStep2_stateOnPullUp (s : MState) :
    (advanceStep2 s).stateOnPullUp = s.stateOnPullUp := rfl

@[simp] theorem advanceStep2_middlePositionTimeout (s : MState) :
    (advanceStep2 s).middlePositionTimeout = s.middlePositionTimeout := rfl

@[simp] theorem advanceStep2_topThreshold (s : MState) :
    (advanceStep2 s).topThreshold = s.topThreshold := rfl

@[simp] theorem advanceStep2_middleThreshold (s : MState) :
    (advanceStep2 s).middleThreshold = s.middleThreshold := rfl

@[simp] theorem advanceStep2_bottomThreshold (s : MState) :
    (advanceStep2 s).bottomThreshold = s.bottomThreshold := rfl

@[simp] theorem advanceStep2_upSwitchClosed (s : MState) :
    (advanceStep2 s).upSwitchClosed = s.upSwitchClosed := rfl

@[simp] theorem advanceStep2_downSwitchClosed (s : MState) :
    (advanceStep2 s).downSwitchClosed = s.downSwitchClosed := rfl

@[simp] theorem advanceStep2_timer1running (s : MState) :
    (advanceStep2 s).timer1running = s.timer1running := rfl

@[simp] theorem advanceStep2_eeprom0 (s : MState) :
    (advanceStep2 s).eeprom0 = s.eeprom0 := rfl

@[simp] theorem advanceStep2_eeprom4 (s : MState) :
    (advanceStep2 s).eeprom4 = s.eeprom4 := rfl

@[simp] theorem startBlockTimeout_tumbler (s : MState) :
    (startBlockTimeout s).tumbler = s.tumbler := rfl

@[simp] theorem startBlockTimeout_progBtn (s : MState) :
    (startBlockTimeout s).progBtn = s.progBtn := rfl

@[simp] theorem startBlockTimeout_upBtn (s : MState) :
    (startBlockTimeout s).upBtn = s.upBtn := rfl

@[simp] theorem startBlockTimeout_downBtn (s : MState) :
    (startBlockTimeout s).downBtn = s.downBtn := rfl

@[simp] theorem startBlockTimeout_clicks (s : MState) :
    (startBlockTimeout s).clicks = s.clicks := rfl

@[simp] theorem startBlockTimeout_mode (s : MState) :
    (startBlockTimeout s).mode = s.mode := rfl

@[simp] theorem startBlockTimeout_nextPosition (s : MState) :
    (startBlockTimeout s).nextPosition = s.nextPosition := rfl

@[simp] theorem startBlockTimeout_currPosition (s : MState) :
    (startBlockTimeout s).currPosition = s.currPosition := rfl

@[simp] theorem startBlockTimeout_blinkRate (s : MState) :
    (startBlockTimeout s).blinkRate = s.blinkRate := rfl

@[simp] theorem startBlockTimeout_lastDirection (s : MState) :
    (startBlockTimeout s).lastDirection = s.lastDirection := rfl

@[simp] theorem startBlockTimeout_modePullState (s : MState) :
    (startBlockTimeout s).modePullState = s.modePullState := rfl

@[simp] theorem startBlockTimeout_stateOnPullDown (s : MState) :
    (startBlockTimeout s).stateOnPullDown = s.stateOnPullDown := rfl

@[simp] theorem startBlockTimeout_stateOnPullUp (s : MState) :
    (startBlockTimeout s).stateOnPullUp = s.stateOnPullUp := rfl

@[simp] theorem startBlockTimeout_middlePositionTimeout (s : MState) :
    (startBlockTimeout s).middlePositionTimeout = s.middlePositionTimeout := rfl

@[simp] theorem startBlockTimeout_topThreshold (s : MState) :
    (startBlockTimeout s).topThreshold = s.topThreshold := rfl

@[simp] theorem startBlockTimeout_middleThreshold (s : MState) :
    (startBlockTimeout s).middleThreshold = s.middleThreshold := rfl

@[simp] theorem startBlockTimeout_bottomThreshold (s : MState) :
    (startBlockTimeout s).bottomThreshold = s.bottomThreshold := rfl

@[simp] theorem startBlockTimeout_upSwitchClosed (s : MState) :
    (startBlockTimeout s).upSwitchClosed = s.upSwitchClosed := rfl

@[simp] theorem startBlockTimeout_downSwitchClosed (s : MState) :
    (startBlockTimeout s).downSwitchClosed = s.downSwitchClosed := rfl

@[simp] theorem startBlockTimeout_eeprom0 (s : MState) :
    (startBlockTimeout s).eeprom0 = s.eeprom0 := rfl

@[simp] theorem startBlockTimeout_eeprom4 (s : MState) :
    (startBlockTimeout s).eeprom4 = s.eeprom4 := rfl

@[simp] theorem stopMiddlePositionTimeout_tumbler (s : MState) :
    (stopMiddlePositionTimeout s).tumbler = s.tumbler := rfl

@[simp] theorem stopMiddlePositionTimeout_progBtn (s : MState) :
    (stopMiddlePositionTimeout s).progBtn = s.progBtn := rfl

@[simp] theorem stopMiddlePositionTimeout_upBtn (s : MState) :
    (stopMiddlePositionTimeout s).upBtn = s.upBtn := rfl

@[simp] theorem stopMiddlePositionTimeout_downBtn (s : MState) :
    (stopMiddlePositionTimeout s).downBtn = s.downBtn := rfl

@[simp] theorem stopMiddlePositionTimeout_clicks (s : MState) :
    (stopMiddlePositionTimeout s).clicks = s.clicks := rfl

@[simp] theorem stopMiddlePositionTimeout_mode (s : MState) :
    (stopMiddlePositionTimeout s).mode = s.mode := rfl

@[simp] theorem stopMiddlePositionTimeout_block (s : MState) :
    (stopMiddlePositionTimeout s).block = s.block := rfl

@[simp] theorem stopMiddlePositionTimeout_nextPosition (s : MState) :
    (stopMiddlePositionTimeout s).nextPosition = s.nextPosition := rfl

@[simp] theorem stopMiddlePositionTimeout_currPosition (s : MState) :
    (stopMiddlePositionTimeout s).currPosition = s.currPosition := rfl

@[simp] theorem stopMiddlePositionTimeout_blinkRate (s : MState) :
    (stopMiddlePositionTimeout s).blinkRate = s.blinkRate := rfl

@[simp] theorem stopMiddlePositionTimeout_lastDirection (s : MState) :
    (stopMiddlePositionTimeout s).lastDirection = s.lastDirection := rfl

@[simp] theorem stopMiddlePositionTimeout_modePullState (s : MState) :
    (stopMiddlePositionTimeout s).modePullState = s.modePullState := rfl

@[simp] theorem stopMiddlePositionTimeout_stateOnPullDown (s : MState) :
    (stopMiddlePositionTimeout s).stateOnPullDown = s.stateOnPullDown := rfl

@[simp] theorem stopMiddlePositionTimeout_stateOnPullUp (s : MState) :
    (stopMiddlePositionTimeout s).stateOnPullUp = s.stateOnPullUp := rfl

@[simp] theorem stopMiddlePositionTimeout_topThreshold (s : MState) :
    (stopMiddlePositionTimeout s).topThreshold = s.topThreshold := rfl

@[simp] theorem stopMiddlePositionTimeout_middleThreshold (s : MState) :
    (stopMiddlePositionTimeout s).middleThreshold = s.middleThreshold := rfl

@[simp] theorem stopMiddlePositionTimeout_bottomThreshold (s : MState) :
    (stopMiddlePositionTimeout s).bottomThreshold = s.bottomThreshold := rfl

@[simp] theorem stopMiddlePositionTimeout_upSwitchClosed (s : MState) :
    (stopMiddlePositionTimeout s).upSwitchClosed = s.upSwitchClosed := rfl

@[simp] theorem stopMiddlePositionTimeout_downSwitchClosed (s : MState) :
    (stopMiddlePositionTimeout s).downSwitchClosed = s.downSwitchClosed := rfl

@[simp] theorem stopMiddlePositionTimeout_eeprom0 (s : MState) :
    (stopMiddlePositionTimeout s).eeprom0 = s.eeprom0 := rfl

@[simp] theorem stopMiddlePositionTimeout_eeprom4 (s : MState) :
    (stopMiddlePositionTimeout s).eeprom4 = s.eeprom4 := rfl

@[simp] theorem onUpButtonReleased_tumbler (s : MState) :
    (onUpButtonReleased s).tumbler = s.tumbler := rfl

@[simp] theorem onUpButtonReleased_progBtn (s : MState) :
    (onUpButtonReleased s).progBtn = s.progBtn := rfl

@[simp] theorem onUpButtonReleased_upBtn (s : MState) :
    (onUpButtonReleased s).upBtn = s.upBtn := rfl

@[simp] theorem onUpButtonReleased_downBtn (s : MState) :
    (onUpButtonReleased s).downBtn = s.downBtn := rfl

@[simp] theorem onUpButtonReleased_clicks (s : MState) :
    (onUpButtonReleased s).clicks = s.clicks := rfl

@[simp] theorem onUpButtonReleased_mode (s : MState) :
    (onUpButtonReleased s).mode = s.mode := rfl

@[simp] theorem onUpButtonReleased_block (s : MState) :
    (onUpButtonReleased s).block = s.block := rfl

@[simp] theorem onUpButtonReleased_nextPosition (s : MState) :
    (onUpButtonReleased s).nextPosition = s.nextPosition := rfl

@[simp] theorem onUpButtonReleased_currPosition (s : MState) :
    (onUpButtonReleased s).currPosition = s.currPosition := rfl

@[simp] theorem onUpButtonReleased_lastDirection (s : MState) :
    (onUpButtonReleased s).lastDirection = s.lastDirection := rfl

@[simp] theorem onUpButtonReleased_modePullState (s : MState) :
    (onUpButtonReleased s).modePullState = s.modePullState := rfl

@[simp] theorem onUpButtonReleased_stateOnPullDown (s : MState) :
    (onUpButtonReleased s).stateOnPullDown = s.stateOnPullDown := rfl

@[simp] theorem onUpButtonReleased_stateOnPullUp (s : MState) :
    (onUpButtonReleased s).stateOnPullUp = s.stateOnPullUp := rfl

@[simp] theorem onUpButtonReleased_middlePositionTimeout (s : MState) :
    (onUpButtonReleased s).middlePositionTimeout = s.middlePositionTimeout := rfl

@[simp] theorem onUpButtonReleased_topThreshold (s : MState) :
    (onUpButtonReleased s).topThreshold = s.topThreshold := rfl

@[simp] theorem onUpButtonReleased_middleThreshold (s : MState) :
    (onUpButtonReleased s).middleThreshold = s.middleThreshold := rfl

@[simp] theorem onUpButtonReleased_bottomThreshold (s : MState) :
    (onUpButtonReleased s).bottomThreshold = s.bottomThreshold := rfl

@[simp] theorem onUpButtonReleased_downSwitchClosed (s : MState) :
    (onUpButtonReleased s).downSwitchClosed = s.downSwitchClosed := rfl

@[simp] theorem onUpButtonReleased_timer1running (s : MState) :
    (onUpButtonReleased s).timer1running = s.timer1running := rfl

@[simp] theorem onUpButtonReleased_eeprom0 (s : MState) :
    (onUpButtonReleased s).eeprom0 = s.eeprom0 := rfl

@[simp] theorem onUpButtonReleased_eeprom4 (s : MState) :
    (onUpButtonReleased s).eeprom4 = s.eeprom4 := rfl

@[simp] theorem onDownButtonReleased_tumbler (s : MState) :
    (onDownButtonReleased s).tumbler = s.tumbler := rfl

@[simp] theorem onDownButtonReleased_progBtn (s : MState) :
    (onDownButtonReleased s).progBtn = s.progBtn := rfl

@[simp] theorem onDownButtonReleased_upBtn (s : MState) :
    (onDownButtonReleased s).upBtn = s.upBtn := rfl

@[simp] theorem onDownButtonReleased_downBtn (s : MState) :
    (onDownButtonReleased s).downBtn = s.downBtn := rfl

@[simp] theorem onDownButtonReleased_clicks (s : MState) :
    (onDownButtonReleased s).clicks = s.clicks := rfl

@[simp] theorem onDownButtonReleased_mode (s : MState) :
    (onDownButtonReleased s).mode = s.mode := rfl

@[simp] theorem onDownButtonReleased_block (s : MState) :
    (onDownButtonReleased s).block = s.block := rfl

@[simp] theorem onDownButtonReleased_nextPosition (s : MState) :
    (onDownButtonReleased s).nextPosition = s.nextPosition := rfl

@[simp] theorem onDownButtonReleased_currPosition (s : MState) :
    (onDownButtonReleased s).currPosition = s.currPosition := rfl

@[simp] theorem onDownButtonReleased_lastDirection (s : MState) :
    (onDownButtonReleased s).lastDirection = s.lastDirection := rfl

@[simp] theorem onDownButtonReleased_modePullState (s : MState) :
    (onDownButtonReleased s).modePullState = s.modePullState := rfl

@[simp] theorem onDownButtonReleased_stateOnPullDown (s : MState) :
    (onDownButtonReleased s).stateOnPullDown = s.stateOnPullDown := rfl

@[simp] theorem onDownButtonReleased_stateOnPullUp (s : MState) :
    (onDownButtonReleased s).stateOnPullUp = s.stateOnPullUp := rfl

@[simp] theorem onDownButtonReleased_middlePositionTimeout (s : MState) :
    (onDownButtonReleased s).middlePositionTimeout = s.middlePositionTimeout := rfl

@[simp] theorem onDownButtonReleased_topThreshold (s : MState) :
    (onDownButtonReleased s).topThreshold = s.topThreshold := rfl

@[simp] theorem onDownButtonReleased_middleThreshold (s : MState) :
    (onDownButtonReleased s).middleThreshold = s.middleThreshold := rfl

@[simp] theorem onDownButtonReleased_bottomThreshold (s : MState) :
    (onDownButtonReleased s).bottomThreshold = s.bottomThreshold := rfl

@[simp] theorem onDownButtonReleased_upSwitchClosed (s : MState) :
    (onDownButtonReleased s).upSwitchClosed = s.upSwitchClosed := rfl

@[simp] theorem onDownButtonReleased_timer1running (s : MState) :
    (onDownButtonReleased s).timer1running = s.timer1running := rfl

@[simp] theorem onDownButtonReleased_eeprom0 (s : MState) :
    (onDownButtonReleased s).eeprom0 = s.eeprom0 := rfl

@[simp] theorem onDownButtonReleased_eeprom4 (s : MState) :
    (onDownButtonReleased s).eeprom4 = s.eeprom4 := rfl

@[simp] theorem teachAdv1_tumbler (s : MState) :
    (teachAdv1 s).tumbler = s.tumbler := rfl

@[simp] theorem teachAdv1_progBtn (s : MState) :
    (teachAdv1 s).progBtn = s.progBtn := rfl

@[simp] theorem teachAdv1_upBtn (s : MState) :
    (teachAdv1 s).upBtn = s.upBtn := rfl

@[simp] theorem teachAdv1_downBtn (s : MState) :
    (teachAdv1 s).downBtn = s.downBtn := rfl

@[simp] theorem teachAdv1_clicks (s : MState) :
    (teachAdv1 s).clicks = s.clicks := rfl

@[simp] theorem teachAdv1_mode (s : MState) :
    (teachAdv1 s).mode = s.mode := rfl

@[simp] theorem teachAdv1_block (s : MState) :
    (teachAdv1 s).block = s.block := rfl

@[simp] theorem teachAdv1_nextPosition (s : MState) :
    (teachAdv1 s).nextPosition = s.nextPosition := rfl

@[simp] theorem teachAdv1_blinkRate (s : MState) :
    (teachAdv1 s).blinkRate = s.blinkRate := rfl

@[simp] theorem teachAdv1_lastDirection (s : MState) :
    (teachAdv1 s).lastDirection = s.lastDirection := rfl

@[simp] theorem teachAdv1_modePullState (s : MState) :
    (teachAdv1 s).modePullState = s.modePullState := rfl

@[simp] theorem teachAdv1_stateOnPullDown (s : MState) :
    (teachAdv1 s).stateOnPullDown = s.stateOnPullDown := rfl

@[simp] theorem teachAdv1_stateOnPullUp (s : MState) :
    (teachAdv1 s).stateOnPullUp = s.stateOnPullUp := rfl

@[simp] theorem teachAdv1_middlePositionTimeout (s : MState) :
    (teachAdv1 s).middlePositionTimeout = s.middlePositionTimeout := rfl

@[simp] theorem teachAdv1_topThreshold (s : MState) :
    (teachAdv1 s).topThreshold = s.topThreshold := rfl

@[simp] theorem teachAdv1_middleThreshold (s : MState) :
    (teachAdv1 s).middleThreshold = s.middleThreshold := rfl

@[simp] theorem teachAdv1_bottomThreshold (s : MState) :
    (teachAdv1 s).bottomThreshold = s.bottomThreshold := rfl

@[simp] theorem teachAdv1_upSwitchClosed (s : MState) :
    (teachAdv1 s).upSwitchClosed = s.upSwitchClosed := rfl

@[simp] theorem teachAdv1_downSwitchClosed (s : MState) :
    (teachAdv1 s).downSwitchClosed = s.downSwitchClosed := rfl

@[simp] theorem teachAdv1_timer1running (s : MState) :
    (teachAdv1 s).timer1running = s.timer1running := rfl

@[simp] theorem teachAdv1_eeprom0 (s : MState) :
    (teachAdv1 s).eeprom0 = s.eeprom0 := rfl

@[simp] theorem teachAdv1_eeprom4 (s : MState) :
    (teachAdv1 s).eeprom4 = s.eeprom4 := rfl

@[simp] theorem teachAdv2_tumbler (s : MState) :
    (teachAdv2 s).tumbler = s.tumbler := rfl

@[simp] theorem teachAdv2_progBtn (s : MState) :
    (teachAdv2 s).progBtn = s.progBtn := rfl

@[simp] theorem teachAdv2_upBtn (s : MState) :
    (teachAdv2 s).upBtn = s.upBtn := rfl

@[simp] theorem teachAdv2_downBtn (s : MState) :
    (teachAdv2 s).downBtn = s.downBtn := rfl

@[simp] theorem teachAdv2_clicks (s : MState) :
    (teachAdv2 s).clicks = s.clicks := rfl

@[simp] theorem teachAdv2_mode (s : MState) :
    (teachAdv2 s).mode = s.mode := rfl

@[simp] theorem teachAdv2_block (s : MState) :
    (teachAdv2 s).block = s.block := rfl

@[simp] theorem teachAdv2_currPosition (s : MState) :
    (teachAdv2 s).currPosition = s.currPosition := rfl

@[simp] theorem teachAdv2_blinkRate (s : MState) :
    (teachAdv2 s).blinkRate = s.blinkRate := rfl

@[simp] theorem teachAdv2_lastDirection (s : MState) :
    (teachAdv2 s).lastDirection = s.lastDirection := rfl

@[simp] theorem teachAdv2_modePullState (s : MState) :
    (teachAdv2 s).modePullState = s.modePullState := rfl

@[simp] theorem teachAdv2_stateOnPullDown (s : MState) :
    (teachAdv2 s).stateOnPullDown = s.stateOnPullDown := rfl

@[simp] theorem teachAdv2_stateOnPullUp (s : MState) :
    (teachAdv2 s).stateOnPullUp = s.stateOnPullUp := rfl

@[simp] theorem teachAdv2_middlePositionTimeout (s : MState) :
    (teachAdv2 s).middlePositionTimeout = s.middlePositionTimeout := rfl

@[simp] theorem teachAdv2_topThreshold (s : MState) :
    (teachAdv2 s).topThreshold = s.topThreshold := rfl

@[simp] theorem teachAdv2_middleThreshold (s : MState) :
    (teachAdv2 s).middleThreshold = s.middleThreshold := rfl

@[simp] theorem teachAdv2_bottomThreshold (s : MState) :
    (teachAdv2 s).bottomThreshold = s.bottomThreshold := rfl

@[simp] theorem teachAdv2_upSwitchClosed (s : MState) :
    (teachAdv2 s).upSwitchClosed = s.upSwitchClosed := rfl

@[simp] theorem teachAdv2_downSwitchClosed (s : MState) :
    (teachAdv2 s).downSwitchClosed = s.downSwitchClosed := rfl

@[simp] theorem teachAdv2_timer1running (s : MState) :
    (teachAdv2 s).timer1running = s.timer1running := rfl

@[simp] theorem teachAdv2_eeprom0 (s : MState) :
    (teachAdv2 s).eeprom0 = s.eeprom0 := rfl

@[simp] theorem teachAdv2_eeprom4 (s : MState) :
    (teachAdv2 s).eeprom4 = s.eeprom4 := rfl

@[simp] theorem allLedsOff_tumbler (s : MState) :
    (allLedsOff s).tumbler = s.tumbler := rfl

@[simp] theorem allLedsOff_progBtn (s : MState) :
    (allLedsOff s).progBtn = s.progBtn := rfl

@[simp] theorem allLedsOff_upBtn (s : MState) :
    (allLedsOff s).upBtn = s.upBtn := rfl

@[simp] theorem allLedsOff_downBtn (s : MState) :
    (allLedsOff s).downBtn = s.downBtn := rfl

@[simp] theorem allLedsOff_clicks (s : MState) :
    (allLedsOff s).clicks = s.clicks := rfl

@[simp] theorem allLedsOff_mode (s : MState) :
    (allLedsOff s).mode = s.mode := rfl

@[simp] theorem allLedsOff_block (s : MState) :
    (allLedsOff s).block = s.block := rfl

@[simp] theorem allLedsOff_nextPosition (s : MState) :
    (allLedsOff s).nextPosition = s.nextPosition := rfl

@[simp] theorem allLedsOff_currPosition (s : MState) :
    (allLedsOff s).currPosition = s.currPosition := rfl

@[simp] theorem allLedsOff_blinkRate (s : MState) :
    (allLedsOff s).blinkRate = s.blinkRate := rfl

@[simp] theorem allLedsOff_lastDirection (s : MState) :
    (allLedsOff s).lastDirection = s.lastDirection := rfl

@[simp] theorem allLedsOff_modePullState (s : MState) :
    (allLedsOff s).modePullState = s.modePullState := rfl

@[simp] theorem allLedsOff_stateOnPullDown (s : MState) :
    (allLedsOff s).stateOnPullDown = s.stateOnPullDown := rfl

@[simp] theorem allLedsOff_stateOnPullUp (s : MState) :
    (allLedsOff s).stateOnPullUp = s.stateOnPullUp := rfl

@[simp] theorem allLedsOff_middlePositionTimeout (s : MState) :
    (allLedsOff s).middlePositionTimeout = s.middlePositionTimeout := rfl

@[simp] theorem allLedsOff_topThreshold (s : MState) :
    (allLedsOff s).topThreshold = s.topThreshold := rfl

@[simp] theorem allLedsOff_middleThreshold (s : MState) :
    (allLedsOff s).middleThreshold = s.middleThreshold := rfl

@[simp] theorem allLedsOff_bottomThreshold (s : MState) :
    (allLedsOff s).bottomThreshold = s.bottomThreshold := rfl

@[simp] theorem allLedsOff_upSwitchClosed (s : MState) :
    (allLedsOff s).upSwitchClosed = s.upSwitchClosed := rfl

@[simp] theorem allLedsOff_downSwitchClosed (s : MState) :
    (allLedsOff s).downSwitchClosed = s.downSwitchClosed := rfl

@[simp] theorem allLedsOff_timer1running (s : MState) :
    (allLedsOff s).timer1running = s.timer1running := rfl

@[simp] theorem allLedsOff_eeprom0 (s : MState) :
    (allLedsOff s).eeprom0 = s.eeprom0 := rfl

@[simp] theorem allLedsOff_eeprom4 (s : MState) :
    (allLedsOff s).eeprom4 = s.eeprom4 := rfl

@[simp] theorem openBothSwitches_tumbler (s : MState) :
    (openBothSwitches s).tumbler = s.tumbler := rfl

@[simp] theorem openBothSwitches_progBtn (s : MState) :
    (openBothSwitches s).progBtn = s.progBtn := rfl

@[simp] theorem openBothSwitches_upBtn (s : MState) :
    (openBothSwitches s).upBtn = s.upBtn := rfl

@[simp] theorem openBothSwitches_downBtn (s : MState) :
    (openBothSwitches s).downBtn = s.downBtn := rfl

@[simp] theorem openBothSwitches_clicks (s : MState) :
    (openBothSwitches s).clicks = s.clicks := rfl

@[simp] theorem openBothSwitches_mode (s : MState) :
    (openBothSwitches s).mode = s.mode := rfl

@[simp] theorem openBothSwitches_block (s : MState) :
    (openBothSwitches s).block = s.block := rfl

@[simp] theorem openBothSwitches_nextPosition (s : MState) :
    (openBothSwitches s).nextPosition = s.nextPosition := rfl

@[simp] theorem openBothSwitches_currPosition (s : MState) :
    (openBothSwitches s).currPosition = s.currPosition := rfl

@[simp] theorem openBothSwitches_blinkRate (s : MState) :
    (openBothSwitches s).blinkRate = s.blinkRate := rfl

@[simp] theorem openBothSwitches_lastDirection (s : MState) :
    (openBothSwitches s).lastDirection = s.lastDirection := rfl

@[simp] theorem openBothSwitches_modePullState (s : MState) :
    (openBothSwitches s).modePullState = s.modePullState := rfl

@[simp] theorem openBothSwitches_stateOnPullDown (s : MState) :
    (openBothSwitches s).stateOnPullDown = s.stateOnPullDown := rfl

@[simp] theorem openBothSwitches_stateOnPullUp (s : MState) :
    (openBothSwitches s).stateOnPullUp = s.stateOnPullUp := rfl

@[simp] theorem openBothSwitches_middlePositionTimeout (s : MState) :
    (openBothSwitches s).middlePositionTimeout = s.middlePositionTimeout := rfl

@[simp] theorem openBothSwitches_topThreshold (s : MState) :
    (openBothSwitches s).topThreshold = s.topThreshold := rfl

@[simp] theorem openBothSwitches_middleThreshold (s : MState) :
    (openBothSwitches s).middleThreshold = s.middleThreshold := rfl

@[simp] theorem openBothSwitches_bottomThreshold (s : MState) :
    (openBothSwitches s).bottomThreshold = s.bottomThreshold := rfl

@[simp] theorem openBothSwitches_timer1running (s : MState) :
    (openBothSwitches s).timer1running = s.timer1running := rfl

@[simp] theorem openBothSwitches_eeprom0 (s : MState) :
    (openBothSwitches s).eeprom0 = s.eeprom0 := rfl

@[simp] theorem openBothSwitches_eeprom4 (s : MState) :
    (openBothSwitches s).eeprom4 = s.eeprom4 := rfl

@[simp] theorem sampleTumbler_progBtn (tb : Bool) (s : MState) :
    (sampleTumbler tb s).progBtn = s.progBtn := rfl

@[simp] theorem sampleTumbler_upBtn (tb : Bool) (s : MState) :
    (sampleTumbler tb s).upBtn = s.upBtn := rfl

@[simp] theorem sampleTumbler_downBtn (tb : Bool) (s : MState) :
    (sampleTumbler tb s).downBtn = s.downBtn := rfl

@[simp] theorem sampleTumbler_clicks (tb : Bool) (s : MState) :
    (sampleTumbler tb s).clicks = s.clicks := rfl

@[simp] theorem sampleTumbler_mode (tb : Bool) (s : MState) :
    (sampleTumbler tb s).mode = s.mode := rfl

@[simp] theorem sampleTumbler_block (tb : Bool) (s : MState) :
    (sampleTumbler tb s).block = s.block := rfl

@[simp] theorem sampleTumbler_nextPosition (tb : Bool) (s : MState) :
    (sampleTumbler tb s).nextPosition = s.nextPosition := rfl

@[simp] theorem sampleTumbler_currPosition (tb : Bool) (s : MState) :
    (sampleTumbler tb s).currPosition = s.currPosition := rfl

@[simp] theorem sampleTumbler_blinkRate (tb : Bool) (s : MState) :
    (sampleTumbler tb s).blinkRate = s.blinkRate := rfl

@[simp] theorem sampleTumbler_lastDirection (tb : Bool) (s : MState) :
    (sampleTumbler tb s).lastDirection = s.lastDirection := rfl

@[simp] theorem sampleTumbler_modePullState (tb : Bool) (s : MState) :
    (sampleTumbler tb s).modePullState = s.modePullState := rfl

@[simp] theorem sampleTumbler_stateOnPullDown (tb : Bool) (s : MState) :
    (sampleTumbler tb s).stateOnPullDown = s.stateOnPullDown := rfl

@[simp] theorem sampleTumbler_stateOnPullUp (tb : Bool) (s : MState) :
    (sampleTumbler tb s).stateOnPullUp = s.stateOnPullUp := rfl

@[simp] theorem sampleTumbler_middlePositionTimeout (tb : Bool) (s : MState) :
    (sampleTumbler tb s).middlePositionTimeout = s.middlePositionTimeout := rfl

@[simp] theorem sampleTumbler_topThreshold (tb : Bool) (s : MState) :
    (sampleTumbler tb s).topThreshold = s.topThreshold := rfl

@[simp] theorem sampleTumbler_middleThreshold (tb : Bool) (s : MState) :
    (sampleTumbler tb s).middleThreshold = s.middleThreshold := rfl

@[simp] theorem sampleTumbler_bottomThreshold (tb : Bool) (s : MState) :
    (sampleTumbler tb s).bottomThreshold = s.bottomThreshold := rfl

@[simp] theorem sampleTumbler_upSwitchClosed (tb : Bool) (s : MState) :
    (sampleTumbler tb s).upSwitchClosed = s.upSwitchClosed := rfl

@[simp] theorem sampleTumbler_downSwitchClosed (tb : Bool) (s : MState) :
    (sampleTumbler tb s).downSwitchClosed = s.downSwitchClosed := rfl

@[simp] theorem sampleTumbler_timer1running (tb : Bool) (s : MState) :
    (sampleTumbler tb s).timer1running = s.timer1running := rfl

@[simp] theorem sampleTumbler_eeprom0 (tb : Bool) (s : MState) :
    (sampleTumbler tb s).eeprom0 = s.eeprom0 := rfl

@[simp] theorem sampleTumbler_eeprom4 (tb : Bool) (s : MState) :
    (sampleTumbler tb s).eeprom4 = s.eeprom4 := rfl

@[simp] theorem sampleUp_tumbler (u : Bool) (s : MState) :
    (sampleUp u s).tumbler = s.tumbler := by
  unfold sampleUp
  split_ifs <;> rfl

@[simp] theorem sampleUp_progBtn (u : Bool) (s : MState) :
    (sampleUp u s).progBtn = s.progBtn := by
  unfold sampleUp
  split_ifs <;> rfl

@[simp] theorem sampleUp_downBtn (u : Bool) (s : MState) :
    (sampleUp u s).downBtn = s.downBtn := by
  unfold sampleUp
  split_ifs <;> rfl

@[simp] theorem sampleUp_clicks (u : Bool) (s : MState) :
    (sampleUp u s).clicks = s.clicks := by
  unfold sampleUp
  split_ifs <;> rfl

@[simp] theorem sampleUp_mode (u : Bool) (s : MState) :
    (sampleUp u s).mode = s.mode := by
  unfold sampleUp
  split_ifs <;> rfl

@[simp] theorem sampleUp_block (u : Bool) (s : MState) :
    (sampleUp u s).block = s.block := by
  unfold sampleUp
  split_ifs <;> rfl

@[simp] theorem sampleUp_nextPosition (u : Bool) (s : MState) :
    (sampleUp u s).nextPosition = s.nextPosition := by
  unfold sampleUp
  split_ifs <;> rfl

@[simp] theorem sampleUp_currPosition (u : Bool) (s : MState) :
    (sampleUp u s).currPosition = s.currPosition := by
  unfold sampleUp
  split_ifs <;> rfl

@[simp] theorem sampleUp_blinkRate (u : Bool) (s : MState) :
    (sampleUp u s).blinkRate = s.blinkRate := by
  unfold sampleUp
  split_ifs <;> rfl

@[simp] theorem sampleUp_lastDirection (u : Bool) (s : MState) :
    (sampleUp u s).lastDirection = s.lastDirection := by
  unfold sampleUp
  split_ifs <;> rfl

@[simp] theorem sampleUp_modePullState (u : Bool) (s : MState) :
    (sampleUp u s).modePullState = s.modePullState := by
  unfold sampleUp
  split_ifs <;> rfl

@[simp] theorem sampleUp_stateOnPullDown (u : Bool) (s : MState) :
    (sampleUp u s).stateOnPullDown = s.stateOnPullDown := by
  unfold sampleUp
  split_ifs <;> rfl

@[simp] theorem sampleUp_stateOnPullUp (u : Bool) (s : MState) :
    (sampleUp u s).stateOnPullUp = s.stateOnPullUp := by
  unfold sampleUp
  split_ifs <;> rfl

@[simp] theorem sampleUp_middlePositionTimeout (u : Bool) (s : MState) :
    (sampleUp u s).middlePositionTimeout = s.middlePositionTimeout := by
  unfold sampleUp
  split_ifs <;> rfl

@[simp] theorem sampleUp_topThreshold (u : Bool) (s : MState) :
    (sampleUp u s).topThreshold = s.topThreshold := by
  unfold sampleUp
  split_ifs <;> rfl

@[simp] theorem sampleUp_middleThreshold (u : Bool) (s : MState) :
    (sampleUp u s).middleThreshold = s.middleThreshold := by
  unfold sampleUp
  split_ifs <;> rfl

@[simp] theorem sampleUp_bottomThreshold (u : Bool) (s : MState) :
    (sampleUp u s).bottomThreshold = s.bottomThreshold := by
  unfold sampleUp
  split_ifs <;> rfl

@[simp] theorem sampleUp_upSwitchClosed (u : Bool) (s : MState) :
    (sampleUp u s).upSwitchClosed = s.upSwitchClosed := by
  unfold sampleUp
  split_ifs <;> rfl

@[simp] theorem sampleUp_downSwitchClosed (u : Bool) (s : MState) :
    (sampleUp u s).downSwitchClosed = s.downSwitchClosed := by
  unfold sampleUp
  split_ifs <;> rfl

@[simp] theorem sampleUp_timer1running (u : Bool) (s : MState) :
    (sampleUp u s).timer1running = s.timer1running := by
  unfold sampleUp
  split_ifs <;> rfl

@[simp] theorem sampleUp_eeprom0 (u : Bool) (s : MState) :
    (sampleUp u s).eeprom0 = s.eeprom0 := by
  unfold sampleUp
  split_ifs <;> rfl

@[simp] theorem sampleUp_eeprom4 (u : Bool) (s : MState) :
    (sampleUp u s).eeprom4 = s.eeprom4 := by
  unfold sampleUp
  split_ifs <;> rfl

@[simp] theorem sampleDown_tumbler (d : Bool) (s : MState) :
    (sampleDown d s).tumbler = s.tumbler := by
  unfold sampleDown
  split_ifs <;> rfl

@[simp] theorem sampleDown_progBtn (d : Bool) (s : MState) :
    (sampleDown d s).progBtn = s.progBtn := by
  unfold sampleDown
  split_ifs <;> rfl

@[simp] theorem sampleDown_upBtn (d : Bool) (s : MState) :
    (sampleDown d s).upBtn = s.upBtn := by
  unfold sampleDown
  split_ifs <;> rfl

@[simp] theorem sampleDown_clicks (d : Bool) (s : MState) :
    (sampleDown d s).clicks = s.clicks := by
  unfold sampleDown
  split_ifs <;> rfl

@[simp] theorem sampleDown_mode (d : Bool) (s : MState) :
    (sampleDown d s).mode = s.mode := by
  unfold sampleDown
  split_ifs <;> rfl

@[simp] theorem sampleDown_block (d : Bool) (s : MState) :
    (sampleDown d s).block = s.block := by
  unfold sampleDown
  split_ifs <;> rfl

@[simp] theorem sampleDown_nextPosition (d : Bool) (s : MState) :
    (sampleDown d s).nextPosition = s.nextPosition := by
  unfold sampleDown
  split_ifs <;> rfl

@[simp] theorem sampleDown_currPosition (d : Bool) (s : MState) :
    (sampleDown d s).currPosition = s.currPosition := by
  unfold sampleDown
  split_ifs <;> rfl

@[simp] theorem sampleDown_blinkRate (d : Bool) (s : MState) :
    (sampleDown d s).blinkRate = s.blinkRate := by
  unfold sampleDown
  split_ifs <;> rfl

@[simp] theorem sampleDown_lastDirection (d : Bool) (s : MState) :
    (sampleDown d s).lastDirection = s.lastDirection := by
  unfold sampleDown
  split_ifs <;> rfl

@[simp] theorem sampleDown_modePullState (d : Bool) (s : MState) :
    (sampleDown d s).modePullState = s.modePullState := by
  unfold sampleDown
  split_ifs <;> rfl

@[simp] theorem sampleDown_stateOnPullDown (d : Bool) (s : MState) :
    (sampleDown d s).stateOnPullDown = s.stateOnPullDown := by
  unfold sampleDown
  split_ifs <;> rfl

@[simp] theorem sampleDown_stateOnPullUp (d : Bool) (s : MState) :
    (sampleDown d s).stateOnPullUp = s.stateOnPullUp := by
  unfold sampleDown
  split_ifs <;> rfl

@[simp] theorem sampleDown_middlePositionTimeout (d : Bool) (s : MState) :
    (sampleDown d s).middlePositionTimeout = s.middlePositionTimeout := by
  unfold sampleDown
  split_ifs <;> rfl

@[simp] theorem sampleDown_topThreshold (d : Bool) (s : MState) :
    (sampleDown d s).topThreshold = s.topThreshold := by
  unfold sampleDown
  split_ifs <;> rfl

@[simp] theorem sampleDown_middleThreshold (d : Bool) (s : MState) :
    (sampleDown d s).middleThreshold = s.middleThreshold := by
  unfold sampleDown
  split_ifs <;> rfl

@[simp] theorem sampleDown_bottomThreshold (d : Bool) (s : MState) :
    (sampleDown d s).bottomThreshold = s.bottomThreshold := by
  unfold sampleDown
  split_ifs <;> rfl

@[simp] theorem sampleDown_upSwitchClosed (d : Bool) (s : MState) :
    (sampleDown d s).upSwitchClosed = s.upSwitchClosed := by
  unfold sampleDown
  split_ifs <;> rfl

@[simp] theorem sampleDown_downSwitchClosed (d : Bool) (s : MState) :
    (sampleDown d s).downSwitchClosed = s.downSwitchClosed := by
  unfold sampleDown
  split_ifs <;> rfl

@[simp] theorem sampleDown_timer1running (d : Bool) (s : MState) :
    (sampleDown d s).timer1running = s.timer1running := by
  unfold sampleDown
  split_ifs <;> rfl

@[simp] theorem sampleDown_eeprom0 (d : Bool) (s : MState) :
    (sampleDown d s).eeprom0 = s.eeprom0 := by
  unfold sampleDown
  split_ifs <;> rfl

@[simp] theorem sampleDown_eeprom4 (d : Bool) (s : MState) :
    (sampleDown d s).eeprom4 = s.eeprom4 := by
  unfold sampleDown
  split_ifs <;> rfl

@[simp] theorem sampleProg_tumbler (p : Bool) (s : MState) :
    (sampleProg p s).tumbler = s.tumbler := by
  unfold sampleProg
  split_ifs <;> rfl

@[simp] theorem sampleProg_upBtn (p : Bool) (s : MState) :
    (sampleProg p s).upBtn = s.upBtn := by
  unfold sampleProg
  split_ifs <;> rfl

@[simp] theorem sampleProg_downBtn (p : Bool) (s : MState) :
    (sampleProg p s).downBtn = s.downBtn := by
  unfold sampleProg
  split_ifs <;> rfl

@[simp] theorem sampleProg_clicks (p : Bool) (s : MState) :
    (sampleProg p s).clicks = s.clicks := by
  unfold sampleProg
  split_ifs <;> rfl

@[simp] theorem sampleProg_mode (p : Bool) (s : MState) :
    (sampleProg p s).mode = s.mode := by
  unfold sampleProg
  split_ifs <;> rfl

@[simp] theorem sampleProg_block (p : Bool) (s : MState) :
    (sampleProg p s).block = s.block := by
  unfold sampleProg
  split_ifs <;> rfl

@[simp] theorem sampleProg_nextPosition (p : Bool) (s : MState) :
    (sampleProg p s).nextPosition = s.nextPosition := by
  unfold sampleProg
  split_ifs <;> rfl

@[simp] theorem sampleProg_currPosition (p : Bool) (s : MState) :
    (sampleProg p s).currPosition = s.currPosition := by
  unfold sampleProg
  split_ifs <;> rfl

@[simp] theorem sampleProg_blinkRate (p : Bool) (s : MState) :
    (sampleProg p s).blinkRate = s.blinkRate := by
  unfold sampleProg
  split_ifs <;> rfl

@[simp] theorem sampleProg_lastDirection (p : Bool) (s : MState) :
    (sampleProg p s).lastDirection = s.lastDirection := by
  unfold sampleProg
  split_ifs <;> rfl

@[simp] theorem sampleProg_modePullState (p : Bool) (s : MState) :
    (sampleProg p s).modePullState = s.modePullState := by
  unfold sampleProg
  split_ifs <;> rfl

@[simp] theorem sampleProg_stateOnPullDown (p : Bool) (s : MState) :
    (sampleProg p s).stateOnPullDown = s.stateOnPullDown := by
  unfold sampleProg
  split_ifs <;> rfl

@[simp] theorem sampleProg_stateOnPullUp (p : Bool) (s : MState) :
    (sampleProg p s).stateOnPullUp = s.stateOnPullUp := by
  unfold sampleProg
  split_ifs <;> rfl

@[simp] theorem sampleProg_middlePositionTimeout (p : Bool) (s : MState) :
    (sampleProg p s).middlePositionTimeout = s.middlePositionTimeout := by
  unfold sampleProg
  split_ifs <;> rfl

@[simp] theorem sampleProg_topThreshold (p : Bool) (s : MState) :
    (sampleProg p s).topThreshold = s.topThreshold := by
  unfold sampleProg
  split_ifs <;> rfl

@[simp] theorem sampleProg_middleThreshold (p : Bool) (s : MState) :
    (sampleProg p s).middleThreshold = s.middleThreshold := by
  unfold sampleProg
  split_ifs <;> rfl

@[simp] theorem sampleProg_bottomThreshold (p : Bool) (s : MState) :
    (sampleProg p s).bottomThreshold = s.bottomThreshold := by
  unfold sampleProg
  split_ifs <;> rfl

@[simp] theorem sampleProg_upSwitchClosed (p : Bool) (s : MState) :
    (sampleProg p s).upSwitchClosed = s.upSwitchClosed := by
  unfold sampleProg
  split_ifs <;> rfl

@[simp] theorem sampleProg_downSwitchClosed (p : Bool) (s : MState) :
    (sampleProg p s).downSwitchClosed = s.downSwitchClosed := by
  unfold sampleProg
  split_ifs <;> rfl

@[simp] theorem sampleProg_timer1running (p : Bool) (s : MState) :
    (sampleProg p s).timer1running = s.timer1running := by
  unfold sampleProg
  split_ifs <;> rfl

@[simp] theorem sampleProg_eeprom0 (p : Bool) (s : MState) :
    (sampleProg p s).eeprom0 = s.eeprom0 := by
  unfold sampleProg
  split_ifs <;> rfl

@[simp] theorem sampleProg_eeprom4 (p : Bool) (s : MState) :
    (sampleProg p s).eeprom4 = s.eeprom4 := by
  unfold sampleProg
  split_ifs <;> rfl

@[simp] theorem blinkService_tumbler (s : MState) :
    (blinkService s).tumbler = s.tumbler := by
  unfold blinkService toggleLed
  split_ifs <;> rfl

@[simp] theorem blinkService_progBtn (s : MState) :
    (blinkService s).progBtn = s.progBtn := by
  unfold blinkService toggleLed
  split_ifs <;> rfl

@[simp] theorem blinkService_upBtn (s : MState) :
    (blinkService s).upBtn = s.upBtn := by
  unfold blinkService toggleLed
  split_ifs <;> rfl

@[simp] theorem blinkService_downBtn (s : MState) :
    (blinkService s).downBtn = s.downBtn := by
  unfold blinkService toggleLed
  split_ifs <;> rfl

@[simp] theorem blinkService_clicks (s : MState) :
    (blinkService s).clicks = s.clicks := by
  unfold blinkService toggleLed
  split_ifs <;> rfl

@[simp] theorem blinkService_mode (s : MState) :
    (blinkService s).mode = s.mode := by
  unfold blinkService toggleLed
  split_ifs <;> rfl

@[simp] theorem blinkService_block (s : MState) :
    (blinkService s).block = s.block := by
  unfold blinkService toggleLed
  split_ifs <;> rfl

@[simp] theorem blinkService_nextPosition (s : MState) :
    (blinkService s).nextPosition = s.nextPosition := by
  unfold blinkService toggleLed
  split_ifs <;> rfl

@[simp] theorem blinkService_currPosition (s : MState) :
    (blinkService s).currPosition = s.currPosition := by
  unfold blinkService toggleLed
  split_ifs <;> rfl

@[simp] theorem blinkService_blinkRate (s : MState) :
    (blinkService s).blinkRate = s.blinkRate := by
  unfold blinkService toggleLed
  split_ifs <;> rfl

@[simp] theorem blinkService_lastDirection (s : MState) :
    (blinkService s).lastDirection = s.lastDirection := by
  unfold blinkService toggleLed
  split_ifs <;> rfl

@[simp] theorem blinkService_modePullState (s : MState) :
    (blinkService s).modePullState = s.modePullState := by
  unfold blinkService toggleLed
  split_ifs <;> rfl

@[simp] theorem blinkService_stateOnPullDown (s : MState) :
    (blinkService s).stateOnPullDown = s.stateOnPullDown := by
  unfold blinkService toggleLed
  split_ifs <;> rfl

@[simp] theorem blinkService_stateOnPullUp (s : MState) :
    (blinkService s).stateOnPullUp = s.stateOnPullUp := by
  unfold blinkService toggleLed
  split_ifs <;> rfl

@[simp] theorem blinkService_middlePositionTimeout (s : MState) :
    (blinkService s).middlePositionTimeout = s.middlePositionTimeout := by
  unfold blinkService toggleLed
  split_ifs <;> rfl

@[simp] theorem blinkService_topThreshold (s : MState) :
    (blinkService s).topThreshold = s.topThreshold := by
  unfold blinkService toggleLed
  split_ifs <;> rfl

@[simp] theorem blinkService_middleThreshold (s : MState) :
    (blinkService s).middleThreshold = s.middleThreshold := by
  unfold blinkService toggleLed
  split_ifs <;> rfl

@[simp] theorem blinkService_bottomThreshold (s : MState) :
    (blinkService s).bottomThreshold = s.bottomThreshold := by
  unfold blinkService toggleLed
  split_ifs <;> rfl

@[simp] theorem blinkService_upSwitchClosed (s : MState) :
    (blinkService s).upSwitchClosed = s.upSwitchClosed := by
  unfold blinkService toggleLed
  split_ifs <;> rfl

@[simp] theorem blinkService_downSwitchClosed (s : MState) :
    (blinkService s).downSwitchClosed = s.downSwitchClosed := by
  unfold blinkService toggleLed
  split_ifs <;> rfl

@[simp] theorem blinkService_timer1running (s : MState) :
    (blinkService s).timer1running = s.timer1running := by
  unfold blinkService toggleLed
  split_ifs <;> rfl

@[simp] theorem blinkService_eeprom0 (s : MState) :
    (blinkService s).eeprom0 = s.eeprom0 := by
  unfold blinkService toggleLed
  split_ifs <;> rfl

@[simp] theorem blinkService_eeprom4 (s : MState) :
    (blinkService s).eeprom4 = s.eeprom4 := by
  unfold blinkService toggleLed
  split_ifs <;> rfl

@[simp] theorem int0Pulse_tumbler (s : MState) :
    (int0Pulse s).tumbler = s.tumbler := by
  unfold int0Pulse
  split_ifs <;> rfl

@[simp] theorem int0Pulse_progBtn (s : MState) :
    (int0Pulse s).progBtn = s.progBtn := by
  unfold int0Pulse
  split_ifs <;> rfl

@[simp] theorem int0Pulse_upBtn (s : MState) :
    (int0Pulse s).upBtn = s.upBtn := by
  unfold int0Pulse
  split_ifs <;> rfl

@[simp] theorem int0Pulse_downBtn (s : MState) :
    (int0Pulse s).downBtn = s.downBtn := by
  unfold int0Pulse
  split_ifs <;> rfl

@[simp] theorem int0Pulse_mode (s : MState) :
    (int0Pulse s).mode = s.mode := by
  unfold int0Pulse
  split_ifs <;> rfl

@[simp] theorem int0Pulse_block (s : MState) :
    (int0Pulse s).block = s.block := by
  unfold int0Pulse
  split_ifs <;> rfl

@[simp] theorem int0Pulse_nextPosition (s : MState) :
    (int0Pulse s).nextPosition = s.nextPosition := by
  unfold int0Pulse
  split_ifs <;> rfl

@[simp] theorem int0Pulse_currPosition (s : MState) :
    (int0Pulse s).currPosition = s.currPosition := by
  unfold int0Pulse
  split_ifs <;> rfl

@[simp] theorem int0Pulse_blinkRate (s : MState) :
    (int0Pulse s).blinkRate = s.blinkRate := by
  unfold int0Pulse
  split_ifs <;> rfl

@[simp] theorem int0Pulse_lastDirection (s : MState) :
    (int0Pulse s).lastDirection = s.lastDirection := by
  unfold int0Pulse
  split_ifs <;> rfl

@[simp] theorem int0Pulse_modePullState (s : MState) :
    (int0Pulse s).modePullState = s.modePullState := by
  unfold int0Pulse
  split_ifs <;> rfl

@[simp] theorem int0Pulse_stateOnPullDown (s : MState) :
    (int0Pulse s).stateOnPullDown = s.stateOnPullDown := by
  unfold int0Pulse
  split_ifs <;> rfl

@[simp] theorem int0Pulse_stateOnPullUp (s : MState) :
    (int0Pulse s).stateOnPullUp = s.stateOnPullUp := by
  unfold int0Pulse
  split_ifs <;> rfl

@[simp] theorem int0Pulse_middlePositionTimeout (s : MState) :
    (int0Pulse s).middlePositionTimeout = s.middlePositionTimeout := by
  unfold int0Pulse
  split_ifs <;> rfl

@[simp] theorem int0Pulse_topThreshold (s : MState) :
    (int0Pulse s).topThreshold = s.topThreshold := by
  unfold int0Pulse
  split_ifs <;> rfl

@[simp] theorem int0Pulse_middleThreshold (s : MState) :
    (int0Pulse s).middleThreshold = s.middleThreshold := by
  unfold int0Pulse
  split_ifs <;> rfl

@[simp] theorem int0Pulse_bottomThreshold (s : MState) :
    (int0Pulse s).bottomThreshold = s.bottomThreshold := by
  unfold int0Pulse
  split_ifs <;> rfl

@[simp] theorem int0Pulse_upSwitchClosed (s : MState) :
    (int0Pulse s).upSwitchClosed = s.upSwitchClosed := by
  unfold int0Pulse
  split_ifs <;> rfl

@[simp] theorem int0Pulse_downSwitchClosed (s : MState) :
    (int0Pulse s).downSwitchClosed = s.downSwitchClosed := by
  unfold int0Pulse
  split_ifs <;> rfl

@[simp] theorem int0Pulse_timer1running (s : MState) :
    (int0Pulse s).timer1running = s.timer1running := by
  unfold int0Pulse
  split_ifs <;> rfl

@[simp] theorem int0Pulse_eeprom0 (s : MState) :
    (int0Pulse s).eeprom0 = s.eeprom0 := by
  unfold int0Pulse
  split_ifs <;> rfl

@[simp] theorem int0Pulse_eeprom4 (s : MState) :
    (int0Pulse s).eeprom4 = s.eeprom4 := by
  unfold int0Pulse
  split_ifs <;> rfl

@[simp] theorem onUpButtonPressed_tumbler (s : MState) :
    (onUpButtonPressed s).tumbler = s.tumbler := by
  unfold onUpButtonPressed
  split_ifs <;> rfl

@[simp] theorem onUpButtonPressed_progBtn (s : MState) :
    (onUpButtonPressed s).progBtn = s.progBtn := by
  unfold onUpButtonPressed
  split_ifs <;> rfl

@[simp] theorem onUpButtonPressed_upBtn (s : MState) :
    (onUpButtonPressed s).upBtn = s.upBtn := by
  unfold onUpButtonPressed
  split_ifs <;> rfl

@[simp] theorem onUpButtonPressed_downBtn (s : MState) :
    (onUpButtonPressed s).downBtn = s.downBtn := by
  unfold onUpButtonPressed
  split_ifs <;> rfl

@[simp] theorem onUpButtonPressed_clicks (s : MState) :
    (onUpButtonPressed s).clicks = s.clicks := by
  unfold onUpButtonPressed
  split_ifs <;> rfl

@[simp] theorem onUpButtonPressed_mode (s : MState) :
    (onUpButtonPressed s).mode = s.mode := by
  unfold onUpButtonPressed
  split_ifs <;> rfl

@[simp] theorem onUpButtonPressed_block (s : MState) :
    (onUpButtonPressed s).block = s.block := by
  unfold onUpButtonPressed
  split_ifs <;> rfl

@[simp] theorem onUpButtonPressed_nextPosition (s : MState) :
    (onUpButtonPressed s).nextPosition = s.nextPosition := by
  unfold onUpButtonPressed
  split_ifs <;> rfl

@[simp] theorem onUpButtonPressed_currPosition (s : MState) :
    (onUpButtonPressed s).currPosition = s.currPosition := by
  unfold onUpButtonPressed
  split_ifs <;> rfl

@[simp] theorem onUpButtonPressed_modePullState (s : MState) :
    (onUpButtonPressed s).modePullState = s.modePullState := by
  unfold onUpButtonPressed
  split_ifs <;> rfl

@[simp] theorem onUpButtonPressed_stateOnPullDown (s : MState) :
    (onUpButtonPressed s).stateOnPullDown = s.stateOnPullDown := by
  unfold onUpButtonPressed
  split_ifs <;> rfl

@[simp] theorem onUpButtonPressed_stateOnPullUp (s : MState) :
    (onUpButtonPressed s).stateOnPullUp = s.stateOnPullUp := by
  unfold onUpButtonPressed
  split_ifs <;> rfl

@[simp] theorem onUpButtonPressed_middlePositionTimeout (s : MState) :
    (onUpButtonPressed s).middlePositionTimeout = s.middlePositionTimeout := by
  unfold onUpButtonPressed
  split_ifs <;> rfl

@[simp] theorem onUpButtonPressed_topThreshold (s : MState) :
    (onUpButtonPressed s).topThreshold = s.topThreshold := by
  unfold onUpButtonPressed
  split_ifs <;> rfl

@[simp] theorem onUpButtonPressed_middleThreshold (s : MState) :
    (onUpButtonPressed s).middleThreshold = s.middleThreshold := by
  unfold onUpButtonPressed
  split_ifs <;> rfl

@[simp] theorem onUpButtonPressed_bottomThreshold (s : MState) :
    (onUpButtonPressed s).bottomThreshold = s.bottomThreshold := by
  unfold onUpButtonPressed
  split_ifs <;> rfl

@[simp] theorem onUpButtonPressed_downSwitchClosed (s : MState) :
    (onUpButtonPressed s).downSwitchClosed = s.downSwitchClosed := by
  unfold onUpButtonPressed
  split_ifs <;> rfl

@[simp] theorem onUpButtonPressed_timer1running (s : MState) :
    (onUpButtonPressed s).timer1running = s.timer1running := by
  unfold onUpButtonPressed
  split_ifs <;> rfl

@[simp] theorem onUpButtonPressed_eeprom0 (s : MState) :
    (onUpButtonPressed s).eeprom0 = s.eeprom0 := by
  unfold onUpButtonPressed
  split_ifs <;> rfl

@[simp] theorem onUpButtonPressed_eeprom4 (s : MState) :
    (onUpButtonPressed s).eeprom4 = s.eeprom4 := by
  unfold onUpButtonPressed
  split_ifs <;> rfl

@[simp] theorem onDownButtonPressed_tumbler (s : MState) :
    (onDownButtonPressed s).tumbler = s.tumbler := by
  unfold onDownButtonPressed
  split_ifs <;> rfl

@[simp] theorem onDownButtonPressed_progBtn (s : MState) :
    (onDownButtonPressed s).progBtn = s.progBtn := by
  unfold onDownButtonPressed
  split_ifs <;> rfl

@[simp] theorem onDownButtonPressed_upBtn (s : MState) :
    (onDownButtonPressed s).upBtn = s.upBtn := by
  unfold onDownButtonPressed
  split_ifs <;> rfl

@[simp] theorem onDownButtonPressed_downBtn (s : MState) :
    (onDownButtonPressed s).downBtn = s.downBtn := by
  unfold onDownButtonPressed
  split_ifs <;> rfl

@[simp] theorem onDownButtonPressed_clicks (s : MState) :
    (onDownButtonPressed s).clicks = s.clicks := by
  unfold onDownButtonPressed
  split_ifs <;> rfl

@[simp] theorem onDownButtonPressed_mode (s : MState) :
    (onDownButtonPressed s).mode = s.mode := by
  unfold onDownButtonPressed
  split_ifs <;> rfl

@[simp] theorem onDownButtonPressed_block (s : MState) :
    (onDownButtonPressed s).block = s.block := by
  unfold onDownButtonPressed
  split_ifs <;> rfl

@[simp] theorem onDownButtonPressed_nextPosition (s : MState) :
    (onDownButtonPressed s).nextPosition = s.nextPosition := by
  unfold onDownButtonPressed
  split_ifs <;> rfl

@[simp] theorem onDownButtonPressed_currPosition (s : MState) :
    (onDownButtonPressed s).currPosition = s.currPosition := by
  unfold onDownButtonPressed
  split_ifs <;> rfl

@[simp] theorem onDownButtonPressed_modePullState (s : MState) :
    (onDownButtonPressed s).modePullState = s.modePullState := by
  unfold onDownButtonPressed
  split_ifs <;> rfl

@[simp] theorem onDownButtonPressed_stateOnPullDown (s : MState) :
    (onDownButtonPressed s).stateOnPullDown = s.stateOnPullDown := by
  unfold onDownButtonPressed
  split_ifs <;> rfl

@[simp] theorem onDownButtonPressed_stateOnPullUp (s : MState) :
    (onDownButtonPressed s).stateOnPullUp = s.stateOnPullUp := by
  unfold onDownButtonPressed
  split_ifs <;> rfl

@[simp] theorem onDownButtonPressed_middlePositionTimeout (s : MState) :
    (onDownButtonPressed s).middlePositionTimeout = s.middlePositionTimeout := by
  unfold onDownButtonPressed
  split_ifs <;> rfl

@[simp] theorem onDownButtonPressed_topThreshold (s : MState) :
    (onDownButtonPressed s).topThreshold = s.topThreshold := by
  unfold onDownButtonPressed
  split_ifs <;> rfl

@[simp] theorem onDownButtonPressed_middleThreshold (s : MState) :
    (onDownButtonPressed s).middleThreshold = s.middleThreshold := by
  unfold onDownButtonPressed
  split_ifs <;> rfl

@[simp] theorem onDownButtonPressed_bottomThreshold (s : MState) :
    (onDownButtonPressed s).bottomThreshold = s.bottomThreshold := by
  unfold onDownButtonPressed
  split_ifs <;> rfl

@[simp] theorem onDownButtonPressed_upSwitchClosed (s : MState) :
    (onDownButtonPressed s).upSwitchClosed = s.upSwitchClosed := by
  unfold onDownButtonPressed
  split_ifs <;> rfl

@[simp] theorem onDownButtonPressed_timer1running (s : MState) :
    (onDownButtonPressed s).timer1running = s.timer1running := by
  unfold onDownButtonPressed
  split_ifs <;> rfl

@[simp] theorem onDownButtonPressed_eeprom0 (s : MState) :
    (onDownButtonPressed s).eeprom0 = s.eeprom0 := by
  unfold onDownButtonPressed
  split_ifs <;> rfl

@[simp] theorem onDownButtonPressed_eeprom4 (s : MState) :
    (onDownButtonPressed s).eeprom4 = s.eeprom4 := by
  unfold onDownButtonPressed
  split_ifs <;> rfl

@[simp] theorem tumblerRecord_progBtn (s : MState) :
    (tumblerRecord s).progBtn = s.progBtn := by
  unfold tumblerRecord
  split_ifs <;> rfl

@[simp] theorem tumblerRecord_upBtn (s : MState) :
    (tumblerRecord s).upBtn = s.upBtn := by
  unfold tumblerRecord
  split_ifs <;> rfl

@[simp] theorem tumblerRecord_downBtn (s : MState) :
    (tumblerRecord s).downBtn = s.downBtn := by
  unfold tumblerRecord
  split_ifs <;> rfl

@[simp] theorem tumblerRecord_clicks (s : MState) :
    (tumblerRecord s).clicks = s.clicks := by
  unfold tumblerRecord
  split_ifs <;> rfl

@[simp] theorem tumblerRecord_mode (s : MState) :
    (tumblerRecord s).mode = s.mode := by
  unfold tumblerRecord
  split_ifs <;> rfl

@[simp] theorem tumblerRecord_block (s : MState) :
    (tumblerRecord s).block = s.block := by
  unfold tumblerRecord
  split_ifs <;> rfl

@[simp] theorem tumblerRecord_nextPosition (s : MState) :
    (tumblerRecord s).nextPosition = s.nextPosition := by
  unfold tumblerRecord
  split_ifs <;> rfl

@[simp] theorem tumblerRecord_currPosition (s : MState) :
    (tumblerRecord s).currPosition = s.currPosition := by
  unfold tumblerRecord
  split_ifs <;> rfl

@[simp] theorem tumblerRecord_blinkRate (s : MState) :
    (tumblerRecord s).blinkRate = s.blinkRate := by
  unfold tumblerRecord
  split_ifs <;> rfl

@[simp] theorem tumblerRecord_lastDirection (s : MState) :
    (tumblerRecord s).lastDirection = s.lastDirection := by
  unfold tumblerRecord
  split_ifs <;> rfl

@[simp] theorem tumblerRecord_middlePositionTimeout (s : MState) :
    (tumblerRecord s).middlePositionTimeout = s.middlePositionTimeout := by
  unfold tumblerRecord
  split_ifs <;> rfl

@[simp] theorem tumblerRecord_topThreshold (s : MState) :
    (tumblerRecord s).topThreshold = s.topThreshold := by
  unfold tumblerRecord
  split_ifs <;> rfl

@[simp] theorem tumblerRecord_middleThreshold (s : MState) :
    (tumblerRecord s).middleThreshold = s.middleThreshold := by
  unfold tumblerRecord
  split_ifs <;> rfl

@[simp] theorem tumblerRecord_bottomThreshold (s : MState) :
    (tumblerRecord s).bottomThreshold = s.bottomThreshold := by
  unfold tumblerRecord
  split_ifs <;> rfl

@[simp] theorem tumblerRecord_upSwitchClosed (s : MState) :
    (tumblerRecord s).upSwitchClosed = s.upSwitchClosed := by
  unfold tumblerRecord
  split_ifs <;> rfl

@[simp] theorem tumblerRecord_downSwitchClosed (s : MState) :
    (tumblerRecord s).downSwitchClosed = s.downSwitchClosed := by
  unfold tumblerRecord
  split_ifs <;> rfl

@[simp] theorem tumblerRecord_timer1running (s : MState) :
    (tumblerRecord s).timer1running = s.timer1running := by
  unfold tumblerRecord
  split_ifs <;> rfl

@[simp] theorem tumblerRecord_eeprom0 (s : MState) :
    (tumblerRecord s).eeprom0 = s.eeprom0 := by
  unfold tumblerRecord
  split_ifs <;> rfl

@[simp] theorem tumblerRecord_eeprom4 (s : MState) :
    (tumblerRecord s).eeprom4 = s.eeprom4 := by
  unfold tumblerRecord
  split_ifs <;> rfl

@[simp] theorem changeModeBody_tumbler (n : Nat) (s : MState) :
    (changeModeBody n s).tumbler = s.tumbler := by
  unfold changeModeBody
  split_ifs <;> rfl

@[simp] theorem changeModeBody_progBtn (n : Nat) (s : MState) :
    (changeModeBody n s).progBtn = s.progBtn := by
  unfold changeModeBody
  split_ifs <;> rfl

@[simp] theorem changeModeBody_upBtn (n : Nat) (s : MState) :
    (changeModeBody n s).upBtn = s.upBtn := by
  unfold changeModeBody
  split_ifs <;> rfl

@[simp] theorem changeModeBody_downBtn (n : Nat) (s : MState) :
    (changeModeBody n s).downBtn = s.downBtn := by
  unfold changeModeBody
  split_ifs <;> rfl

@[simp] theorem changeModeBody_clicks (n : Nat) (s : MState) :
    (changeModeBody n s).clicks = s.clicks := by
  unfold changeModeBody
  split_ifs <;> rfl

@[simp] theorem changeModeBody_mode (n : Nat) (s : MState) :
    (changeModeBody n s).mode = s.mode := by
  unfold changeModeBody
  split_ifs <;> rfl

@[simp] theorem changeModeBody_blinkRate (n : Nat) (s : MState) :
    (changeModeBody n s).blinkRate = s.blinkRate := by
  unfold changeModeBody
  split_ifs <;> rfl

@[simp] theorem changeModeBody_lastDirection (n : Nat) (s : MState) :
    (changeModeBody n s).lastDirection = s.lastDirection := by
  unfold changeModeBody
  split_ifs <;> rfl

@[simp] theorem changeModeBody_modePullState (n : Nat) (s : MState) :
    (changeModeBody n s).modePullState = s.modePullState := by
  unfold changeModeBody
  split_ifs <;> rfl

@[simp] theorem changeModeBody_stateOnPullDown (n : Nat) (s : MState) :
    (changeModeBody n s).stateOnPullDown = s.stateOnPullDown := by
  unfold changeModeBody
  split_ifs <;> rfl

@[simp] theorem changeModeBody_stateOnPullUp (n : Nat) (s : MState) :
    (changeModeBody n s).stateOnPullUp = s.stateOnPullUp := by
  unfold changeModeBody
  split_ifs <;> rfl

@[simp] theorem changeModeBody_middlePositionTimeout (n : Nat) (s : MState) :
    (changeModeBody n s).middlePositionTimeout = s.middlePositionTimeout := by
  unfold changeModeBody
  split_ifs <;> rfl

@[simp] theorem changeModeBody_topThreshold (n : Nat) (s : MState) :
    (changeModeBody n s).topThreshold = s.topThreshold := by
  unfold changeModeBody
  split_ifs <;> rfl

@[simp] theorem changeModeBody_middleThreshold (n : Nat) (s : MState) :
    (changeModeBody n s).middleThreshold = s.middleThreshold := by
  unfold changeModeBody
  split_ifs <;> rfl

@[simp] theorem changeModeBody_bottomThreshold (n : Nat) (s : MState) :
    (changeModeBody n s).bottomThreshold = s.bottomThreshold := by
  unfold changeModeBody
  split_ifs <;> rfl

@[simp] theorem changeModeBody_upSwitchClosed (n : Nat) (s : MState) :
    (changeModeBody n s).upSwitchClosed = s.upSwitchClosed := by
  unfold changeModeBody
  split_ifs <;> rfl

@[simp] theorem changeModeBody_downSwitchClosed (n : Nat) (s : MState) :
    (changeModeBody n s).downSwitchClosed = s.downSwitchClosed := by
  unfold changeModeBody
  split_ifs <;> rfl

@[simp] theorem changeModeBody_timer1running (n : Nat) (s : MState) :
    (changeModeBody n s).timer1running = s.timer1running := by
  unfold changeModeBody
  split_ifs <;> rfl

@[simp] theorem changeModeBody_eeprom0 (n : Nat) (s : MState) :
    (changeModeBody n s).eeprom0 = s.eeprom0 := by
  unfold changeModeBody
  split_ifs <;> rfl

@[simp] theorem changeModeBody_eeprom4 (n : Nat) (s : MState) :
    (changeModeBody n s).eeprom4 = s.eeprom4 := by
  unfold changeModeBody
  split_ifs <;> rfl

@[simp] theorem serviceUpButton_tumbler (s : MState) :
    (serviceUpButton s).tumbler = s.tumbler := by
  unfold serviceUpButton serviceUpEdge onUpButtonPressed onUpButtonReleased
  split_ifs <;> rfl

@[simp] theorem serviceUpButton_progBtn (s : MState) :
    (serviceUpButton s).progBtn = s.progBtn := by
  unfold serviceUpButton serviceUpEdge onUpButtonPressed onUpButtonReleased
  split_ifs <;> rfl

@[simp] theorem serviceUpButton_downBtn (s : MState) :
    (serviceUpButton s).downBtn = s.downBtn := by
  unfold serviceUpButton serviceUpEdge onUpButtonPressed onUpButtonReleased
  split_ifs <;> rfl

@[simp] theorem serviceUpButton_clicks (s : MState) :
    (serviceUpButton s).clicks = s.clicks := by
  unfold serviceUpButton serviceUpEdge onUpButtonPressed onUpButtonReleased
  split_ifs <;> rfl

@[simp] theorem serviceUpButton_mode (s : MState) :
    (serviceUpButton s).mode = s.mode := by
  unfold serviceUpButton serviceUpEdge onUpButtonPressed onUpButtonReleased
  split_ifs <;> rfl

@[simp] theorem serviceUpButton_block (s : MState) :
    (serviceUpButton s).block = s.block := by
  unfold serviceUpButton serviceUpEdge onUpButtonPressed onUpButtonReleased
  split_ifs <;> rfl

@[simp] theorem serviceUpButton_nextPosition (s : MState) :
    (serviceUpButton s).nextPosition = s.nextPosition := by
  unfold serviceUpButton serviceUpEdge onUpButtonPressed onUpButtonReleased
  split_ifs <;> rfl

@[simp] theorem serviceUpButton_currPosition (s : MState) :
    (serviceUpButton s).currPosition = s.currPosition := by
  unfold serviceUpButton serviceUpEdge onUpButtonPressed onUpButtonReleased
  split_ifs <;> rfl

@[simp] theorem serviceUpButton_modePullState (s : MState) :
    (serviceUpButton s).modePullState = s.modePullState := by
  unfold serviceUpButton serviceUpEdge onUpButtonPressed onUpButtonReleased
  split_ifs <;> rfl

@[simp] theorem serviceUpButton_stateOnPullDown (s : MState) :
    (serviceUpButton s).stateOnPullDown = s.stateOnPullDown := by
  unfold serviceUpButton serviceUpEdge onUpButtonPressed onUpButtonReleased
  split_ifs <;> rfl

@[simp] theorem serviceUpButton_stateOnPullUp (s : MState) :
    (serviceUpButton s).stateOnPullUp = s.stateOnPullUp := by
  unfold serviceUpButton serviceUpEdge onUpButtonPressed onUpButtonReleased
  split_ifs <;> rfl

@[simp] theorem serviceUpButton_middlePositionTimeout (s : MState) :
    (serviceUpButton s).middlePositionTimeout = s.middlePositionTimeout := by
  unfold serviceUpButton serviceUpEdge onUpButtonPressed onUpButtonReleased
  split_ifs <;> rfl

@[simp] theorem serviceUpButton_topThreshold (s : MState) :
    (serviceUpButton s).topThreshold = s.topThreshold := by
  unfold serviceUpButton serviceUpEdge onUpButtonPressed onUpButtonReleased
  split_ifs <;> rfl

@[simp] theorem serviceUpButton_middleThreshold (s : MState) :
    (serviceUpButton s).middleThreshold = s.middleThreshold := by
  unfold serviceUpButton serviceUpEdge onUpButtonPressed onUpButtonReleased
  split_ifs <;> rfl

@[simp] theorem serviceUpButton_bottomThreshold (s : MState) :
    (serviceUpButton s).bottomThreshold = s.bottomThreshold := by
  unfold serviceUpButton serviceUpEdge onUpButtonPressed onUpButtonReleased
  split_ifs <;> rfl

@[simp] theorem serviceUpButton_downSwitchClosed (s : MState) :
    (serviceUpButton s).downSwitchClosed = s.downSwitchClosed := by
  unfold serviceUpButton serviceUpEdge onUpButtonPressed onUpButtonReleased
  split_ifs <;> rfl

@[simp] theorem serviceUpButton_timer1running (s : MState) :
    (serviceUpButton s).timer1running = s.timer1running := by
  unfold serviceUpButton serviceUpEdge onUpButtonPressed onUpButtonReleased
  split_ifs <;> rfl

@[simp] theorem serviceUpButton_eeprom0 (s : MState) :
    (serviceUpButton s).eeprom0 = s.eeprom0 := by
  unfold serviceUpButton serviceUpEdge onUpButtonPressed onUpButtonReleased
  split_ifs <;> rfl

@[simp] theorem serviceUpButton_eeprom4 (s : MState) :
    (serviceUpButton s).eeprom4 = s.eeprom4 := by
  unfold serviceUpButton serviceUpEdge onUpButtonPressed onUpButtonReleased
  split_ifs <;> rfl

@[simp] theorem serviceDownButton_tumbler (s : MState) :
    (serviceDownButton s).tumbler = s.tumbler := by
  unfold serviceDownButton serviceDownEdge onDownButtonPressed onDownButtonReleased
  split_ifs <;> rfl

@[simp] theorem serviceDownButton_progBtn (s : MState) :
    (serviceDownButton s).progBtn = s.progBtn := by
  unfold serviceDownButton serviceDownEdge onDownButtonPressed onDownButtonReleased
  split_ifs <;> rfl

@[simp] theorem serviceDownButton_upBtn (s : MState) :
    (serviceDownButton s).upBtn = s.upBtn := by
  unfold serviceDownButton serviceDownEdge onDownButtonPressed onDownButtonReleased
  split_ifs <;> rfl

@[simp] theorem serviceDownButton_clicks (s : MState) :
    (serviceDownButton s).clicks = s.clicks := by
  unfold serviceDownButton serviceDownEdge onDownButtonPressed onDownButtonReleased
  split_ifs <;> rfl

@[simp] theorem serviceDownButton_mode (s : MState) :
    (serviceDownButton s).mode = s.mode := by
  unfold serviceDownButton serviceDownEdge onDownButtonPressed onDownButtonReleased
  split_ifs <;> rfl

@[simp] theorem serviceDownButton_block (s : MState) :
    (serviceDownButton s).block = s.block := by
  unfold serviceDownButton serviceDownEdge onDownButtonPressed onDownButtonReleased
  split_ifs <;> rfl

@[simp] theorem serviceDownButton_nextPosition (s : MState) :
    (serviceDownButton s).nextPosition = s.nextPosition := by
  unfold serviceDownButton serviceDownEdge onDownButtonPressed onDownButtonReleased
  split_ifs <;> rfl

@[simp] theorem serviceDownButton_currPosition (s : MState) :
    (serviceDownButton s).currPosition = s.currPosition := by
  unfold serviceDownButton serviceDownEdge onDownButtonPressed onDownButtonReleased
  split_ifs <;> rfl

@[simp] theorem serviceDownButton_modePullState (s : MState) :
    (serviceDownButton s).modePullState = s.modePullState := by
  unfold serviceDownButton serviceDownEdge onDownButtonPressed onDownButtonReleased
  split_ifs <;> rfl

@[simp] theorem serviceDownButton_stateOnPullDown (s : MState) :
    (serviceDownButton s).stateOnPullDown = s.stateOnPullDown := by
  unfold serviceDownButton serviceDownEdge onDownButtonPressed onDownButtonReleased
  split_ifs <;> rfl

@[simp] theorem serviceDownButton_stateOnPullUp (s : MState) :
    (serviceDownButton s).stateOnPullUp = s.stateOnPullUp := by
  unfold serviceDownButton serviceDownEdge onDownButtonPressed onDownButtonReleased
  split_ifs <;> rfl

@[simp] theorem serviceDownButton_middlePositionTimeout (s : MState) :
    (serviceDownButton s).middlePositionTimeout = s.middlePositionTimeout := by
  unfold serviceDownButton serviceDownEdge onDownButtonPressed onDownButtonReleased
  split_ifs <;> rfl

@[simp] theorem serviceDownButton_topThreshold (s : MState) :
    (serviceDownButton s).topThreshold = s.topThreshold := by
  unfold serviceDownButton serviceDownEdge onDownButtonPressed onDownButtonReleased
  split_ifs <;> rfl

@[simp] theorem serviceDownButton_middleThreshold (s : MState) :
    (serviceDownButton s).middleThreshold = s.middleThreshold := by
  unfold serviceDownButton serviceDownEdge onDownButtonPressed onDownButtonReleased
  split_ifs <;> rfl

@[simp] theorem serviceDownButton_bottomThreshold (s : MState) :
    (serviceDownButton s).bottomThreshold = s.bottomThreshold := by
  unfold serviceDownButton serviceDownEdge onDownButtonPressed onDownButtonReleased
  split_ifs <;> rfl

@[simp] theorem serviceDownButton_upSwitchClosed (s : MState) :
    (serviceDownButton s).upSwitchClosed = s.upSwitchClosed := by
  unfold serviceDownButton serviceDownEdge onDownButtonPressed onDownButtonReleased
  split_ifs <;> rfl

@[simp] theorem serviceDownButton_timer1running (s : MState) :
    (serviceDownButton s).timer1running = s.timer1running := by
  unfold serviceDownButton serviceDownEdge onDownButtonPressed onDownButtonReleased
  split_ifs <;> rfl

@[simp] theorem serviceDownButton_eeprom0 (s : MState) :
    (serviceDownButton s).eeprom0 = s.eeprom0 := by
  unfold serviceDownButton serviceDownEdge onDownButtonPressed onDownButtonReleased
  split_ifs <;> rfl

@[simp] theorem serviceDownButton_eeprom4 (s : MState) :
    (serviceDownButton s).eeprom4 = s.eeprom4 := by
  unfold serviceDownButton serviceDownEdge onDownButtonPressed onDownButtonReleased
  split_ifs <;> rfl

@[simp] theorem progSafety_tumbler (s : MState) :
    (progSafety s).tumbler = s.tumbler := by
  unfold progSafety openBothSwitches
  split_ifs <;> rfl

@[simp] theorem progSafety_progBtn (s : MState) :
    (progSafety s).progBtn = s.progBtn := by
  unfold progSafety openBothSwitches
  split_ifs <;> rfl

@[simp] theorem progSafety_upBtn (s : MState) :
    (progSafety s).upBtn = s.upBtn := by
  unfold progSafety openBothSwitches
  split_ifs <;> rfl

@[simp] theorem progSafety_downBtn (s : MState) :
    (progSafety s).downBtn = s.downBtn := by
  unfold progSafety openBothSwitches
  split_ifs <;> rfl

@[simp] theorem progSafety_clicks (s : MState) :
    (progSafety s).clicks = s.clicks := by
  unfold progSafety openBothSwitches
  split_ifs <;> rfl

@[simp] theorem progSafety_mode (s : MState) :
    (progSafety s).mode = s.mode := by
  unfold progSafety openBothSwitches
  split_ifs <;> rfl

@[simp] theorem progSafety_block (s : MState) :
    (progSafety s).block = s.block := by
  unfold progSafety openBothSwitches
  split_ifs <;> rfl

@[simp] theorem progSafety_nextPosition (s : MState) :
    (progSafety s).nextPosition = s.nextPosition := by
  unfold progSafety openBothSwitches
  split_ifs <;> rfl

@[simp] theorem progSafety_currPosition (s : MState) :
    (progSafety s).currPosition = s.currPosition := by
  unfold progSafety openBothSwitches
  split_ifs <;> rfl

@[simp] theorem progSafety_blinkRate (s : MState) :
    (progSafety s).blinkRate = s.blinkRate := by
  unfold progSafety openBothSwitches
  split_ifs <;> rfl

@[simp] theorem progSafety_lastDirection (s : MState) :
    (progSafety s).lastDirection = s.lastDirection := by
  unfold progSafety openBothSwitches
  split_ifs <;> rfl

@[simp] theorem progSafety_modePullState (s : MState) :
    (progSafety s).modePullState = s.modePullState := by
  unfold progSafety openBothSwitches
  split_ifs <;> rfl

@[simp] theorem progSafety_stateOnPullDown (s : MState) :
    (progSafety s).stateOnPullDown = s.stateOnPullDown := by
  unfold progSafety openBothSwitches
  split_ifs <;> rfl

@[simp] theorem progSafety_stateOnPullUp (s : MState) :
    (progSafety s).stateOnPullUp = s.stateOnPullUp := by
  unfold progSafety openBothSwitches
  split_ifs <;> rfl

@[simp] theorem progSafety_middlePositionTimeout (s : MState) :
    (progSafety s).middlePositionTimeout = s.middlePositionTimeout := by
  unfold progSafety openBothSwitches
  split_ifs <;> rfl

@[simp] theorem progSafety_topThreshold (s : MState) :
    (progSafety s).topThreshold = s.topThreshold := by
  unfold progSafety openBothSwitches
  split_ifs <;> rfl

@[simp] theorem progSafety_middleThreshold (s : MState) :
    (progSafety s).middleThreshold = s.middleThreshold := by
  unfold progSafety openBothSwitches
  split_ifs <;> rfl

@[simp] theorem progSafety_bottomThreshold (s : MState) :
    (progSafety s).bottomThreshold = s.bottomThreshold := by
  unfold progSafety openBothSwitches
  split_ifs <;> rfl

@[simp] theorem progSafety_timer1running (s : MState) :
    (progSafety s).timer1running = s.timer1running := by
  unfold progSafety openBothSwitches
  split_ifs <;> rfl

@[simp] theorem progSafety_eeprom0 (s : MState) :
    (progSafety s).eeprom0 = s.eeprom0 := by
  unfold progSafety openBothSwitches
  split_ifs <;> rfl

@[simp] theorem progSafety_eeprom4 (s : MState) :
    (progSafety s).eeprom4 = s.eeprom4 := by
  unfold progSafety openBothSwitches
  split_ifs <;> rfl

@[simp] theorem applyTargetPreset_tumbler (s : MState) :
    (applyTargetPreset s).tumbler = s.tumbler := by
  unfold applyTargetPreset
  cases h : s.nextPosition <;> simp [h]

@[simp] theorem applyTargetPreset_progBtn (s : MState) :
    (applyTargetPreset s).progBtn = s.progBtn := by
  unfold applyTargetPreset
  cases h : s.nextPosition <;> simp [h]

@[simp] theorem applyTargetPreset_upBtn (s : MState) :
    (applyTargetPreset s).upBtn = s.upBtn := by
  unfold applyTargetPreset
  cases h : s.nextPosition <;> simp [h]

@[simp] theorem applyTargetPreset_downBtn (s : MState) :
    (applyTargetPreset s).downBtn = s.downBtn := by
  unfold applyTargetPreset
  cases h : s.nextPosition <;> simp [h]

@[simp] theorem applyTargetPreset_clicks (s : MState) :
    (applyTargetPreset s).clicks = s.clicks := by
  unfold applyTargetPreset
  cases h : s.nextPosition <;> simp [h]

@[simp] theorem applyTargetPreset_mode (s : MState) :
    (applyTargetPreset s).mode = s.mode := by
  unfold applyTargetPreset
  cases h : s.nextPosition <;> simp [h]

@[simp] theorem applyTargetPreset_block (s : MState) :
    (applyTargetPreset s).block = s.block := by
  unfold applyTargetPreset
  cases h : s.nextPosition <;> simp [h]

@[simp] theorem applyTargetPreset_nextPosition (s : MState) :
    (applyTargetPreset s).nextPosition = s.nextPosition := by
  unfold applyTargetPreset
  cases h : s.nextPosition <;> simp [h]

@[simp] theorem applyTargetPreset_currPosition (s : MState) :
    (applyTargetPreset s).currPosition = s.currPosition := by
  unfold applyTargetPreset
  cases h : s.nextPosition <;> simp [h]

@[simp] theorem applyTargetPreset_blinkRate (s : MState) :
    (applyTargetPreset s).blinkRate = s.blinkRate := by
  unfold applyTargetPreset
  cases h : s.nextPosition <;> simp [h]

@[simp] theorem applyTargetPreset_lastDirection (s : MState) :
    (applyTargetPreset s).lastDirection = s.lastDirection := by
  unfold applyTargetPreset
  cases h : s.nextPosition <;> simp [h]

@[simp] theorem applyTargetPreset_modePullState (s : MState) :
    (applyTargetPreset s).modePullState = s.modePullState := by
  unfold applyTargetPreset
  cases h : s.nextPosition <;> simp [h]

@[simp] theorem applyTargetPreset_stateOnPullDown (s : MState) :
    (applyTargetPreset s).stateOnPullDown = s.stateOnPullDown := by
  unfold applyTargetPreset
  cases h : s.nextPosition <;> simp [h]

@[simp] theorem applyTargetPreset_stateOnPullUp (s : MState) :
    (applyTargetPreset s).stateOnPullUp = s.stateOnPullUp := by
  unfold applyTargetPreset
  cases h : s.nextPosition <;> simp [h]

@[simp] theorem applyTargetPreset_middlePositionTimeout (s : MState) :
    (applyTargetPreset s).middlePositionTimeout = s.middlePositionTimeout := by
  unfold applyTargetPreset
  cases h : s.nextPosition <;> simp [h]

@[simp] theorem applyTargetPreset_topThreshold (s : MState) :
    (applyTargetPreset s).topThreshold = s.topThreshold := by
  unfold applyTargetPreset
  cases h : s.nextPosition <;> simp [h]

@[simp] theorem applyTargetPreset_middleThreshold (s : MState) :
    (applyTargetPreset s).middleThreshold = s.middleThreshold := by
  unfold applyTargetPreset
  cases h : s.nextPosition <;> simp [h]

@[simp] theorem applyTargetPreset_bottomThreshold (s : MState) :
    (applyTargetPreset s).bottomThreshold = s.bottomThreshold := by
  unfold applyTargetPreset
  cases h : s.nextPosition <;> simp [h]

@[simp] theorem applyTargetPreset_upSwitchClosed (s : MState) :
    (applyTargetPreset s).upSwitchClosed = s.upSwitchClosed := by
  unfold applyTargetPreset
  cases h : s.nextPosition <;> simp [h]

@[simp] theorem applyTargetPreset_downSwitchClosed (s : MState) :
    (applyTargetPreset s).downSwitchClosed = s.downSwitchClosed := by
  unfold applyTargetPreset
  cases h : s.nextPosition <;> simp [h]

@[simp] theorem applyTargetPreset_timer1running (s : MState) :
    (applyTargetPreset s).timer1running = s.timer1running := by
  unfold applyTargetPreset
  cases h : s.nextPosition <;> simp [h]

@[simp] theorem applyTargetPreset_eeprom0 (s : MState) :
    (applyTargetPreset s).eeprom0 = s.eeprom0 := by
  unfold applyTargetPreset
  cases h : s.nextPosition <;> simp [h]

@[simp] theorem applyTargetPreset_eeprom4 (s : MState) :
    (applyTargetPreset s).eeprom4 = s.eeprom4 := by
  unfold applyTargetPreset
  cases h : s.nextPosition <;> simp [h]

@[simp] theorem teachCommit_tumbler (s : MState) :
    (teachCommit s).tumbler = s.tumbler := by
  unfold teachCommit
  cases h : s.currPosition <;> simp [h]

@[simp] theorem teachCommit_progBtn (s : MState) :
    (teachCommit s).progBtn = s.progBtn := by
  unfold teachCommit
  cases h : s.currPosition <;> simp [h]

@[simp] theorem teachCommit_upBtn (s : MState) :
    (teachCommit s).upBtn = s.upBtn := by
  unfold teachCommit
  cases h : s.currPosition <;> simp [h]

@[simp] theorem teachCommit_downBtn (s : MState) :
    (teachCommit s).downBtn = s.downBtn := by
  unfold teachCommit
  cases h : s.currPosition <;> simp [h]

@[simp] theorem teachCommit_mode (s : MState) :
    (teachCommit s).mode = s.mode := by
  unfold teachCommit
  cases h : s.currPosition <;> simp [h]

@[simp] theorem teachCommit_nextPosition (s : MState) :
    (teachCommit s).nextPosition = s.nextPosition := by
  unfold teachCommit
  cases h : s.currPosition <;> simp [h]

@[simp] theorem teachCommit_currPosition (s : MState) :
    (teachCommit s).currPosition = s.currPosition := by
  unfold teachCommit
  cases h : s.currPosition <;> simp [h]

@[simp] theorem teachCommit_blinkRate (s : MState) :
    (teachCommit s).blinkRate = s.blinkRate := by
  unfold teachCommit
  cases h : s.currPosition <;> simp [h]

@[simp] theorem teachCommit_lastDirection (s : MState) :
    (teachCommit s).lastDirection = s.lastDirection := by
  unfold teachCommit
  cases h : s.currPosition <;> simp [h]

@[simp] theorem teachCommit_modePullState (s : MState) :
    (teachCommit s).modePullState = s.modePullState := by
  unfold teachCommit
  cases h : s.currPosition <;> simp [h]

@[simp] theorem teachCommit_stateOnPullDown (s : MState) :
    (teachCommit s).stateOnPullDown = s.stateOnPullDown := by
  unfold teachCommit
  cases h : s.currPosition <;> simp [h]

@[simp] theorem teachCommit_stateOnPullUp (s : MState) :
    (teachCommit s).stateOnPullUp = s.stateOnPullUp := by
  unfold teachCommit
  cases h : s.currPosition <;> simp [h]

@[simp] theorem teachCommit_middlePositionTimeout (s : MState) :
    (teachCommit s).middlePositionTimeout = s.middlePositionTimeout := by
  unfold teachCommit
  cases h : s.currPosition <;> simp [h]

@[simp] theorem teachCommit_upSwitchClosed (s : MState) :
    (teachCommit s).upSwitchClosed = s.upSwitchClosed := by
  unfold teachCommit
  cases h : s.currPosition <;> simp [h]

@[simp] theorem teachCommit_downSwitchClosed (s : MState) :
    (teachCommit s).downSwitchClosed = s.downSwitchClosed := by
  unfold teachCommit
  cases h : s.currPosition <;> simp [h]

@[simp] theorem teachCommit_timer1running (s : MState) :
    (teachCommit s).timer1running = s.timer1running := by
  unfold teachCommit
  cases h : s.currPosition <;> simp [h]

@[simp] theorem debounce_last (sw : SwitchT) (bit : Bool) :
    (debounce sw bit).last = sw.last := rfl

@[simp] theorem getNextPosition_eq_succ (s : MState) :
    getNextPosition s = succPos s.currPosition := by
  unfold getNextPosition
  cases h : s.currPosition <;> simp [h, succPos]

@[simp] theorem advanceStep1_currPosition (s : MState) :
    (advanceStep1 s).currPosition = s.nextPosition := rfl

@[simp] theorem advanceStep2_nextPosition (s : MState) :
    (advanceStep2 s).nextPosition = getNextPosition s := rfl

@[simp] theorem teachAdv1_currPosition (s : MState) :
    (teachAdv1 s).currPosition = s.nextPosition := rfl

@[simp] theorem teachAdv2_nextPosition (s : MState) :
    (teachAdv2 s).nextPosition = getNextPosition s := rfl

@[simp] theorem startBlockTimeout_block (s : MState) :
    (startBlockTimeout s).block = true := rfl

@[simp] theorem startBlockTimeout_timer1running (s : MState) :
    (startBlockTimeout s).timer1running = true := rfl

@[simp] theorem stopMiddlePositionTimeout_middlePositionTimeout (s : MState) :
    (stopMiddlePositionTimeout s).middlePositionTimeout = false := rfl

@[simp] theorem stopMiddlePositionTimeout_timer1running (s : MState) :
    (stopMiddlePositionTimeout s).timer1running = false := rfl

@[simp] theorem onUpButtonReleased_upSwitchClosed (s : MState) :
    (onUpButtonReleased s).upSwitchClosed = false := rfl

@[simp] theorem onUpButtonReleased_blinkRate (s : MState) :
    (onUpButtonReleased s).blinkRate = 10 := rfl

@[simp] theorem onDownButtonReleased_downSwitchClosed (s : MState) :
    (onDownButtonReleased s).downSwitchClosed = false := rfl

@[simp] theorem onDownButtonReleased_blinkRate (s : MState) :
    (onDownButtonReleased s).blinkRate = 10 := rfl

@[simp] theorem openBothSwitches_upSwitchClosed (s : MState) :
    (openBothSwitches s).upSwitchClosed = false := rfl

@[simp] theorem openBothSwitches_downSwitchClosed (s : MState) :
    (openBothSwitches s).downSwitchClosed = false := rfl

@[simp] theorem onUpButtonPressed_upSwitchClosed (s : MState) :
    (onUpButtonPressed s).upSwitchClosed =
      (if canGoUp s then true else s.upSwitchClosed) := by
  unfold onUpButtonPressed
  split_ifs <;> rfl

@[simp] theorem onDownButtonPressed_downSwitchClosed (s : MState) :
    (onDownButtonPressed s).downSwitchClosed =
      (if canGoDown s then true else s.downSwitchClosed) := by
  unfold onDownButtonPressed
  split_ifs <;> rfl

@[simp] theorem sampleUp_upLast (u : Bool) (s : MState) :
    (sampleUp u s).upBtn.last = s.upBtn.last := by
  unfold sampleUp
  split_ifs <;> rfl

@[simp] theorem sampleDown_downLast (d : Bool) (s : MState) :
    (sampleDown d s).downBtn.last = s.downBtn.last := by
  unfold sampleDown
  split_ifs <;> rfl

@[simp] theorem sampleProg_progLast (p : Bool) (s : MState) :
    (sampleProg p s).progBtn.last = s.progBtn.last := by
  unfold sampleProg
  split_ifs <;> rfl

@[simp] theorem sampleUp_upPressed (u : Bool) (s : MState) :
    (sampleUp u s).upBtn.pressed =
      if s.downBtn.pressed then s.upBtn.pressed else (debounce s.upBtn u).pressed := by
  unfold sampleUp
  split_ifs <;> rfl

@[simp] theorem sampleDown_downPressed (d : Bool) (s : MState) :
    (sampleDown d s).downBtn.pressed =
      if s.upBtn.pressed then s.downBtn.pressed else (debounce s.downBtn d).pressed := by
  unfold sampleDown
  split_ifs <;> rfl

@[simp] theorem changeModeBody_block (n : Nat) (s : MState) :
    (changeModeBody n s).block = if n = 2 then false else s.block := by
  unfold changeModeBody
  split_ifs <;> simp_all

@[simp] theorem changeModeBody_currPosition (n : Nat) (s : MState) :
    (changeModeBody n s).currPosition =
      if n = 1 ∧ s.nextPosition = Pos.top then Pos.bot else s.currPosition := by
  unfold changeModeBody
  split_ifs <;> simp_all

@[simp] theorem changeModeBody_nextPosition (n : Nat) (s : MState) :
    (changeModeBody n s).nextPosition =
      if n = 1 ∧ s.nextPosition = Pos.top then Pos.mid else s.nextPosition := by
  unfold changeModeBody
  split_ifs <;> simp_all

@[simp] theorem changeMode_mode (n : Nat) (s : MState) :
    (changeMode n s).mode = n := rfl

@[simp] theorem changeMode_middlePositionTimeout (n : Nat) (s : MState) :
    (changeMode n s).middlePositionTimeout = false := by
  simp [changeMode]

@[simp] theorem changeMode_timer1running (n : Nat) (s : MState) :
    (changeMode n s).timer1running = false := by
  simp [changeMode]

@[simp] theorem changeMode_block (n : Nat) (s : MState) :
    (changeMode n s).block = if n = 2 then false else s.block := by
  simp [changeMode]

@[simp] theorem changeMode_currPosition (n : Nat) (s : MState) :
    (changeMode n s).currPosition =
      if n = 1 ∧ s.nextPosition = Pos.top then Pos.bot else s.currPosition := by
  simp [changeMode]

@[simp] theorem changeMode_nextPosition (n : Nat) (s : MState) :
    (changeMode n s).nextPosition =
      if n = 1 ∧ s.nextPosition = Pos.top then Pos.mid else s.nextPosition := by
  simp [changeMode]

@[simp] theorem changeMode_tumbler (n : Nat) (s : MState) :
    (changeMode n s).tumbler = s.tumbler := by
  simp [changeMode]

@[simp] theorem changeMode_progBtn (n : Nat) (s : MState) :
    (changeMode n s).progBtn = s.progBtn := by
  simp [changeMode]

@[simp] theorem changeMode_upBtn (n : Nat) (s : MState) :
    (changeMode n s).upBtn = s.upBtn := by
  simp [changeMode]

@[simp] theorem changeMode_downBtn (n : Nat) (s : MState) :
    (changeMode n s).downBtn = s.downBtn := by
  simp [changeMode]

@[simp] theorem changeMode_clicks (n : Nat) (s : MState) :
    (changeMode n s).clicks = s.clicks := by
  simp [changeMode]

@[simp] theorem changeMode_blinkRate (n : Nat) (s : MState) :
    (changeMode n s).blinkRate = s.blinkRate := by
  simp [changeMode]

@[simp] theorem changeMode_lastDirection (n : Nat) (s : MState) :
    (changeMode n s).lastDirection = s.lastDirection := by
  simp [changeMode]

@[simp] theorem changeMode_modePullState (n : Nat) (s : MState) :
    (changeMode n s).modePullState = s.modePullState := by
  simp [changeMode]

@[simp] theorem changeMode_stateOnPullDown (n : Nat) (s : MState) :
    (changeMode n s).stateOnPullDown = s.stateOnPullDown := by
  simp [changeMode]

@[simp] theorem changeMode_stateOnPullUp (n : Nat) (s : MState) :
    (changeMode n s).stateOnPullUp = s.stateOnPullUp := by
  simp [changeMode]

@[simp] theorem changeMode_topThreshold (n : Nat) (s : MState) :
    (changeMode n s).topThreshold = s.topThreshold := by
  simp [changeMode]

@[simp] theorem changeMode_middleThreshold (n : Nat) (s : MState) :
    (changeMode n s).middleThreshold = s.middleThreshold := by
  simp [changeMode]

@[simp] theorem changeMode_bottomThreshold (n : Nat) (s : MState) :
    (changeMode n s).bottomThreshold = s.bottomThreshold := by
  simp [changeMode]

@[simp] theorem changeMode_upSwitchClosed (n : Nat) (s : MState) :
    (changeMode n s).upSwitchClosed = s.upSwitchClosed := by
  simp [changeMode]

@[simp] theorem changeMode_downSwitchClosed (n : Nat) (s : MState) :
    (changeMode n s).downSwitchClosed = s.downSwitchClosed := by
  simp [changeMode]

@[simp] theorem changeMode_eeprom0 (n : Nat) (s : MState) :
    (changeMode n s).eeprom0 = s.eeprom0 := by
  simp [changeMode]

@[simp] theorem changeMode_eeprom4 (n : Nat) (s : MState) :
    (changeMode n s).eeprom4 = s.eeprom4 := by
  simp [changeMode]

@[simp] theorem setUpNextPosition_tumbler (s : MState) :
    (setUpNextPosition s).tumbler = s.tumbler := by
  simp [setUpNextPosition]

@[simp] theorem setUpNextPosition_progBtn (s : MState) :
    (setUpNextPosition s).progBtn = s.progBtn := by
  simp [setUpNextPosition]

@[simp] theorem setUpNextPosition_upBtn (s : MState) :
    (setUpNextPosition s).upBtn = s.upBtn := by
  simp [setUpNextPosition]

@[simp] theorem setUpNextPosition_downBtn (s : MState) :
    (setUpNextPosition s).downBtn = s.downBtn := by
  simp [setUpNextPosition]

@[simp] theorem setUpNextPosition_clicks (s : MState) :
    (setUpNextPosition s).clicks = s.clicks := by
  simp [setUpNextPosition]

@[simp] theorem setUpNextPosition_mode (s : MState) :
    (setUpNextPosition s).mode = s.mode := by
  simp [setUpNextPosition]

@[simp] theorem setUpNextPosition_block (s : MState) :
    (setUpNextPosition s).block = s.block := by
  simp [setUpNextPosition]

@[simp] theorem setUpNextPosition_blinkRate (s : MState) :
    (setUpNextPosition s).blinkRate = s.blinkRate := by
  simp [setUpNextPosition]

@[simp] theorem setUpNextPosition_lastDirection (s : MState) :
    (setUpNextPosition s).lastDirection = s.lastDirection := by
  simp [setUpNextPosition]

@[simp] theorem setUpNextPosition_modePullState (s : MState) :
    (setUpNextPosition s).modePullState = s.modePullState := by
  simp [setUpNextPosition]

@[simp] theorem setUpNextPosition_stateOnPullDown (s : MState) :
    (setUpNextPosition s).stateOnPullDown = s.stateOnPullDown := by
  simp [setUpNextPosition]

@[simp] theorem setUpNextPosition_stateOnPullUp (s : MState) :
    (setUpNextPosition s).stateOnPullUp = s.stateOnPullUp := by
  simp [setUpNextPosition]

@[simp] theorem setUpNextPosition_middlePositionTimeout (s : MState) :
    (setUpNextPosition s).middlePositionTimeout = s.middlePositionTimeout := by
  simp [setUpNextPosition]

@[simp] theorem setUpNextPosition_topThreshold (s : MState) :
    (setUpNextPosition s).topThreshold = s.topThreshold := by
  simp [setUpNextPosition]

@[simp] theorem setUpNextPosition_middleThreshold (s : MState) :
    (setUpNextPosition s).middleThreshold = s.middleThreshold := by
  simp [setUpNextPosition]

@[simp] theorem setUpNextPosition_bottomThreshold (s : MState) :
    (setUpNextPosition s).bottomThreshold = s.bottomThreshold := by
  simp [setUpNextPosition]

@[simp] theorem setUpNextPosition_upSwitchClosed (s : MState) :
    (setUpNextPosition s).upSwitchClosed = s.upSwitchClosed := by
  simp [setUpNextPosition]

@[simp] theorem setUpNextPosition_downSwitchClosed (s : MState) :
    (setUpNextPosition s).downSwitchClosed = s.downSwitchClosed := by
  simp [setUpNextPosition]

@[simp] theorem setUpNextPosition_timer1running (s : MState) :
    (setUpNextPosition s).timer1running = s.timer1running := by
  simp [setUpNextPosition]

@[simp] theorem setUpNextPosition_eeprom0 (s : MState) :
    (setUpNextPosition s).eeprom0 = s.eeprom0 := by
  simp [setUpNextPosition]

@[simp] theorem setUpNextPosition_eeprom4 (s : MState) :
    (setUpNextPosition s).eeprom4 = s.eeprom4 := by
  simp [setUpNextPosition]

@[simp] theorem setUpNextPosition_currPosition (s : MState) :
    (setUpNextPosition s).currPosition = s.nextPosition := by
  simp [setUpNextPosition]

@[simp] theorem setUpNextPosition_nextPosition (s : MState) :
    (setUpNextPosition s).nextPosition = succPos s.nextPosition := by
  simp [setUpNextPosition]

@[simp] theorem startMiddlePositionTimeout_tumbler (s : MState) :
    (startMiddlePositionTimeout s).tumbler = s.tumbler := by
  simp [startMiddlePositionTimeout]

@[simp] theorem startMiddlePositionTimeout_progBtn (s : MState) :
    (startMiddlePositionTimeout s).progBtn = s.progBtn := by
  simp [startMiddlePositionTimeout]

@[simp] theorem startMiddlePositionTimeout_upBtn (s : MState) :
    (startMiddlePositionTimeout s).upBtn = s.upBtn := by
  simp [startMiddlePositionTimeout]

@[simp] theorem startMiddlePositionTimeout_downBtn (s : MState) :
    (startMiddlePositionTimeout s).downBtn = s.downBtn := by
  simp [startMiddlePositionTimeout]

@[simp] theorem startMiddlePositionTimeout_clicks (s : MState) :
    (startMiddlePositionTimeout s).clicks = s.clicks := by
  simp [startMiddlePositionTimeout]

@[simp] theorem startMiddlePositionTimeout_mode (s : MState) :
    (startMiddlePositionTimeout s).mode = s.mode := by
  simp [startMiddlePositionTimeout]

@[simp] theorem startMiddlePositionTimeout_block (s : MState) :
    (startMiddlePositionTimeout s).block = s.block := by
  simp [startMiddlePositionTimeout]

@[simp] theorem startMiddlePositionTimeout_nextPosition (s : MState) :
    (startMiddlePositionTimeout s).nextPosition = s.nextPosition := by
  simp [startMiddlePositionTimeout]

@[simp] theorem startMiddlePositionTimeout_currPosition (s : MState) :
    (startMiddlePositionTimeout s).currPosition = s.currPosition := by
  simp [startMiddlePositionTimeout]

@[simp] theorem startMiddlePositionTimeout_blinkRate (s : MState) :
    (startMiddlePositionTimeout s).blinkRate = s.blinkRate := by
  simp [startMiddlePositionTimeout]

@[simp] theorem startMiddlePositionTimeout_lastDirection (s : MState) :
    (startMiddlePositionTimeout s).lastDirection = s.lastDirection := by
  simp [startMiddlePositionTimeout]

@[simp] theorem startMiddlePositionTimeout_modePullState (s : MState) :
    (startMiddlePositionTimeout s).modePullState = s.modePullState := by
  simp [startMiddlePositionTimeout]

@[simp] theorem startMiddlePositionTimeout_stateOnPullDown (s : MState) :
    (startMiddlePositionTimeout s).stateOnPullDown = s.stateOnPullDown := by
  simp [startMiddlePositionTimeout]

@[simp] theorem startMiddlePositionTimeout_stateOnPullUp (s : MState) :
    (startMiddlePositionTimeout s).stateOnPullUp = s.stateOnPullUp := by
  simp [startMiddlePositionTimeout]

@[simp] theorem startMiddlePositionTimeout_topThreshold (s : MState) :
    (startMiddlePositionTimeout s).topThreshold = s.topThreshold := by
  simp [startMiddlePositionTimeout]

@[simp] theorem startMiddlePositionTimeout_middleThreshold (s : MState) :
    (startMiddlePositionTimeout s).middleThreshold = s.middleThreshold := by
  simp [startMiddlePositionTimeout]

@[simp] theorem startMiddlePositionTimeout_bottomThreshold (s : MState) :
    (startMiddlePositionTimeout s).bottomThreshold = s.bottomThreshold := by
  simp [startMiddlePositionTimeout]

@[simp] theorem startMiddlePositionTimeout_upSwitchClosed (s : MState) :
    (startMiddlePositionTimeout s).upSwitchClosed = s.upSwitchClosed := by
  simp [startMiddlePositionTimeout]

@[simp] theorem startMiddlePositionTimeout_downSwitchClosed (s : MState) :
    (startMiddlePositionTimeout s).downSwitchClosed = s.downSwitchClosed := by
  simp [startMiddlePositionTimeout]

@[simp] theorem startMiddlePositionTimeout_eeprom0 (s : MState) :
    (startMiddlePositionTimeout s).eeprom0 = s.eeprom0 := by
  simp [startMiddlePositionTimeout]

@[simp] theorem startMiddlePositionTimeout_eeprom4 (s : MState) :
    (startMiddlePositionTimeout s).eeprom4 = s.eeprom4 := by
  simp [startMiddlePositionTimeout]

@[simp] theorem startMiddlePositionTimeout_middlePositionTimeout (s : MState) :
    (startMiddlePositionTimeout s).middlePositionTimeout = true := by
  simp [startMiddlePositionTimeout]

@[simp] theorem startMiddlePositionTimeout_timer1running (s : MState) :
    (startMiddlePositionTimeout s).timer1running = true := by
  simp [startMiddlePositionTimeout]

@[simp] theorem serviceTumbler_progBtn (s : MState) :
    (serviceTumbler s).progBtn = s.progBtn := by
  unfold serviceTumbler tumblerCommit
  split_ifs <;> simp

@[simp] theorem serviceTumbler_upBtn (s : MState) :
    (serviceTumbler s).upBtn = s.upBtn := by
  unfold serviceTumbler tumblerCommit
  split_ifs <;> simp

@[simp] theorem serviceTumbler_downBtn (s : MState) :
    (serviceTumbler s).downBtn = s.downBtn := by
  unfold serviceTumbler tumblerCommit
  split_ifs <;> simp

@[simp] theorem serviceTumbler_clicks (s : MState) :
    (serviceTumbler s).clicks = s.clicks := by
  unfold serviceTumbler tumblerCommit
  split_ifs <;> simp

@[simp] theorem serviceTumbler_blinkRate (s : MState) :
    (serviceTumbler s).blinkRate = s.blinkRate := by
  unfold serviceTumbler tumblerCommit
  split_ifs <;> simp

@[simp] theorem serviceTumbler_lastDirection (s : MState) :
    (serviceTumbler s).lastDirection = s.lastDirection := by
  unfold serviceTumbler tumblerCommit
  split_ifs <;> simp

@[simp] theorem serviceTumbler_topThreshold (s : MState) :
    (serviceTumbler s).topThreshold = s.topThreshold := by
  unfold serviceTumbler tumblerCommit
  split_ifs <;> simp

@[simp] theorem serviceTumbler_middleThreshold (s : MState) :
    (serviceTumbler s).middleThreshold = s.middleThreshold := by
  unfold serviceTumbler tumblerCommit
  split_ifs <;> simp

@[simp] theorem serviceTumbler_bottomThreshold (s : MState) :
    (serviceTumbler s).bottomThreshold = s.bottomThreshold := by
  unfold serviceTumbler tumblerCommit
  split_ifs <;> simp

@[simp] theorem serviceTumbler_upSwitchClosed (s : MState) :
    (serviceTumbler s).upSwitchClosed = s.upSwitchClosed := by
  unfold serviceTumbler tumblerCommit
  split_ifs <;> simp

@[simp] theorem serviceTumbler_downSwitchClosed (s : MState) :
    (serviceTumbler s).downSwitchClosed = s.downSwitchClosed := by
  unfold serviceTumbler tumblerCommit
  split_ifs <;> simp

@[simp] theorem serviceTumbler_eeprom0 (s : MState) :
    (serviceTumbler s).eeprom0 = s.eeprom0 := by
  unfold serviceTumbler tumblerCommit
  split_ifs <;> simp

@[simp] theorem serviceTumbler_eeprom4 (s : MState) :
    (serviceTumbler s).eeprom4 = s.eeprom4 := by
  unfold serviceTumbler tumblerCommit
  split_ifs <;> simp

@[simp] theorem onProgramButtonPressed_tumbler (s : MState) :
    (onProgramButtonPressed s).tumbler = s.tumbler := by
  unfold onProgramButtonPressed
  split_ifs <;> simp

@[simp] theorem onProgramButtonPressed_progBtn (s : MState) :
    (onProgramButtonPressed s).progBtn = s.progBtn := by
  unfold onProgramButtonPressed
  split_ifs <;> simp

@[simp] theorem onProgramButtonPressed_upBtn (s : MState) :
    (onProgramButtonPressed s).upBtn = s.upBtn := by
  unfold onProgramButtonPressed
  split_ifs <;> simp

@[simp] theorem onProgramButtonPressed_downBtn (s : MState) :
    (onProgramButtonPressed s).downBtn = s.downBtn := by
  unfold onProgramButtonPressed
  split_ifs <;> simp

@[simp] theorem onProgramButtonPressed_mode (s : MState) :
    (onProgramButtonPressed s).mode = s.mode := by
  unfold onProgramButtonPressed
  split_ifs <;> simp

@[simp] theorem onProgramButtonPressed_blinkRate (s : MState) :
    (onProgramButtonPressed s).blinkRate = s.blinkRate := by
  unfold onProgramButtonPressed
  split_ifs <;> simp

@[simp] theorem onProgramButtonPressed_lastDirection (s : MState) :
    (onProgramButtonPressed s).lastDirection = s.lastDirection := by
  unfold onProgramButtonPressed
  split_ifs <;> simp

@[simp] theorem onProgramButtonPressed_modePullState (s : MState) :
    (onProgramButtonPressed s).modePullState = s.modePullState := by
  unfold onProgramButtonPressed
  split_ifs <;> simp

@[simp] theorem onProgramButtonPressed_stateOnPullDown (s : MState) :
    (onProgramButtonPressed s).stateOnPullDown = s.stateOnPullDown := by
  unfold onProgramButtonPressed
  split_ifs <;> simp

@[simp] theorem onProgramButtonPressed_stateOnPullUp (s : MState) :
    (onProgramButtonPressed s).stateOnPullUp = s.stateOnPullUp := by
  unfold onProgramButtonPressed
  split_ifs <;> simp

@[simp] theorem onProgramButtonPressed_middlePositionTimeout (s : MState) :
    (onProgramButtonPressed s).middlePositionTimeout = s.middlePositionTimeout := by
  unfold onProgramButtonPressed
  split_ifs <;> simp

@[simp] theorem onProgramButtonPressed_upSwitchClosed (s : MState) :
    (onProgramButtonPressed s).upSwitchClosed = s.upSwitchClosed := by
  unfold onProgramButtonPressed
  split_ifs <;> simp

@[simp] theorem onProgramButtonPressed_downSwitchClosed (s : MState) :
    (onProgramButtonPressed s).downSwitchClosed = s.downSwitchClosed := by
  unfold onProgramButtonPressed
  split_ifs <;> simp

@[simp] theorem onProgramButtonPressed_timer1running (s : MState) :
    (onProgramButtonPressed s).timer1running = s.timer1running := by
  unfold onProgramButtonPressed
  split_ifs <;> simp

@[simp] theorem serviceProgramButton_tumbler (s : MState) :
    (serviceProgramButton s).tumbler = s.tumbler := by
  unfold serviceProgramButton serviceProgEdge
  split_ifs <;> simp

@[simp] theorem serviceProgramButton_upBtn (s : MState) :
    (serviceProgramButton s).upBtn = s.upBtn := by
  unfold serviceProgramButton serviceProgEdge
  split_ifs <;> simp

@[simp] theorem serviceProgramButton_downBtn (s : MState) :
    (serviceProgramButton s).downBtn = s.downBtn := by
  unfold serviceProgramButton serviceProgEdge
  split_ifs <;> simp

@[simp] theorem serviceProgramButton_mode (s : MState) :
    (serviceProgramButton s).mode = s.mode := by
  unfold serviceProgramButton serviceProgEdge
  split_ifs <;> simp

@[simp] theorem serviceProgramButton_blinkRate (s : MState) :
    (serviceProgramButton s).blinkRate = s.blinkRate := by
  unfold serviceProgramButton serviceProgEdge
  split_ifs <;> simp

@[simp] theorem serviceProgramButton_lastDirection (s : MState) :
    (serviceProgramButton s).lastDirection = s.lastDirection := by
  unfold serviceProgramButton serviceProgEdge
  split_ifs <;> simp

@[simp] theorem serviceProgramButton_modePullState (s : MState) :
    (serviceProgramButton s).modePullState = s.modePullState := by
  unfold serviceProgramButton serviceProgEdge
  split_ifs <;> simp

@[simp] theorem serviceProgramButton_stateOnPullDown (s : MState) :
    (serviceProgramButton s).stateOnPullDown = s.stateOnPullDown := by
  unfold serviceProgramButton serviceProgEdge
  split_ifs <;> simp

@[simp] theorem serviceProgramButton_stateOnPullUp (s : MState) :
    (serviceProgramButton s).stateOnPullUp = s.stateOnPullUp := by
  unfold serviceProgramButton serviceProgEdge
  split_ifs <;> simp

@[simp] theorem serviceProgramButton_middlePositionTimeout (s : MState) :
    (serviceProgramButton s).middlePositionTimeout = s.middlePositionTimeout := by
  unfold serviceProgramButton serviceProgEdge
  split_ifs <;> simp

@[simp] theorem serviceProgramButton_upSwitchClosed (s : MState) :
    (serviceProgramButton s).upSwitchClosed = s.upSwitchClosed := by
  unfold serviceProgramButton serviceProgEdge
  split_ifs <;> simp

@[simp] theorem serviceProgramButton_downSwitchClosed (s : MState) :
    (serviceProgramButton s).downSwitchClosed = s.downSwitchClosed := by
  unfold serviceProgramButton serviceProgEdge
  split_ifs <;> simp

@[simp] theorem serviceProgramButton_timer1running (s : MState) :
    (serviceProgramButton s).timer1running = s.timer1running := by
  unfold serviceProgramButton serviceProgEdge
  split_ifs <;> simp

@[simp] theorem serviceProgramButton_progPressed (s : MState) :
    (serviceProgramButton s).progBtn.pressed = s.progBtn.pressed := by
  unfold serviceProgramButton serviceProgEdge
  split_ifs <;> simp

@[simp] theorem serviceUpButton_upPressed (s : MState) :
    (serviceUpButton s).upBtn.pressed = s.upBtn.pressed := by
  unfold serviceUpButton serviceUpEdge onUpButtonPressed onUpButtonReleased
  split_ifs <;> rfl

@[simp] theorem serviceDownButton_downPressed (s : MState) :
    (serviceDownButton s).downBtn.pressed = s.downBtn.pressed := by
  unfold serviceDownButton serviceDownEdge onDownButtonPressed onDownButtonReleased
  split_ifs <;> rfl

@[simp] theorem timer0Tick_mode (u d p tb : Bool) (s : MState) :
    (timer0Tick u d p tb s).mode = s.mode := by
  simp [timer0Tick]

@[simp] theorem timer0Tick_block (u d p tb : Bool) (s : MState) :
    (timer0Tick u d p tb s).block = s.block := by
  simp [timer0Tick]

@[simp] theorem timer0Tick_middlePositionTimeout (u d p tb : Bool) (s : MState) :
    (timer0Tick u d p tb s).middlePositionTimeout = s.middlePositionTimeout := by
  simp [timer0Tick]

@[simp] theorem timer0Tick_nextPosition (u d p tb : Bool) (s : MState) :
    (timer0Tick u d p tb s).nextPosition = s.nextPosition := by
  simp [timer0Tick]

@[simp] theorem timer0Tick_currPosition (u d p tb : Bool) (s : MState) :
    (timer0Tick u d p tb s).currPosition = s.currPosition := by
  simp [timer0Tick]

@[simp] theorem timer0Tick_clicks (u d p tb : Bool) (s : MState) :
    (timer0Tick u d p tb s).clicks = s.clicks := by
  simp [timer0Tick]

@[simp] theorem timer0Tick_topThreshold (u d p tb : Bool) (s : MState) :
    (timer0Tick u d p tb s).topThreshold = s.topThreshold := by
  simp [timer0Tick]

@[simp] theorem timer0Tick_middleThreshold (u d p tb : Bool) (s : MState) :
    (timer0Tick u d p tb s).middleThreshold = s.middleThreshold := by
  simp [timer0Tick]

@[simp] theorem timer0Tick_bottomThreshold (u d p tb : Bool) (s : MState) :
    (timer0Tick u d p tb s).bottomThreshold = s.bottomThreshold := by
  simp [timer0Tick]

@[simp] theorem timer0Tick_blinkRate (u d p tb : Bool) (s : MState) :
    (timer0Tick u d p tb s).blinkRate = s.blinkRate := by
  simp [timer0Tick]

@[simp] theorem timer0Tick_upSwitchClosed (u d p tb : Bool) (s : MState) :
    (timer0Tick u d p tb s).upSwitchClosed = s.upSwitchClosed := by
  simp [timer0Tick]

@[simp] theorem timer0Tick_downSwitchClosed (u d p tb : Bool) (s : MState) :
    (timer0Tick u d p tb s).downSwitchClosed = s.downSwitchClosed := by
  simp [timer0Tick]

@[simp] theorem timer0Tick_timer1running (u d p tb : Bool) (s : MState) :
    (timer0Tick u d p tb s).timer1running = s.timer1running := by
  simp [timer0Tick]

@[simp] theorem timer0Tick_eeprom0 (u d p tb : Bool) (s : MState) :
    (timer0Tick u d p tb s).eeprom0 = s.eeprom0 := by
  simp [timer0Tick]

@[simp] theorem timer0Tick_eeprom4 (u d p tb : Bool) (s : MState) :
    (timer0Tick u d p tb s).eeprom4 = s.eeprom4 := by
  simp [timer0Tick]

@[simp] theorem timer0Tick_lastDirection (u d p tb : Bool) (s : MState) :
    (timer0Tick u d p tb s).lastDirection = s.lastDirection := by
  simp [timer0Tick]

@[simp] theorem timer0Tick_modePullState (u d p tb : Bool) (s : MState) :
    (timer0Tick u d p tb s).modePullState = s.modePullState := by
  simp [timer0Tick]

@[simp] theorem timer0Tick_stateOnPullDown (u d p tb : Bool) (s : MState) :
    (timer0Tick u d p tb s).stateOnPullDown = s.stateOnPullDown := by
  simp [timer0Tick]

@[simp] theorem timer0Tick_stateOnPullUp (u d p tb : Bool) (s : MState) :
    (timer0Tick u d p tb s).stateOnPullUp = s.stateOnPullUp := by
  simp [timer0Tick]

@[simp] theorem timer0Tick_upLast (u d p tb : Bool) (s : MState) :
    (timer0Tick u d p tb s).upBtn.last = s.upBtn.last := by
  simp [timer0Tick]

@[simp] theorem timer0Tick_downLast (u d p tb : Bool) (s : MState) :
    (timer0Tick u d p tb s).downBtn.last = s.downBtn.last := by
  simp [timer0Tick]

@[simp] theorem timer0Tick_progLast (u d p tb : Bool) (s : MState) :
    (timer0Tick u d p tb s).progBtn.last = s.progBtn.last := by
  simp [timer0Tick]

theorem timer0Tick_upPressed (u d p tb : Bool) (s : MState) :
    (timer0Tick u d p tb s).upBtn.pressed =
      if s.downBtn.pressed then s.upBtn.pressed else (debounce s.upBtn u).pressed := by
  simp [timer0Tick]

theorem timer0Tick_downPressed (u d p tb : Bool) (s : MState) :
    (timer0Tick u d p tb s).downBtn.pressed =
      if (if s.downBtn.pressed then s.upBtn.pressed else (debounce s.upBtn u).pressed) then
        s.downBtn.pressed
      else (debounce s.downBtn d).pressed := by
  simp [timer0Tick]

@[simp] theorem timer1Settle_tumbler (s : MState) :
    (timer1Settle s).tumbler = s.tumbler := by
  unfold timer1Settle
  split_ifs <;> simp

@[simp] theorem timer1Settle_progBtn (s : MState) :
    (timer1Settle s).progBtn = s.progBtn := by
  unfold timer1Settle
  split_ifs <;> simp

@[simp] theorem timer1Settle_upBtn (s : MState) :
    (timer1Settle s).upBtn = s.upBtn := by
  unfold timer1Settle
  split_ifs <;> simp

@[simp] theorem timer1Settle_downBtn (s : MState) :
    (timer1Settle s).downBtn = s.downBtn := by
  unfold timer1Settle
  split_ifs <;> simp

@[simp] theorem timer1Settle_clicks (s : MState) :
    (timer1Settle s).clicks = s.clicks := by
  unfold timer1Settle
  split_ifs <;> simp

@[simp] theorem timer1Settle_mode (s : MState) :
    (timer1Settle s).mode = s.mode := by
  unfold timer1Settle
  split_ifs <;> simp

@[simp] theorem timer1Settle_block (s : MState) :
    (timer1Settle s).block = s.block := by
  unfold timer1Settle
  split_ifs <;> simp

@[simp] theorem timer1Settle_blinkRate (s : MState) :
    (timer1Settle s).blinkRate = s.blinkRate := by
  unfold timer1Settle
  split_ifs <;> simp

@[simp] theorem timer1Settle_lastDirection (s : MState) :
    (timer1Settle s).lastDirection = s.lastDirection := by
  unfold timer1Settle
  split_ifs <;> simp

@[simp] theorem timer1Settle_modePullState (s : MState) :
    (timer1Settle s).modePullState = s.modePullState := by
  unfold timer1Settle
  split_ifs <;> simp

@[simp] theorem timer1Settle_stateOnPullDown (s : MState) :
    (timer1Settle s).stateOnPullDown = s.stateOnPullDown := by
  unfold timer1Settle
  split_ifs <;> simp

@[simp] theorem timer1Settle_stateOnPullUp (s : MState) :
    (timer1Settle s).stateOnPullUp = s.stateOnPullUp := by
  unfold timer1Settle
  split_ifs <;> simp

@[simp] theorem timer1Settle_topThreshold (s : MState) :
    (timer1Settle s).topThreshold = s.topThreshold := by
  unfold timer1Settle
  split_ifs <;> simp

@[simp] theorem timer1Settle_middleThreshold (s : MState) :
    (timer1Settle s).middleThreshold = s.middleThreshold := by
  unfold timer1Settle
  split_ifs <;> simp

@[simp] theorem timer1Settle_bottomThreshold (s : MState) :
    (timer1Settle s).bottomThreshold = s.bottomThreshold := by
  unfold timer1Settle
  split_ifs <;> simp

@[simp] theorem timer1Settle_upSwitchClosed (s : MState) :
    (timer1Settle s).upSwitchClosed = s.upSwitchClosed := by
  unfold timer1Settle
  split_ifs <;> simp

@[simp] theorem timer1Settle_downSwitchClosed (s : MState) :
    (timer1Settle s).downSwitchClosed = s.downSwitchClosed := by
  unfold timer1Settle
  split_ifs <;> simp

@[simp] theorem timer1Settle_timer1running (s : MState) :
    (timer1Settle s).timer1running = s.timer1running := by
  unfold timer1Settle
  split_ifs <;> simp

@[simp] theorem timer1Settle_eeprom0 (s : MState) :
    (timer1Settle s).eeprom0 = s.eeprom0 := by
  unfold timer1Settle
  split_ifs <;> simp

@[simp] theorem timer1Settle_eeprom4 (s : MState) :
    (timer1Settle s).eeprom4 = s.eeprom4 := by
  unfold timer1Settle
  split_ifs <;> simp

@[simp] theorem timer1Settle_middlePositionTimeout (s : MState) :
    (timer1Settle s).middlePositionTimeout = false := by
  unfold timer1Settle
  split_ifs <;> simp_all

@[simp] theorem timer1Settle_currPosition (s : MState) :
    (timer1Settle s).currPosition =
      if s.middlePositionTimeout then s.nextPosition else s.currPosition := by
  unfold timer1Settle
  split_ifs <;> simp_all

@[simp] theorem timer1Settle_nextPosition (s : MState) :
    (timer1Settle s).nextPosition =
      if s.middlePositionTimeout then succPos s.nextPosition else s.nextPosition := by
  unfold timer1Settle
  split_ifs <;> simp_all

@[simp] theorem timer1Expire_timer1running (s : MState) :
    (timer1Expire s).timer1running = false := rfl

@[simp] theorem timer1Expire_block (s : MState) :
    (timer1Expire s).block = false := by
  unfold timer1Expire
  split_ifs <;> simp_all

@[simp] theorem timer1Expire_middlePositionTimeout (s : MState) :
    (timer1Expire s).middlePositionTimeout = false := by
  unfold timer1Expire
  split_ifs <;> simp

@[simp] theorem timer1Expire_currPosition (s : MState) :
    (timer1Expire s).currPosition =
      if s.middlePositionTimeout then s.nextPosition else s.currPosition := by
  unfold timer1Expire
  split_ifs <;> simp_all

@[simp] theorem timer1Expire_nextPosition (s : MState) :
    (timer1Expire s).nextPosition =
      if s.middlePositionTimeout then succPos s.nextPosition else s.nextPosition := by
  unfold timer1Expire
  split_ifs <;> simp_all

@[simp] theorem timer1Expire_tumbler (s : MState) :
    (timer1Expire s).tumbler = s.tumbler := by
  unfold timer1Expire
  split_ifs <;> simp

@[simp] theorem timer1Expire_progBtn (s : MState) :
    (timer1Expire s).progBtn = s.progBtn := by
  unfold timer1Expire
  split_ifs <;> simp

@[simp] theorem timer1Expire_upBtn (s : MState) :
    (timer1Expire s).upBtn = s.upBtn := by
  unfold timer1Expire
  split_ifs <;> simp

@[simp] theorem timer1Expire_downBtn (s : MState) :
    (timer1Expire s).downBtn = s.downBtn := by
  unfold timer1Expire
  split_ifs <;> simp

@[simp] theorem timer1Expire_clicks (s : MState) :
    (timer1Expire s).clicks = s.clicks := by
  unfold timer1Expire
  split_ifs <;> simp

@[simp] theorem timer1Expire_mode (s : MState) :
    (timer1Expire s).mode = s.mode := by
  unfold timer1Expire
  split_ifs <;> simp

@[simp] theorem timer1Expire_blinkRate (s : MState) :
    (timer1Expire s).blinkRate = s.blinkRate := by
  unfold timer1Expire
  split_ifs <;> simp

@[simp] theorem timer1Expire_lastDirection (s : MState) :
    (timer1Expire s).lastDirection = s.lastDirection := by
  unfold timer1Expire
  split_ifs <;> simp

@[simp] theorem timer1Expire_modePullState (s : MState) :
    (timer1Expire s).modePullState = s.modePullState := by
  unfold timer1Expire
  split_ifs <;> simp

@[simp] theorem timer1Expire_stateOnPullDown (s : MState) :
    (timer1Expire s).stateOnPullDown = s.stateOnPullDown := by
  unfold timer1Expire
  split_ifs <;> simp

@[simp] theorem timer1Expire_stateOnPullUp (s : MState) :
    (timer1Expire s).stateOnPullUp = s.stateOnPullUp := by
  unfold timer1Expire
  split_ifs <;> simp

@[simp] theorem timer1Expire_topThreshold (s : MState) :
    (timer1Expire s).topThreshold = s.topThreshold := by
  unfold timer1Expire
  split_ifs <;> simp

@[simp] theorem timer1Expire_middleThreshold (s : MState) :
    (timer1Expire s).middleThreshold = s.middleThreshold := by
  unfold timer1Expire
  split_ifs <;> simp

@[simp] theorem timer1Expire_bottomThreshold (s : MState) :
    (timer1Expire s).bottomThreshold = s.bottomThreshold := by
  unfold timer1Expire
  split_ifs <;> simp

@[simp] theorem timer1Expire_upSwitchClosed (s : MState) :
    (timer1Expire s).upSwitchClosed = s.upSwitchClosed := by
  unfold timer1Expire
  split_ifs <;> simp

@[simp] theorem timer1Expire_downSwitchClosed (s : MState) :
    (timer1Expire s).downSwitchClosed = s.downSwitchClosed := by
  unfold timer1Expire
  split_ifs <;> simp

@[simp] theorem timer1Expire_eeprom0 (s : MState) :
    (timer1Expire s).eeprom0 = s.eeprom0 := by
  unfold timer1Expire
  split_ifs <;> simp

@[simp] theorem timer1Expire_eeprom4 (s : MState) :
    (timer1Expire s).eeprom4 = s.eeprom4 := by
  unfold timer1Expire
  split_ifs <;> simp

@[simp] theorem runModeEvaluation_tumbler (s : MState) :
    (runModeEvaluation s).tumbler = s.tumbler := by
  unfold runModeEvaluation autoStopUp autoStopDown settleArm
  split_ifs <;> simp

@[simp] theorem runModeEvaluation_progBtn (s : MState) :
    (runModeEvaluation s).progBtn = s.progBtn := by
  unfold runModeEvaluation autoStopUp autoStopDown settleArm
  split_ifs <;> simp

@[simp] theorem runModeEvaluation_upBtn (s : MState) :
    (runModeEvaluation s).upBtn = s.upBtn := by
  unfold runModeEvaluation autoStopUp autoStopDown settleArm
  split_ifs <;> simp

@[simp] theorem runModeEvaluation_downBtn (s : MState) :
    (runModeEvaluation s).downBtn = s.downBtn := by
  unfold runModeEvaluation autoStopUp autoStopDown settleArm
  split_ifs <;> simp

@[simp] theorem runModeEvaluation_mode (s : MState) :
    (runModeEvaluation s).mode = s.mode := by
  unfold runModeEvaluation autoStopUp autoStopDown settleArm
  split_ifs <;> simp

@[simp] theorem runModeEvaluation_clicks (s : MState) :
    (runModeEvaluation s).clicks = s.clicks := by
  unfold runModeEvaluation autoStopUp autoStopDown settleArm
  split_ifs <;> simp

@[simp] theorem runModeEvaluation_topThreshold (s : MState) :
    (runModeEvaluation s).topThreshold = s.topThreshold := by
  unfold runModeEvaluation autoStopUp autoStopDown settleArm
  split_ifs <;> simp

@[simp] theorem runModeEvaluation_middleThreshold (s : MState) :
    (runModeEvaluation s).middleThreshold = s.middleThreshold := by
  unfold runModeEvaluation autoStopUp autoStopDown settleArm
  split_ifs <;> simp

@[simp] theorem runModeEvaluation_bottomThreshold (s : MState) :
    (runModeEvaluation s).bottomThreshold = s.bottomThreshold := by
  unfold runModeEvaluation autoStopUp autoStopDown settleArm
  split_ifs <;> simp

@[simp] theorem runModeEvaluation_eeprom0 (s : MState) :
    (runModeEvaluation s).eeprom0 = s.eeprom0 := by
  unfold runModeEvaluation autoStopUp autoStopDown settleArm
  split_ifs <;> simp

@[simp] theorem runModeEvaluation_eeprom4 (s : MState) :
    (runModeEvaluation s).eeprom4 = s.eeprom4 := by
  unfold runModeEvaluation autoStopUp autoStopDown settleArm
  split_ifs <;> simp

@[simp] theorem runModeEvaluation_lastDirection (s : MState) :
    (runModeEvaluation s).lastDirection = s.lastDirection := by
  unfold runModeEvaluation autoStopUp autoStopDown settleArm
  split_ifs <;> simp

@[simp] theorem runModeEvaluation_modePullState (s : MState) :
    (runModeEvaluation s).modePullState = s.modePullState := by
  unfold runModeEvaluation autoStopUp autoStopDown settleArm
  split_ifs <;> simp

@[simp] theorem runModeEvaluation_stateOnPullDown (s : MState) :
    (runModeEvaluation s).stateOnPullDown = s.stateOnPullDown := by
  unfold runModeEvaluation autoStopUp autoStopDown settleArm
  split_ifs <;> simp

@[simp] theorem runModeEvaluation_stateOnPullUp (s : MState) :
    (runModeEvaluation s).stateOnPullUp = s.stateOnPullUp := by
  unfold runModeEvaluation autoStopUp autoStopDown settleArm
  split_ifs <;> simp


/-!
Behavioural helper lemmas used by the inductive invariant.
-/

theorem serviceTumbler_block_mono {s : MState} :
    (serviceTumbler s).block = true → s.block = true := by
  unfold serviceTumbler tumblerCommit
  split_ifs <;> simp_all <;> split_ifs at * <;> simp_all

theorem serviceTumbler_mpt {s : MState} :
    (serviceTumbler s).middlePositionTimeout = true →
      s.middlePositionTimeout = true ∧ (serviceTumbler s).mode = s.mode := by
  unfold serviceTumbler tumblerCommit
  split_ifs <;> simp_all

theorem serviceTumbler_G {s : MState}
    (hG : s.nextPosition = succPos s.currPosition) :
    (serviceTumbler s).nextPosition = succPos (serviceTumbler s).currPosition := by
  unfold serviceTumbler tumblerCommit
  split_ifs <;> simp_all <;> split_ifs <;> simp_all [succPos]

theorem serviceProgramButton_G {s : MState}
    (hG : s.nextPosition = succPos s.currPosition) :
    (serviceProgramButton s).nextPosition =
      succPos (serviceProgramButton s).currPosition := by
  unfold serviceProgramButton serviceProgEdge onProgramButtonPressed
  split_ifs <;> simp_all

theorem serviceProgramButton_block_mono {s : MState} :
    s.block = true → (serviceProgramButton s).block = true := by
  unfold serviceProgramButton serviceProgEdge onProgramButtonPressed teachCommit
  intro hb
  split_ifs <;> simp_all <;>
    cases h : (ledSet (teachAdv2 (teachAdv1 { s with progBtn := { s.progBtn with last := s.progBtn.pressed } })).currPosition false
      (teachAdv2 (teachAdv1 { s with progBtn := { s.progBtn with last := s.progBtn.pressed } }))).currPosition <;>
    simp_all

theorem serviceUpButton_props {s : MState}
    (hB : s.upSwitchClosed = true → s.upBtn.last = true) :
    ((serviceUpButton s).upSwitchClosed = true → (serviceUpButton s).upBtn.pressed = true) ∧
    ((serviceUpButton s).upSwitchClosed = true → (serviceUpButton s).upBtn.last = true) := by
  unfold serviceUpButton serviceUpEdge onUpButtonPressed onUpButtonReleased
  split_ifs <;> simp_all

theorem serviceDownButton_props {s : MState}
    (hC : s.downSwitchClosed = true → s.downBtn.last = true) :
    ((serviceDownButton s).downSwitchClosed = true → (serviceDownButton s).downBtn.pressed = true) ∧
    ((serviceDownButton s).downSwitchClosed = true → (serviceDownButton s).downBtn.last = true) := by
  unfold serviceDownButton serviceDownEdge onDownButtonPressed onDownButtonReleased
  split_ifs <;> simp_all

/-!
The inductive invariant.  Inv collects the facts needed for the safety
claims: mutual exclusion of the two stable pressed flags (enforced by the
sampling order in TIMER0_OVF_vect), relay bits tied to the last-serviced
flags, mutual exclusion of the two relay outputs, relays forced open while
block is latched, exclusion of block and the settle flag, the settle flag
implying RUN mode, and next being the cyclic successor of current.
-/

def Inv (s : MState) : Prop :=
  (s.upBtn.pressed = true → s.downBtn.pressed = false) ∧
  (s.upSwitchClosed = true → s.upBtn.last = true) ∧
  (s.downSwitchClosed = true → s.downBtn.last = true) ∧
  ¬(s.upSwitchClosed = true ∧ s.downSwitchClosed = true) ∧
  (s.block = true → s.upSwitchClosed = false ∧ s.downSwitchClosed = false) ∧
  (s.block = true → s.middlePositionTimeout = false) ∧
  (s.middlePositionTimeout = true → s.mode = 2) ∧
  s.nextPosition = succPos s.currPosition

theorem inv_boot (m t : Int) : Inv (bootState m t) := by
  simp [Inv, bootState, succPos]

theorem inv_tick (u d p tb : Bool) {s : MState} (h : Inv s) :
    Inv (timer0Tick u d p tb s) := by
  obtain ⟨hA, hB, hC, hD, hE, hF, hF2, hG⟩ := h
  refine ⟨?_, by simpa using hB, by simpa using hC, by simpa using hD,
          by simpa using hE, by simpa using hF, by simpa using hF2, by simpa using hG⟩
  rw [timer0Tick_upPressed, timer0Tick_downPressed]
  by_cases hd : s.downBtn.pressed = true <;> simp_all

theorem inv_pulse {s : MState} (h : Inv s) : Inv (int0Pulse s) := by
  obtain ⟨hA, hB, hC, hD, hE, hF, hF2, hG⟩ := h
  exact ⟨by simpa using hA, by simpa using hB, by simpa using hC, by simpa using hD,
         by simpa using hE, by simpa using hF, by simpa using hF2, by simpa using hG⟩

theorem inv_timer1 {s : MState} (h : Inv s) : Inv (timer1Expire s) := by
  obtain ⟨hA, hB, hC, hD, hE, hF, hF2, hG⟩ := h
  refine ⟨by simpa using hA, by simpa using hB, by simpa using hC, by simpa using hD,
          by simp, by simp, by simp, ?_⟩
  by_cases hm : s.middlePositionTimeout = true <;> simp_all

theorem inv_runEval {s4 : MState}
    (hA4 : s4.upBtn.pressed = true → s4.downBtn.pressed = false)
    (hB4 : s4.upSwitchClosed = true → s4.upBtn.last = true)
    (hC4 : s4.downSwitchClosed = true → s4.downBtn.last = true)
    (hPu : s4.upSwitchClosed = true → s4.upBtn.pressed = true)
    (hPd : s4.downSwitchClosed = true → s4.downBtn.pressed = true)
    (hm : s4.mode = 2)
    (hG4 : s4.nextPosition = succPos s4.currPosition)
    (hb : s4.block = false) : Inv (runModeEvaluation s4) := by
  unfold runModeEvaluation autoStopUp autoStopDown settleArm
  by_cases hup : s4.upBtn.pressed = true
  · have hdp : s4.downBtn.pressed = false := hA4 hup
    have hdc : s4.downSwitchClosed = false := by
      by_cases hq : s4.downSwitchClosed = true
      · exact absurd (hPd hq) (by simp [hdp])
      · simpa using hq
    refine ⟨?_, ?_, ?_, ?_, ?_, ?_, ?_, ?_⟩ <;> split_ifs <;> simp_all
  · by_cases hdn : s4.downBtn.pressed = true
    · have huc : s4.upSwitchClosed = false := by
        by_cases hq : s4.upSwitchClosed = true
        · exact absurd (hPu hq) (by simp_all)
        · simpa using hq
      refine ⟨?_, ?_, ?_, ?_, ?_, ?_, ?_, ?_⟩ <;> split_ifs <;> simp_all
    · refine ⟨?_, ?_, ?_, ?_, ?_, ?_, ?_, ?_⟩ <;> split_ifs <;> simp_all

theorem inv_unblocked {s2 : MState}
    (hA2 : s2.upBtn.pressed = true → s2.downBtn.pressed = false)
    (hB2 : s2.upSwitchClosed = true → s2.upBtn.last = true)
    (hC2 : s2.downSwitchClosed = true → s2.downBtn.last = true)
    (hF22 : s2.middlePositionTimeout = true → s2.mode = 2)
    (hG2 : s2.nextPosition = succPos s2.currPosition)
    (hb : s2.block = false) : Inv (unblockedBody s2) := by
  have p3 := serviceUpButton_props hB2
  have hC3 : (serviceUpButton s2).downSwitchClosed = true →
      (serviceUpButton s2).downBtn.last = true := by simpa using hC2
  have p4 := serviceDownButton_props hC3
  have hPu4 : (serviceDownButton (serviceUpButton s2)).upSwitchClosed = true →
      (serviceDownButton (serviceUpButton s2)).upBtn.pressed = true := by
    simpa using p3.1
  have hB4 : (serviceDownButton (serviceUpButton s2)).upSwitchClosed = true →
      (serviceDownButton (serviceUpButton s2)).upBtn.last = true := by
    simpa using p3.2
  have hA4 : (serviceDownButton (serviceUpButton s2)).upBtn.pressed = true →
      (serviceDownButton (serviceUpButton s2)).downBtn.pressed = false := by
    simpa using hA2
  have hF24 : (serviceDownButton (serviceUpButton s2)).middlePositionTimeout = true →
      (serviceDownButton (serviceUpButton s2)).mode = 2 := by
    simpa using hF22
  have hG4 : (serviceDownButton (serviceUpButton s2)).nextPosition =
      succPos (serviceDownButton (serviceUpButton s2)).currPosition := by
    simpa using hG2
  have hb4 : (serviceDownButton (serviceUpButton s2)).block = false := by
    simpa using hb
  have hD4 : ¬((serviceDownButton (serviceUpButton s2)).upSwitchClosed = true ∧
      (serviceDownButton (serviceUpButton s2)).downSwitchClosed = true) := by
    rintro ⟨hu, hdc⟩
    have hu3 : (serviceUpButton s2).upSwitchClosed = true := by simpa using hu
    have h1 : s2.upBtn.pressed = true := by simpa using p3.1 hu3
    have h2 : s2.downBtn.pressed = true := by simpa using p4.1 hdc
    exact absurd (hA2 h1) (by simp [h2])
  unfold unblockedBody modeBody
  by_cases hm : (serviceDownButton (serviceUpButton s2)).mode = 2
  · rw [if_pos hm]
    exact inv_runEval hA4 hB4 p4.2 hPu4 p4.1 hm hG4 hb4
  · rw [if_neg hm]
    by_cases hm1 : (serviceDownButton (serviceUpButton s2)).mode = 1
    · rw [if_pos hm1]
      unfold progSafety
      split_ifs <;>
        exact ⟨by simpa using hA4, by simp_all, by simp_all, by simp_all,
               by simp_all, by simp_all, by simp_all, by simpa using hG4⟩
    · rw [if_neg hm1]
      exact ⟨hA4, hB4, p4.2, by simp_all, by simp_all, by simp_all, hF24, hG4⟩

theorem inv_loop {s : MState} (h : Inv s) : Inv (loopIter s) := by
  obtain ⟨hA, hB, hC, hD, hE, hF, hF2, hG⟩ := h
  have hG1 := serviceTumbler_G hG
  have hA1 : (serviceTumbler s).upBtn.pressed = true →
      (serviceTumbler s).downBtn.pressed = false := by simpa using hA
  have hB1 : (serviceTumbler s).upSwitchClosed = true →
      (serviceTumbler s).upBtn.last = true := by simpa using hB
  have hC1 : (serviceTumbler s).downSwitchClosed = true →
      (serviceTumbler s).downBtn.last = true := by simpa using hC
  have hF21 : (serviceTumbler s).middlePositionTimeout = true →
      (serviceTumbler s).mode = 2 := by
    intro hm
    obtain ⟨hsm, hmode⟩ := serviceTumbler_mpt hm
    rw [hmode]
    exact hF2 hsm
  have hFx1 : (serviceTumbler s).block = true →
      (serviceTumbler s).middlePositionTimeout = false := by
    intro hb
    have hsb := serviceTumbler_block_mono hb
    by_cases hm : (serviceTumbler s).middlePositionTimeout = true
    · obtain ⟨hsm, _⟩ := serviceTumbler_mpt hm
      exact absurd (hF hsb) (by simp [hsm])
    · simpa using hm
  have hE1 : (serviceTumbler s).block = true →
      (serviceTumbler s).upSwitchClosed = false ∧
      (serviceTumbler s).downSwitchClosed = false := by
    intro hb
    have := hE (serviceTumbler_block_mono hb)
    simpa using this
  unfold loopIter progPhase blockGate
  by_cases hm1 : (serviceTumbler s).mode = 1
  · rw [if_pos hm1]
    have hmpt1f : (serviceTumbler s).middlePositionTimeout = false := by
      by_cases hq : (serviceTumbler s).middlePositionTimeout = true
      · exact absurd (hF21 hq) (by simp [hm1])
      · simpa using hq
    have hA2 : (serviceProgramButton (serviceTumbler s)).upBtn.pressed = true →
        (serviceProgramButton (serviceTumbler s)).downBtn.pressed = false := by
      simpa using hA1
    have hB2 : (serviceProgramButton (serviceTumbler s)).upSwitchClosed = true →
        (serviceProgramButton (serviceTumbler s)).upBtn.last = true := by
      simpa using hB1
    have hC2 : (serviceProgramButton (serviceTumbler s)).downSwitchClosed = true →
        (serviceProgramButton (serviceTumbler s)).downBtn.last = true := by
      simpa using hC1
    have hF22 : (serviceProgramButton (serviceTumbler s)).middlePositionTimeout = true →
        (serviceProgramButton (serviceTumbler s)).mode = 2 := by
      intro hq
      exact absurd hq (by simp [hmpt1f])
    have hG2 := serviceProgramButton_G hG1
    by_cases hbk : (serviceProgramButton (serviceTumbler s)).block = true
    · rw [if_pos hbk]
      exact ⟨by simpa using hA2, by simp, by simp, by simp, by simp,
             by simp [hmpt1f], by simp [hmpt1f], by simpa using hG2⟩
    · rw [if_neg hbk]
      exact inv_unblocked hA2 hB2 hC2 hF22 hG2 (by simpa using hbk)
  · rw [if_neg hm1]
    by_cases hbk : (serviceTumbler s).block = true
    · rw [if_pos hbk]
      exact ⟨by simpa using hA1, by simp, by simp, by simp, by simp,
             by simp [hFx1 hbk], by simpa using hF21, by simpa using hG1⟩
    · rw [if_neg hbk]
      exact inv_unblocked hA1 hB1 hC1 hF21 hG1 (by simpa using hbk)

/-- Every reachable state satisfies the inductive invariant. -/
theorem inv_reachable {s : MState} (h : Reachable s) : Inv s := by
  induction h with
  | boot m t => exact inv_boot m t
  | tick u d p tb _ ih => exact inv_tick u d p tb ih
  | pulse _ ih => exact inv_pulse ih
  | timer1 _ _ ih => exact inv_timer1 ih
  | loop _ ih => exact inv_loop ih

/-!
Helper facts for the claim theorems.
-/

theorem serviceTumbler_id {s : MState}
    (h1 : s.tumbler.pinBuffer ≠ 255) (h2 : s.tumbler.pinBuffer ≠ 0) :
    serviceTumbler s = s := by
  unfold serviceTumbler
  rw [if_neg]
  simp [h1, h2]

theorem if_gt_eq_max (a b : Int) : (if a > b then a else b) = max a b := by
  rcases le_total a b with h | h <;> simp [max_def] <;> omega

/-!
Claim theorems.
-/

/-- C3: at no reachable state are the UP relay and the DOWN relay closed
simultaneously; at most one of the two relay outputs is closed. -/
theorem no_simultaneous_relays {s : MState} (h : Reachable s) :
    ¬(s.upSwitchClosed = true ∧ s.downSwitchClosed = true) :=
  (inv_reachable h).2.2.2.1

/-- Witness for C3 at the boot state. -/
theorem no_simultaneous_relays_witness :
    ¬((bootState 0 0).upSwitchClosed = true ∧ (bootState 0 0).downSwitchClosed = true) :=
  no_simultaneous_relays (Reachable.boot 0 0)

/-- C6: at every reachable state (hence at every observable instant after
boot, across mode changes, teach presses, autostop advances and settle
expiries) nextPosition is the cyclic successor of currPosition under
BOT to MID to TOP to BOT. -/
theorem next_is_cyclic_successor {s : MState} (h : Reachable s) :
    s.nextPosition = succPos s.currPosition :=
  (inv_reachable h).2.2.2.2.2.2.2

/-- Witness for C6 at the boot state. -/
theorem next_is_cyclic_successor_witness :
    (bootState 0 0).nextPosition = succPos (bootState 0 0).currPosition :=
  next_is_cyclic_successor (Reachable.boot 0 0)

/-- C1: a supervisor iteration in RUN mode with block not latched, the UP
button held, the mode-selector debouncer not at a terminal value (so no
mode change is committed this iteration), and the autostop condition
(next = MID and clicks at or above middleThreshold, or next = TOP and
clicks at or above topThreshold) arms the block timer, de-energises the UP
relay, restores the slow blink rate, and advances the machine. -/
theorem run_autostop_up {s : MState}
    (hm : s.mode = 2) (hb : s.block = false) (hu : s.upBtn.pressed = true)
    (ht1 : s.tumbler.pinBuffer ≠ 255) (ht2 : s.tumbler.pinBuffer ≠ 0)
    (hc : (s.nextPosition = Pos.mid ∧ s.clicks ≥ s.middleThreshold) ∨
          (s.nextPosition = Pos.top ∧ s.clicks ≥ s.topThreshold)) :
    (loopIter s).block = true ∧ (loopIter s).timer1running = true ∧
    (loopIter s).upSwitchClosed = false ∧ (loopIter s).blinkRate = 10 ∧
    (loopIter s).currPosition = s.nextPosition ∧
    (loopIter s).nextPosition = succPos s.nextPosition := by
  have hid := serviceTumbler_id ht1 ht2
  refine ⟨?_, ?_, ?_, ?_, ?_, ?_⟩ <;>
    simp only [loopIter, progPhase, blockGate, unblockedBody, modeBody,
               runModeEvaluation, autoStopUp, hid] <;>
    rcases hc with ⟨h1, h2⟩ | ⟨h1, h2⟩ <;>
    simp_all

/-- Witness for C1 at a concrete RUN-mode state at the MID threshold. -/
theorem run_autostop_up_witness :
    (loopIter { bootState 0 100 with
                  mode := 2, upBtn := ⟨0, true, true⟩, nextPosition := Pos.mid,
                  currPosition := Pos.bot, clicks := 50, middleThreshold := 50,
                  tumbler := ⟨85, false, false⟩ }).block = true := by
  have h := run_autostop_up
    (s := { bootState 0 100 with
              mode := 2, upBtn := ⟨0, true, true⟩, nextPosition := Pos.mid,
              currPosition := Pos.bot, clicks := 50, middleThreshold := 50,
              tumbler := ⟨85, false, false⟩ })
    (by decide) (by decide) (by decide) (by decide) (by decide)
    (Or.inl ⟨by decide, by decide⟩)
  exact h.1

theorem teachCommit_bot {s : MState} (h : s.currPosition = Pos.bot) :
    (teachCommit s).bottomThreshold = 0 ∧ (teachCommit s).clicks = 0 ∧
    (teachCommit s).middleThreshold = s.middleThreshold ∧
    (teachCommit s).topThreshold = s.topThreshold ∧
    (teachCommit s).eeprom0 = s.eeprom0 ∧ (teachCommit s).eeprom4 = s.eeprom4 ∧
    (teachCommit s).block = s.block := by
  unfold teachCommit
  simp [h]

theorem teachCommit_mid {s : MState} (h : s.currPosition = Pos.mid) :
    (teachCommit s).middleThreshold = max s.clicks s.bottomThreshold ∧
    (teachCommit s).eeprom0 = max s.clicks s.bottomThreshold ∧
    (teachCommit s).bottomThreshold = s.bottomThreshold ∧
    (teachCommit s).topThreshold = s.topThreshold ∧
    (teachCommit s).clicks = s.clicks ∧
    (teachCommit s).eeprom4 = s.eeprom4 ∧
    (teachCommit s).block = s.block := by
  unfold teachCommit
  simp [h, if_gt_eq_max]

theorem teachCommit_top {s : MState} (h : s.currPosition = Pos.top) :
    (teachCommit s).topThreshold = max s.clicks s.middleThreshold ∧
    (teachCommit s).eeprom4 = max s.clicks s.middleThreshold ∧
    (teachCommit s).bottomThreshold = s.bottomThreshold ∧
    (teachCommit s).middleThreshold = s.middleThreshold ∧
    (teachCommit s).clicks = s.clicks ∧
    (teachCommit s).eeprom0 = s.eeprom0 ∧
    (teachCommit s).block = true := by
  unfold teachCommit
  simp [h, if_gt_eq_max]

/-- C4: in PROGRAM mode the PROGRAM button commits exactly one position per
press, walking BOT, MID, TOP.  The press whose target (the old next) is
BOT zeroes bottomThreshold and clicks; the MID press stores
max(clicks, bottomThreshold) and persists it to NVRAM offset 0; the TOP
press stores max(clicks, middleThreshold), persists it to NVRAM offset 4
and latches block; each press makes current the old next and next its
cyclic successor, and leaves all other thresholds and NVRAM words
untouched. -/
theorem teach_in_commits :
    ∀ sb sm st : MState,
      (sb.mode = 1 → sb.nextPosition = Pos.bot →
        (onProgramButtonPressed sb).bottomThreshold = 0 ∧
        (onProgramButtonPressed sb).clicks = 0 ∧
        (onProgramButtonPressed sb).currPosition = Pos.bot ∧
        (onProgramButtonPressed sb).nextPosition = Pos.mid ∧
        (onProgramButtonPressed sb).middleThreshold = sb.middleThreshold ∧
        (onProgramButtonPressed sb).topThreshold = sb.topThreshold ∧
        (onProgramButtonPressed sb).eeprom0 = sb.eeprom0 ∧
        (onProgramButtonPressed sb).eeprom4 = sb.eeprom4 ∧
        (onProgramButtonPressed sb).block = sb.block) ∧
      (sm.mode = 1 → sm.nextPosition = Pos.mid →
        (onProgramButtonPressed sm).middleThreshold = max sm.clicks sm.bottomThreshold ∧
        (onProgramButtonPressed sm).eeprom0 = max sm.clicks sm.bottomThreshold ∧
        (onProgramButtonPressed sm).currPosition = Pos.mid ∧
        (onProgramButtonPressed sm).nextPosition = Pos.top ∧
        (onProgramButtonPressed sm).bottomThreshold = sm.bottomThreshold ∧
        (onProgramButtonPressed sm).topThreshold = sm.topThreshold ∧
        (onProgramButtonPressed sm).clicks = sm.clicks ∧
        (onProgramButtonPressed sm).eeprom4 = sm.eeprom4 ∧
        (onProgramButtonPressed sm).block = sm.block) ∧
      (st.mode = 1 → st.nextPosition = Pos.top →
        (onProgramButtonPressed st).topThreshold = max st.clicks st.middleThreshold ∧
        (onProgramButtonPressed st).eeprom4 = max st.clicks st.middleThreshold ∧
        (onProgramButtonPressed st).block = true ∧
        (onProgramButtonPressed st).currPosition = Pos.top ∧
        (onProgramButtonPressed st).nextPosition = Pos.bot ∧
        (onProgramButtonPressed st).bottomThreshold = st.bottomThreshold ∧
        (onProgramButtonPressed st).middleThreshold = st.middleThreshold ∧
        (onProgramButtonPressed st).clicks = st.clicks ∧
        (onProgramButtonPressed st).eeprom0 = st.eeprom0) := by
  intro sb sm st
  refine ⟨fun hm hn => ?_, fun hm hn => ?_, fun hm hn => ?_⟩
  · have hc : (ledSet (teachAdv2 (teachAdv1 sb)).currPosition false
        (teachAdv2 (teachAdv1 sb))).currPosition = Pos.bot := by simp [hn]
    have hk := teachCommit_bot hc
    unfold onProgramButtonPressed
    rw [if_pos hm]
    refine ⟨by simpa using hk.1, by simpa using hk.2.1, ?_, ?_, ?_, ?_, ?_, ?_, ?_⟩ <;>
      simp_all [succPos]
  · have hc : (ledSet (teachAdv2 (teachAdv1 sm)).currPosition false
        (teachAdv2 (teachAdv1 sm))).currPosition = Pos.mid := by simp [hn]
    have hk := teachCommit_mid hc
    unfold onProgramButtonPressed
    rw [if_pos hm]
    refine ⟨?_, ?_, ?_, ?_, ?_, ?_, ?_, ?_, ?_⟩ <;> simp_all [succPos]
  · have hc : (ledSet (teachAdv2 (teachAdv1 st)).currPosition false
        (teachAdv2 (teachAdv1 st))).currPosition = Pos.top := by simp [hn]
    have hk := teachCommit_top hc
    unfold onProgramButtonPressed
    rw [if_pos hm]
    refine ⟨?_, ?_, ?_, ?_, ?_, ?_, ?_, ?_, ?_⟩ <;> simp_all [succPos]

/-- Concrete PROGRAM-mode state about to commit BOT, for the C4 witness. -/
def teachStateB : MState :=
  { bootState 7 9 with mode := 1, nextPosition := Pos.bot, currPosition := Pos.top }

/-- Concrete PROGRAM-mode state about to commit MID, for the C4 witness. -/
def teachStateM : MState :=
  { bootState 7 9 with
    mode := 1, nextPosition := Pos.mid, currPosition := Pos.bot, clicks := 100 }

/-- Concrete PROGRAM-mode state about to commit TOP, for the C4 witness. -/
def teachStateT : MState :=
  { bootState 7 9 with
    mode := 1, nextPosition := Pos.top, currPosition := Pos.mid, clicks := 250,
    middleThreshold := 100 }

/-- Witness for C4: the three commit cases at concrete PROGRAM-mode
states. -/
theorem teach_in_commits_witness :
    (onProgramButtonPressed teachStateB).bottomThreshold = 0 ∧
    (onProgramButtonPressed teachStateM).middleThreshold = 100 ∧
    (onProgramButtonPressed teachStateT).block = true := by
  obtain ⟨h1, h2, h3⟩ := teach_in_commits teachStateB teachStateM teachStateT
  refine ⟨(h1 (by decide) (by decide)).1, ?_, (h3 (by decide) (by decide)).2.2.1⟩
  have hx := (h2 (by decide) (by decide)).1
  rw [hx]
  decide

/-- The pair of debounced bias readings as recorded by the serviceTumbler
call now in progress: the reading for the active bias phase comes from the
terminal register value about to be stored, the other from the value
recorded in the previous phase. -/
def recordedPair (s : MState) : Nat × Nat :=
  if s.modePullState = 0 then (s.stateOnPullUp, s.tumbler.pinBuffer)
  else (s.tumbler.pinBuffer, s.stateOnPullDown)

/-- C8: the tri-state mode decode is a round trip.  When the tumbler
debouncer is at a terminal value and the recorded pair of bias readings
(stateOnPullUp, stateOnPullDown) comes out as (all-ones, all-zeros) the
committed mode is RUN (2); (all-zeros, all-zeros) gives PROGRAM (1);
(all-ones, all-ones) gives MANUAL (3); and when the register is not at a
terminal value serviceTumbler changes nothing at all, so a mode change is
committed only once a stable reading has been recorded. -/
theorem mode_decode_round_trip :
    ∀ s1 s2 s3 s4 : MState,
      ((s1.tumbler.pinBuffer = 255 ∨ s1.tumbler.pinBuffer = 0) →
       (s1.modePullState = 0 ∨ s1.modePullState = 1) →
       recordedPair s1 = (255, 0) → (serviceTumbler s1).mode = 2) ∧
      ((s2.tumbler.pinBuffer = 255 ∨ s2.tumbler.pinBuffer = 0) →
       (s2.modePullState = 0 ∨ s2.modePullState = 1) →
       recordedPair s2 = (0, 0) → (serviceTumbler s2).mode = 1) ∧
      ((s3.tumbler.pinBuffer = 255 ∨ s3.tumbler.pinBuffer = 0) →
       (s3.modePullState = 0 ∨ s3.modePullState = 1) →
       recordedPair s3 = (255, 255) → (serviceTumbler s3).mode = 3) ∧
      (s4.tumbler.pinBuffer ≠ 255 → s4.tumbler.pinBuffer ≠ 0 →
       serviceTumbler s4 = s4) := by
  intro s1 s2 s3 s4
  refine ⟨?_, ?_, ?_, fun h1 h2 => serviceTumbler_id h1 h2⟩ <;>
  · intro hterm hphase hpair
    unfold serviceTumbler tumblerCommit tumblerRecord tumblerDecode recordedPair at *
    rcases hphase with hp | hp <;>
      rw [if_pos hterm] <;>
      split_ifs at * <;> simp_all

/-- Witness for C8: the three decodes and the no-commit case at concrete
states. -/
theorem mode_decode_round_trip_witness :
    (serviceTumbler { bootState 0 0 with tumbler := ⟨255, false, false⟩, modePullState := 1, stateOnPullDown := 0 }).mode = 2 ∧
    (serviceTumbler { bootState 0 0 with tumbler := ⟨0, false, false⟩, modePullState := 1, stateOnPullDown := 0 }).mode = 1 ∧
    (serviceTumbler { bootState 0 0 with tumbler := ⟨255, false, false⟩, modePullState := 1, stateOnPullDown := 255 }).mode = 3 ∧
    serviceTumbler { bootState 0 0 with tumbler := ⟨85, false, false⟩ } =
      { bootState 0 0 with tumbler := ⟨85, false, false⟩ } := by
  obtain ⟨h1, h2, h3, h4⟩ := mode_decode_round_trip
    { bootState 0 0 with tumbler := ⟨255, false, false⟩, modePullState := 1, stateOnPullDown := 0 }
    { bootState 0 0 with tumbler := ⟨0, false, false⟩, modePullState := 1, stateOnPullDown := 0 }
    { bootState 0 0 with tumbler := ⟨255, false, false⟩, modePullState := 1, stateOnPullDown := 255 }
    { bootState 0 0 with tumbler := ⟨85, false, false⟩ }
  exact ⟨h1 (by decide) (by decide) (by decide),
         h2 (by decide) (by decide) (by decide),
         h3 (by decide) (by decide) (by decide),
         h4 (by decide) (by decide)⟩

/-- C10: a contradictory recorded pair (stateOnPullUp all-zeros after the
pull-up phase while stateOnPullDown holds all-ones) decodes to no case, so
serviceTumbler commits changeMode 0, leaving mode at 0, a value outside
the three modes; in mode 0 canGoUp and canGoDown are false, and a
supervisor iteration (with no tumbler commit pending) services no PROGRAM
button, closes no relay, and mutates no threshold. -/
theorem contradictory_pair_mode_zero :
    ∀ s1 s2 s3 : MState,
      (s1.tumbler.pinBuffer = 0 → s1.modePullState = 1 → s1.stateOnPullDown = 255 →
        s1.mode ≠ 0 → (serviceTumbler s1).mode = 0) ∧
      (s2.mode = 0 → canGoUp s2 = false ∧ canGoDown s2 = false) ∧
      (s3.mode = 0 → s3.tumbler.pinBuffer ≠ 255 → s3.tumbler.pinBuffer ≠ 0 →
        ((loopIter s3).upSwitchClosed = true → s3.upSwitchClosed = true) ∧
        ((loopIter s3).downSwitchClosed = true → s3.downSwitchClosed = true) ∧
        (loopIter s3).bottomThreshold = s3.bottomThreshold ∧
        (loopIter s3).middleThreshold = s3.middleThreshold ∧
        (loopIter s3).topThreshold = s3.topThreshold ∧
        (loopIter s3).progBtn = s3.progBtn) := by
  intro s1 s2 s3
  refine ⟨?_, ?_, ?_⟩
  · intro hbuf hp hdn hm
    unfold serviceTumbler tumblerCommit tumblerRecord tumblerDecode
    rw [if_pos (Or.inr hbuf)]
    split_ifs <;> simp_all
  · intro hm
    unfold canGoUp canGoDown
    simp [hm]
  · intro hm ht1 ht2
    have hid := serviceTumbler_id ht1 ht2
    have hm1 : ¬(s3.mode = 1) := by simp [hm]
    by_cases hbk : s3.block = true
    · have hLoop : loopIter s3 = openBothSwitches s3 := by
        unfold loopIter progPhase blockGate
        rw [hid, if_neg hm1, if_pos hbk]
      rw [hLoop]
      exact ⟨by simp, by simp, by simp, by simp, by simp, by simp⟩
    · have hLoop : loopIter s3 = serviceDownButton (serviceUpButton s3) := by
        unfold loopIter progPhase blockGate unblockedBody modeBody
        rw [hid, if_neg hm1, if_neg hbk,
            if_neg (show ¬((serviceDownButton (serviceUpButton s3)).mode = 2) by simp [hm]),
            if_neg (show ¬((serviceDownButton (serviceUpButton s3)).mode = 1) by simp [hm])]
      rw [hLoop]
      refine ⟨?_, ?_, by simp, by simp, by simp, by simp⟩
      · intro hcl
        have hcl2 : (serviceUpButton s3).upSwitchClosed = true := by simpa using hcl
        revert hcl2
        unfold serviceUpButton serviceUpEdge onUpButtonPressed onUpButtonReleased canGoUp
        split_ifs <;> simp_all
      · intro hcl
        have hup : (serviceUpButton s3).downSwitchClosed = s3.downSwitchClosed := by simp
        revert hcl
        unfold serviceDownButton serviceDownEdge onDownButtonPressed onDownButtonReleased canGoDown
        split_ifs <;> simp_all

/-- Witness for C10 at concrete states. -/
theorem contradictory_pair_mode_zero_witness :
    (serviceTumbler { bootState 0 0 with tumbler := ⟨0, false, false⟩, modePullState := 1, stateOnPullDown := 255, mode := 2 }).mode = 0 ∧
    canGoUp { bootState 0 0 with mode := 0 } = false ∧
    (loopIter { bootState 0 0 with tumbler := ⟨85, false, false⟩ }).middleThreshold = 0 := by
  obtain ⟨h1, h2, h3⟩ := contradictory_pair_mode_zero
    { bootState 0 0 with tumbler := ⟨0, false, false⟩, modePullState := 1, stateOnPullDown := 255, mode := 2 }
    { bootState 0 0 with mode := 0 }
    { bootState 0 0 with tumbler := ⟨85, false, false⟩ }
  refine ⟨h1 (by decide) (by decide) (by decide) (by decide),
          (h2 (by decide)).1, ?_⟩
  have hx := (h3 (by decide) (by decide) (by decide)).2.2.2.1
  rw [hx]
  decide

/-- C9: settle-timer behaviour in RUN mode.  With neither button held (and
no tumbler commit pending) an iteration with next = MID and clicks at or
above middleThreshold - 10 arms the settle timer; when timer 1 expires with
the settle flag armed the machine advances to the next position
unconditionally (current becomes the old next, hence MID when that was the
target) and the flag clears; and an iteration taken while UP or DOWN is
held leaves the settle flag cleared, the cancellation happening before the
autostop comparison. -/
theorem settle_timer_behaviour :
    ∀ sa sb sc : MState,
      (sa.mode = 2 → sa.block = false → sa.upBtn.pressed = false →
       sa.downBtn.pressed = false →
       sa.tumbler.pinBuffer ≠ 255 → sa.tumbler.pinBuffer ≠ 0 →
       sa.nextPosition = Pos.mid → sa.clicks ≥ sa.middleThreshold - 10 →
       (loopIter sa).middlePositionTimeout = true ∧
       (loopIter sa).timer1running = true) ∧
      (sb.middlePositionTimeout = true →
       (timer1Expire sb).currPosition = sb.nextPosition ∧
       (timer1Expire sb).middlePositionTimeout = false ∧
       (timer1Expire sb).nextPosition = succPos sb.nextPosition) ∧
      (sc.mode = 2 → sc.block = false → sc.middlePositionTimeout = true →
       sc.tumbler.pinBuffer ≠ 255 → sc.tumbler.pinBuffer ≠ 0 →
       (sc.upBtn.pressed = true ∨ sc.downBtn.pressed = true) →
       (loopIter sc).middlePositionTimeout = false) := by
  intro sa sb sc
  refine ⟨?_, ?_, ?_⟩
  · intro hm hb hu hd ht1 ht2 hn hc
    have hid := serviceTumbler_id ht1 ht2
    constructor <;>
      simp_all [loopIter, progPhase, blockGate, unblockedBody, modeBody,
                runModeEvaluation, settleArm, hid]
  · intro hmpt
    exact ⟨by simp [hmpt], by simp, by simp [hmpt]⟩
  · intro hm hb hmpt ht1 ht2 hc
    have hid := serviceTumbler_id ht1 ht2
    rcases hc with hu | hd
    · simp_all [loopIter, progPhase, blockGate, unblockedBody, modeBody,
                runModeEvaluation, autoStopUp, hid]
      split_ifs <;> simp
    · by_cases hu : sc.upBtn.pressed = true
      · simp_all [loopIter, progPhase, blockGate, unblockedBody, modeBody,
                  runModeEvaluation, autoStopUp, hid]
        split_ifs <;> simp
      · simp_all [loopIter, progPhase, blockGate, unblockedBody, modeBody,
                  runModeEvaluation, autoStopDown, hid]
        split_ifs <;> simp

/-- Concrete RUN-mode coasting state inside the MID grace window, for the
C9 witness. -/
def settleStateA : MState :=
  { bootState 100 250 with
    mode := 2, nextPosition := Pos.mid, currPosition := Pos.bot, clicks := 95,
    tumbler := ⟨85, false, false⟩ }

/-- Concrete state with the settle flag armed, for the C9 witness. -/
def settleStateB : MState :=
  { bootState 100 250 with
    mode := 2, nextPosition := Pos.mid, currPosition := Pos.bot,
    middlePositionTimeout := true, timer1running := true }

/-- Concrete RUN-mode state holding UP with the settle flag armed, for the
C9 witness. -/
def settleStateC : MState :=
  { bootState 100 250 with
    mode := 2, nextPosition := Pos.mid, currPosition := Pos.bot, clicks := 0,
    middlePositionTimeout := true, timer1running := true,
    upBtn := ⟨0, true, true⟩, tumbler := ⟨85, false, false⟩ }

/-- Witness for C9 at concrete states. -/
theorem settle_timer_behaviour_witness :
    (loopIter settleStateA).middlePositionTimeout = true ∧
    (timer1Expire settleStateB).currPosition = Pos.mid ∧
    (loopIter settleStateC).middlePositionTimeout = false := by
  obtain ⟨h1, h2, h3⟩ := settle_timer_behaviour settleStateA settleStateB settleStateC
  refine ⟨(h1 (by decide) (by decide) (by decide) (by decide) (by decide) (by decide)
            (by decide) (by decide)).1, ?_,
          h3 (by decide) (by decide) (by decide) (by decide) (by decide)
            (Or.inl (by decide))⟩
  have hx := (h2 (by decide)).1
  rw [hx]
  decide

/-!
Concrete executions.  The event lists below drive the firmware from boot
through a tumbler decode into PROGRAM mode, a complete teach-in (with one
UP jog pulse), and further PROGRAM presses and selector flips; the cNS
states are the intermediate states, checked by the kernel chunk by chunk.
During button phases the tumbler input alternates so its register never
reaches a terminal value; during decode phases it is held stable.
-/

/-- n debouncer ticks with the given button levels and an alternating
tumbler level. -/
def mkTicks (u d p : Bool) (n : Nat) : List Event :=
  (List.range n).map fun i => Event.tick u d p (decide (i % 2 = 1))

/-- n identical debouncer ticks. -/
def constTicks (u d p tb : Bool) (n : Nat) : List Event :=
  List.replicate n (Event.tick u d p tb)

/-- Eight stable low tumbler samples followed by a supervisor iteration. -/
def lowT : List Event := constTicks true true true false 8 ++ [Event.loop]

/-- A debounced PROGRAM-button press followed by a supervisor iteration. -/
def pressProg : List Event := mkTicks true true false 8 ++ [Event.loop]

/-- A debounced PROGRAM-button release followed by a supervisor iteration. -/
def relProg : List Event := mkTicks true true true 8 ++ [Event.loop]

/-- A debounced UP-button press followed by a supervisor iteration. -/
def pressUp : List Event := mkTicks false true true 8 ++ [Event.loop]

/-- A debounced UP-button release followed by a supervisor iteration. -/
def relUp : List Event := mkTicks true true true 8 ++ [Event.loop]

/-- Intermediate state c1 of the concrete counterexample executions. -/
def c1S : MState :=
  { tumbler := ⟨1, false, false⟩,
    progBtn := ⟨255, false, false⟩,
    upBtn := ⟨255, false, false⟩,
    downBtn := ⟨255, false, false⟩,
    clicks := 0,
    mode := 0,
    block := false,
    nextPosition := Pos.bot,
    currPosition := Pos.top,
    blinkRate := 10,
    blinkCounter := 10,
    lastDirection := 0,
    modePullState := 0,
    stateOnPullDown := 14,
    stateOnPullUp := 255,
    middlePositionTimeout := false,
    topThreshold := 0,
    middleThreshold := 0,
    bottomThreshold := 0,
    currThreshold := 0,
    upSwitchClosed := false,
    downSwitchClosed := false,
    speedFullSel := true,
    ledBot := false,
    ledMid := false,
    ledTop := true,
    timer1running := false,
    eeprom0 := 0,
    eeprom4 := 0 }

/-- Intermediate state c2 of the concrete counterexample executions. -/
def c2S : MState :=
  { tumbler := ⟨1, true, false⟩,
    progBtn := ⟨255, false, false⟩,
    upBtn := ⟨255, false, false⟩,
    downBtn := ⟨255, false, false⟩,
    clicks := 0,
    mode := 2,
    block := false,
    nextPosition := Pos.bot,
    currPosition := Pos.top,
    blinkRate := 10,
    blinkCounter := 10,
    lastDirection := 0,
    modePullState := 1,
    stateOnPullDown := 0,
    stateOnPullUp := 255,
    middlePositionTimeout := false,
    topThreshold := 0,
    middleThreshold := 0,
    bottomThreshold := 0,
    currThreshold := 0,
    upSwitchClosed := false,
    downSwitchClosed := false,
    speedFullSel := true,
    ledBot := false,
    ledMid := false,
    ledTop := true,
    timer1running := false,
    eeprom0 := 0,
    eeprom4 := 0 }

/-- Intermediate state c3 of the concrete counterexample executions. -/
def c3S : MState :=
  { tumbler := ⟨1, true, false⟩,
    progBtn := ⟨255, false, false⟩,
    upBtn := ⟨255, false, false⟩,
    downBtn := ⟨255, false, false⟩,
    clicks := 0,
    mode := 1,
    block := false,
    nextPosition := Pos.bot,
    currPosition := Pos.top,
    blinkRate := 10,
    blinkCounter := 2,
    lastDirection := 0,
    modePullState := 0,
    stateOnPullDown := 0,
    stateOnPullUp := 0,
    middlePositionTimeout := false,
    topThreshold := 0,
    middleThreshold := 0,
    bottomThreshold := 0,
    currThreshold := 0,
    upSwitchClosed := false,
    downSwitchClosed := false,
    speedFullSel := true,
    ledBot := false,
    ledMid := false,
    ledTop := false,
    timer1running := false,
    eeprom0 := 0,
    eeprom4 := 0 }

/-- Intermediate state c4 of the concrete counterexample executions. -/
def c4S : MState :=
  { tumbler := ⟨85, true, false⟩,
    progBtn := ⟨0, true, true⟩,
    upBtn := ⟨255, false, false⟩,
    downBtn := ⟨255, false, false⟩,
    clicks := 0,
    mode := 1,
    block := false,
    nextPosition := Pos.mid,
    currPosition := Pos.bot,
    blinkRate := 10,
    blinkCounter := 5,
    lastDirection := 0,
    modePullState := 0,
    stateOnPullDown := 0,
    stateOnPullUp := 0,
    middlePositionTimeout := false,
    topThreshold := 0,
    middleThreshold := 0,
    bottomThreshold := 0,
    currThreshold := 0,
    upSwitchClosed := false,
    downSwitchClosed := false,
    speedFullSel := true,
    ledBot := false,
    ledMid := false,
    ledTop := false,
    timer1running := false,
    eeprom0 := 0,
    eeprom4 := 0 }

/-- Intermediate state c5 of the concrete counterexample executions. -/
def c5S : MState :=
  { tumbler := ⟨85, true, false⟩,
    progBtn := ⟨255, false, false⟩,
    upBtn := ⟨255, false, false⟩,
    downBtn := ⟨255, false, false⟩,
    clicks := 0,
    mode := 1,
    block := false,
    nextPosition := Pos.mid,
    currPosition := Pos.bot,
    blinkRate := 10,
    blinkCounter := 8,
    lastDirection := 0,
    modePullState := 0,
    stateOnPullDown := 0,
    stateOnPullUp := 0,
    middlePositionTimeout := false,
    topThreshold := 0,
    middleThreshold := 0,
    bottomThreshold := 0,
    currThreshold := 0,
    upSwitchClosed := false,
    downSwitchClosed := false,
    speedFullSel := true,
    ledBot := false,
    ledMid := true,
    ledTop := false,
    timer1running := false,
    eeprom0 := 0,
    eeprom4 := 0 }

/-- Intermediate state c6 of the concrete counterexample executions. -/
def c6S : MState :=
  { tumbler := ⟨85, true, false⟩,
    progBtn := ⟨255, false, false⟩,
    upBtn := ⟨0, true, true⟩,
    downBtn := ⟨255, false, false⟩,
    clicks := 0,
    mode := 1,
    block := false,
    nextPosition := Pos.mid,
    currPosition := Pos.bot,
    blinkRate := 5,
    blinkCounter := 0,
    lastDirection := 1,
    modePullState := 0,
    stateOnPullDown := 0,
    stateOnPullUp := 0,
    middlePositionTimeout := false,
    topThreshold := 0,
    middleThreshold := 0,
    bottomThreshold := 0,
    currThreshold := 0,
    upSwitchClosed := true,
    downSwitchClosed := false,
    speedFullSel := true,
    ledBot := false,
    ledMid := true,
    ledTop := false,
    timer1running := false,
    eeprom0 := 0,
    eeprom4 := 0 }

/-- Intermediate state c7 of the concrete counterexample executions. -/
def c7S : MState :=
  { tumbler := ⟨85, true, false⟩,
    progBtn := ⟨255, false, false⟩,
    upBtn := ⟨0, true, true⟩,
    downBtn := ⟨255, false, false⟩,
    clicks := 1,
    mode := 1,
    block := false,
    nextPosition := Pos.mid,
    currPosition := Pos.bot,
    blinkRate := 5,
    blinkCounter := 0,
    lastDirection := 1,
    modePullState := 0,
    stateOnPullDown := 0,
    stateOnPullUp := 0,
    middlePositionTimeout := false,
    topThreshold := 0,
    middleThreshold := 0,
    bottomThreshold := 0,
    currThreshold := 0,
    upSwitchClosed := true,
    downSwitchClosed := false,
    speedFullSel := true,
    ledBot := false,
    ledMid := true,
    ledTop := false,
    timer1running := false,
    eeprom0 := 0,
    eeprom4 := 0 }

/-- Intermediate state c8 of the concrete counterexample executions. -/
def c8S : MState :=
  { tumbler := ⟨85, true, false⟩,
    progBtn := ⟨255, false, false⟩,
    upBtn := ⟨255, false, false⟩,
    downBtn := ⟨255, false, false⟩,
    clicks := 1,
    mode := 1,
    block := false,
    nextPosition := Pos.mid,
    currPosition := Pos.bot,
    blinkRate := 10,
    blinkCounter := 4,
    lastDirection := 1,
    modePullState := 0,
    stateOnPullDown := 0,
    stateOnPullUp := 0,
    middlePositionTimeout := false,
    topThreshold := 0,
    middleThreshold := 0,
    bottomThreshold := 0,
    currThreshold := 0,
    upSwitchClosed := false,
    downSwitchClosed := false,
    speedFullSel := true,
    ledBot := false,
    ledMid := true,
    ledTop := false,
    timer1running := false,
    eeprom0 := 0,
    eeprom4 := 0 }

/-- Intermediate state c9 of the concrete counterexample executions. -/
def c9S : MState :=
  { tumbler := ⟨85, true, false⟩,
    progBtn := ⟨0, true, true⟩,
    upBtn := ⟨255, false, false⟩,
    downBtn := ⟨255, false, false⟩,
    clicks := 1,
    mode := 1,
    block := false,
    nextPosition := Pos.top,
    currPosition := Pos.mid,
    blinkRate := 10,
    blinkCounter := 7,
    lastDirection := 1,
    modePullState := 0,
    stateOnPullDown := 0,
    stateOnPullUp := 0,
    middlePositionTimeout := false,
    topThreshold := 0,
    middleThreshold := 1,
    bottomThreshold := 0,
    currThreshold := 0,
    upSwitchClosed := false,
    downSwitchClosed := false,
    speedFullSel := true,
    ledBot := false,
    ledMid := false,
    ledTop := false,
    timer1running := false,
    eeprom0 := 1,
    eeprom4 := 0 }

/-- Intermediate state c10 of the concrete counterexample executions. -/
def c10S : MState :=
  { tumbler := ⟨85, true, false⟩,
    progBtn := ⟨255, false, false⟩,
    upBtn := ⟨255, false, false⟩,
    downBtn := ⟨255, false, false⟩,
    clicks := 1,
    mode := 1,
    block := false,
    nextPosition := Pos.top,
    currPosition := Pos.mid,
    blinkRate := 10,
    blinkCounter := 10,
    lastDirection := 1,
    modePullState := 0,
    stateOnPullDown := 0,
    stateOnPullUp := 0,
    middlePositionTimeout := false,
    topThreshold := 0,
    middleThreshold := 1,
    bottomThreshold := 0,
    currThreshold := 0,
    upSwitchClosed := false,
    downSwitchClosed := false,
    speedFullSel := true,
    ledBot := false,
    ledMid := false,
    ledTop := true,
    timer1running := false,
    eeprom0 := 1,
    eeprom4 := 0 }

/-- Intermediate state c11 of the concrete counterexample executions. -/
def c11S : MState :=
  { tumbler := ⟨85, true, false⟩,
    progBtn := ⟨0, true, true⟩,
    upBtn := ⟨255, false, false⟩,
    downBtn := ⟨255, false, false⟩,
    clicks := 1,
    mode := 1,
    block := true,
    nextPosition := Pos.bot,
    currPosition := Pos.top,
    blinkRate := 10,
    blinkCounter := 2,
    lastDirection := 1,
    modePullState := 0,
    stateOnPullDown := 0,
    stateOnPullUp := 0,
    middlePositionTimeout := false,
    topThreshold := 1,
    middleThreshold := 1,
    bottomThreshold := 0,
    currThreshold := 0,
    upSwitchClosed := false,
    downSwitchClosed := false,
    speedFullSel := true,
    ledBot := false,
    ledMid := false,
    ledTop := false,
    timer1running := false,
    eeprom0 := 1,
    eeprom4 := 1 }

/-- Intermediate state c12 of the concrete counterexample executions. -/
def c12S : MState :=
  { tumbler := ⟨85, true, false⟩,
    progBtn := ⟨255, false, false⟩,
    upBtn := ⟨255, false, false⟩,
    downBtn := ⟨255, false, false⟩,
    clicks := 1,
    mode := 1,
    block := true,
    nextPosition := Pos.bot,
    currPosition := Pos.top,
    blinkRate := 10,
    blinkCounter := 2,
    lastDirection := 1,
    modePullState := 0,
    stateOnPullDown := 0,
    stateOnPullUp := 0,
    middlePositionTimeout := false,
    topThreshold := 1,
    middleThreshold := 1,
    bottomThreshold := 0,
    currThreshold := 0,
    upSwitchClosed := false,
    downSwitchClosed := false,
    speedFullSel := true,
    ledBot := false,
    ledMid := false,
    ledTop := false,
    timer1running := false,
    eeprom0 := 1,
    eeprom4 := 1 }

/-- Intermediate state cC2 of the concrete counterexample executions. -/
def cC2S : MState :=
  { tumbler := ⟨85, true, false⟩,
    progBtn := ⟨0, true, false⟩,
    upBtn := ⟨255, false, false⟩,
    downBtn := ⟨255, false, false⟩,
    clicks := 1,
    mode := 1,
    block := true,
    nextPosition := Pos.bot,
    currPosition := Pos.top,
    blinkRate := 10,
    blinkCounter := 2,
    lastDirection := 1,
    modePullState := 0,
    stateOnPullDown := 0,
    stateOnPullUp := 0,
    middlePositionTimeout := false,
    topThreshold := 1,
    middleThreshold := 1,
    bottomThreshold := 0,
    currThreshold := 0,
    upSwitchClosed := false,
    downSwitchClosed := false,
    speedFullSel := true,
    ledBot := false,
    ledMid := false,
    ledTop := false,
    timer1running := false,
    eeprom0 := 1,
    eeprom4 := 1 }

/-- Intermediate state c13 of the concrete counterexample executions. -/
def c13S : MState :=
  { tumbler := ⟨85, true, false⟩,
    progBtn := ⟨0, true, true⟩,
    upBtn := ⟨255, false, false⟩,
    downBtn := ⟨255, false, false⟩,
    clicks := 0,
    mode := 1,
    block := true,
    nextPosition := Pos.mid,
    currPosition := Pos.bot,
    blinkRate := 10,
    blinkCounter := 2,
    lastDirection := 1,
    modePullState := 0,
    stateOnPullDown := 0,
    stateOnPullUp := 0,
    middlePositionTimeout := false,
    topThreshold := 1,
    middleThreshold := 1,
    bottomThreshold := 0,
    currThreshold := 0,
    upSwitchClosed := false,
    downSwitchClosed := false,
    speedFullSel := true,
    ledBot := false,
    ledMid := false,
    ledTop := false,
    timer1running := false,
    eeprom0 := 1,
    eeprom4 := 1 }

/-- Intermediate state c14 of the concrete counterexample executions. -/
def c14S : MState :=
  { tumbler := ⟨85, true, false⟩,
    progBtn := ⟨255, false, false⟩,
    upBtn := ⟨255, false, false⟩,
    downBtn := ⟨255, false, false⟩,
    clicks := 0,
    mode := 1,
    block := true,
    nextPosition := Pos.mid,
    currPosition := Pos.bot,
    blinkRate := 10,
    blinkCounter := 2,
    lastDirection := 1,
    modePullState := 0,
    stateOnPullDown := 0,
    stateOnPullUp := 0,
    middlePositionTimeout := false,
    topThreshold := 1,
    middleThreshold := 1,
    bottomThreshold := 0,
    currThreshold := 0,
    upSwitchClosed := false,
    downSwitchClosed := false,
    speedFullSel := true,
    ledBot := false,
    ledMid := false,
    ledTop := false,
    timer1running := false,
    eeprom0 := 1,
    eeprom4 := 1 }

/-- Intermediate state c15 of the concrete counterexample executions. -/
def c15S : MState :=
  { tumbler := ⟨85, true, false⟩,
    progBtn := ⟨255, false, false⟩,
    upBtn := ⟨255, false, false⟩,
    downBtn := ⟨255, false, false⟩,
    clicks := 2,
    mode := 1,
    block := true,
    nextPosition := Pos.mid,
    currPosition := Pos.bot,
    blinkRate := 10,
    blinkCounter := 2,
    lastDirection := 1,
    modePullState := 0,
    stateOnPullDown := 0,
    stateOnPullUp := 0,
    middlePositionTimeout := false,
    topThreshold := 1,
    middleThreshold := 1,
    bottomThreshold := 0,
    currThreshold := 0,
    upSwitchClosed := false,
    downSwitchClosed := false,
    speedFullSel := true,
    ledBot := false,
    ledMid := false,
    ledTop := false,
    timer1running := false,
    eeprom0 := 1,
    eeprom4 := 1 }

/-- Intermediate state cC5 of the concrete counterexample executions. -/
def cC5S : MState :=
  { tumbler := ⟨85, true, false⟩,
    progBtn := ⟨0, true, false⟩,
    upBtn := ⟨255, false, false⟩,
    downBtn := ⟨255, false, false⟩,
    clicks := 2,
    mode := 1,
    block := true,
    nextPosition := Pos.mid,
    currPosition := Pos.bot,
    blinkRate := 10,
    blinkCounter := 2,
    lastDirection := 1,
    modePullState := 0,
    stateOnPullDown := 0,
    stateOnPullUp := 0,
    middlePositionTimeout := false,
    topThreshold := 1,
    middleThreshold := 1,
    bottomThreshold := 0,
    currThreshold := 0,
    upSwitchClosed := false,
    downSwitchClosed := false,
    speedFullSel := true,
    ledBot := false,
    ledMid := false,
    ledTop := false,
    timer1running := false,
    eeprom0 := 1,
    eeprom4 := 1 }

/-- Intermediate state c16 of the concrete counterexample executions. -/
def c16S : MState :=
  { tumbler := ⟨1, true, false⟩,
    progBtn := ⟨255, false, false⟩,
    upBtn := ⟨255, false, false⟩,
    downBtn := ⟨255, false, false⟩,
    clicks := 1,
    mode := 1,
    block := true,
    nextPosition := Pos.bot,
    currPosition := Pos.top,
    blinkRate := 10,
    blinkCounter := 2,
    lastDirection := 1,
    modePullState := 1,
    stateOnPullDown := 0,
    stateOnPullUp := 0,
    middlePositionTimeout := false,
    topThreshold := 1,
    middleThreshold := 1,
    bottomThreshold := 0,
    currThreshold := 0,
    upSwitchClosed := false,
    downSwitchClosed := false,
    speedFullSel := true,
    ledBot := false,
    ledMid := false,
    ledTop := false,
    timer1running := false,
    eeprom0 := 1,
    eeprom4 := 1 }

/-- Intermediate state cC7 of the concrete counterexample executions. -/
def cC7S : MState :=
  { tumbler := ⟨255, false, false⟩,
    progBtn := ⟨255, false, false⟩,
    upBtn := ⟨255, false, false⟩,
    downBtn := ⟨255, false, false⟩,
    clicks := 1,
    mode := 1,
    block := true,
    nextPosition := Pos.bot,
    currPosition := Pos.top,
    blinkRate := 10,
    blinkCounter := 2,
    lastDirection := 1,
    modePullState := 1,
    stateOnPullDown := 0,
    stateOnPullUp := 0,
    middlePositionTimeout := false,
    topThreshold := 1,
    middleThreshold := 1,
    bottomThreshold := 0,
    currThreshold := 0,
    upSwitchClosed := false,
    downSwitchClosed := false,
    speedFullSel := true,
    ledBot := false,
    ledMid := false,
    ledTop := false,
    timer1running := false,
    eeprom0 := 1,
    eeprom4 := 1 }

theorem chunk1 : runEvents (bootState 0 0) [Event.loop] = c1S := by decide

theorem chunk2 : runEvents c1S lowT = c2S := by decide

theorem chunk3 : runEvents c2S lowT = c3S := by decide

theorem chunk4 : runEvents c3S pressProg = c4S := by decide

theorem chunk5 : runEvents c4S relProg = c5S := by decide

theorem chunk6 : runEvents c5S pressUp = c6S := by decide

theorem chunk7 : runEvents c6S [Event.pulse] = c7S := by decide

theorem chunk8 : runEvents c7S relUp = c8S := by decide

theorem chunk9 : runEvents c8S pressProg = c9S := by decide

theorem chunk10 : runEvents c9S relProg = c10S := by decide

theorem chunk11 : runEvents c10S pressProg = c11S := by decide

theorem chunk12 : runEvents c11S relProg = c12S := by decide

theorem chunk13 : runEvents c12S (mkTicks true true false 8) = cC2S := by decide

theorem chunk14 : runEvents cC2S [Event.loop] = c13S := by decide

theorem chunk15 : runEvents c13S relProg = c14S := by decide

theorem chunk16 : runEvents c14S [Event.pulse, Event.pulse] = c15S := by decide

theorem chunk17 : runEvents c15S (mkTicks true true false 8) = cC5S := by decide

theorem chunk18 : runEvents c12S lowT = c16S := by decide

theorem chunk19 : runEvents c16S (constTicks true true true true 8) = cC7S := by decide

theorem c1S_reach : Reachable c1S := by
  rw [← chunk1]; exact reachable_runEvents _ (Reachable.boot 0 0)

theorem c2S_reach : Reachable c2S := by
  rw [← chunk2]; exact reachable_runEvents _ c1S_reach

theorem c3S_reach : Reachable c3S := by
  rw [← chunk3]; exact reachable_runEvents _ c2S_reach

theorem c4S_reach : Reachable c4S := by
  rw [← chunk4]; exact reachable_runEvents _ c3S_reach

theorem c5S_reach : Reachable c5S := by
  rw [← chunk5]; exact reachable_runEvents _ c4S_reach

theorem c6S_reach : Reachable c6S := by
  rw [← chunk6]; exact reachable_runEvents _ c5S_reach

theorem c7S_reach : Reachable c7S := by
  rw [← chunk7]; exact reachable_runEvents _ c6S_reach

theorem c8S_reach : Reachable c8S := by
  rw [← chunk8]; exact reachable_runEvents _ c7S_reach

theorem c9S_reach : Reachable c9S := by
  rw [← chunk9]; exact reachable_runEvents _ c8S_reach

theorem c10S_reach : Reachable c10S := by
  rw [← chunk10]; exact reachable_runEvents _ c9S_reach

theorem c11S_reach : Reachable c11S := by
  rw [← chunk11]; exact reachable_runEvents _ c10S_reach

theorem c12S_reach : Reachable c12S := by
  rw [← chunk12]; exact reachable_runEvents _ c11S_reach

theorem cC2S_reach : Reachable cC2S := by
  rw [← chunk13]; exact reachable_runEvents _ c12S_reach

theorem c13S_reach : Reachable c13S := by
  rw [← chunk14]; exact reachable_runEvents _ cC2S_reach

theorem c14S_reach : Reachable c14S := by
  rw [← chunk15]; exact reachable_runEvents _ c13S_reach

theorem c15S_reach : Reachable c15S := by
  rw [← chunk16]; exact reachable_runEvents _ c14S_reach

theorem cC5S_reach : Reachable cC5S := by
  rw [← chunk17]; exact reachable_runEvents _ c15S_reach

theorem c16S_reach : Reachable c16S := by
  rw [← chunk18]; exact reachable_runEvents _ c12S_reach

theorem cC7S_reach : Reachable cC7S := by
  rw [← chunk19]; exact reachable_runEvents _ c16S_reach

/-- Counterexample to C2 as stated: cC2S is reachable (boot, decode to
PROGRAM, complete teach-in whose TOP commit latches block, release, press
PROGRAM again), block is still latched, yet the very next supervisor
iteration services the PROGRAM press and advances the walker, a position
transition taken while block is true. -/
theorem blocked_teach_press_advances :
    Reachable cC2S ∧ cC2S.block = true ∧
    (loopIter cC2S).currPosition = cC2S.nextPosition ∧
    (loopIter cC2S).currPosition ≠ cC2S.currPosition ∧
    (loopIter cC2S).block = true :=
  ⟨cC2S_reach, by decide, by decide, by decide, by decide⟩

/-- C2 (amended): at every reachable state with block latched both relays
are de-energised; a tick, a pulse, or a timer-1 expiry changes neither
position, and a supervisor iteration taken outside PROGRAM mode with no
tumbler commit pending changes neither position and keeps both relays
open.  (A PROGRAM-mode teach press serviced while blocked still advances
the walker - see the counterexample.) -/
theorem block_forces_relays_off {s : MState} (h : Reachable s)
    (hb : s.block = true) :
    s.upSwitchClosed = false ∧ s.downSwitchClosed = false ∧
    (∀ u d p tb : Bool,
      (timer0Tick u d p tb s).currPosition = s.currPosition ∧
      (timer0Tick u d p tb s).nextPosition = s.nextPosition) ∧
    ((int0Pulse s).currPosition = s.currPosition ∧
     (int0Pulse s).nextPosition = s.nextPosition) ∧
    ((timer1Expire s).currPosition = s.currPosition ∧
     (timer1Expire s).nextPosition = s.nextPosition) ∧
    (s.mode ≠ 1 → s.tumbler.pinBuffer ≠ 255 → s.tumbler.pinBuffer ≠ 0 →
      (loopIter s).currPosition = s.currPosition ∧
      (loopIter s).nextPosition = s.nextPosition) ∧
    (s.tumbler.pinBuffer ≠ 255 → s.tumbler.pinBuffer ≠ 0 →
      (loopIter s).upSwitchClosed = false ∧
      (loopIter s).downSwitchClosed = false) := by
  have hinv := inv_reachable h
  obtain ⟨hA, hB, hC, hD, hE, hF, hF2, hG⟩ := hinv
  have hmpt : s.middlePositionTimeout = false := hF hb
  refine ⟨(hE hb).1, (hE hb).2, fun u d p tb => ⟨by simp, by simp⟩,
          ⟨by simp, by simp⟩, ⟨by simp [hmpt], by simp [hmpt]⟩, ?_, ?_⟩
  · intro hm1 ht1 ht2
    have hid := serviceTumbler_id ht1 ht2
    have hLoop : loopIter s = openBothSwitches s := by
      unfold loopIter progPhase blockGate
      rw [hid, if_neg hm1, if_pos hb]
    rw [hLoop]
    exact ⟨by simp, by simp⟩
  · intro ht1 ht2
    have hid := serviceTumbler_id ht1 ht2
    unfold loopIter progPhase blockGate
    rw [hid]
    by_cases hm1 : s.mode = 1
    · rw [if_pos hm1]
      have hpb := serviceProgramButton_block_mono (s := s) hb
      rw [if_pos hpb]
      exact ⟨by simp, by simp⟩
    · rw [if_neg hm1, if_pos hb]
      exact ⟨by simp, by simp⟩

/-- Witness for the amended C2 at the reachable blocked state cC2S. -/
theorem block_forces_relays_off_witness :
    cC2S.upSwitchClosed = false ∧ cC2S.downSwitchClosed = false :=
  ⟨(block_forces_relays_off cC2S_reach (by decide)).1,
   (block_forces_relays_off cC2S_reach (by decide)).2.1⟩

/-- Counterexample to C5 as stated: cC5S is reachable and lies after a
complete teach-in (its thresholds are ordered, bottom 0, middle 1, top 1),
the walker has been re-taught past BOT and two further pulses drifted
clicks to 2; servicing the pending MID re-commit sets middleThreshold to 2
while topThreshold stays 1, breaking bottom at most middle at most top. -/
theorem mid_recommit_breaks_order :
    Reachable cC5S ∧
    cC5S.bottomThreshold ≤ cC5S.middleThreshold ∧
    cC5S.middleThreshold ≤ cC5S.topThreshold ∧
    ¬((loopIter cC5S).middleThreshold ≤ (loopIter cC5S).topThreshold) :=
  ⟨cC5S_reach, by decide, by decide, by decide⟩

/-- C5 (amended): a TOP teach commit always restores the full ordering
(given bottom at most middle beforehand), a MID commit always restores
bottom at most middle, and ticks, pulses and timer-1 expiries never touch
the thresholds; the ordering can only be broken by a MID re-commit whose
clicks exceed the stored top threshold. -/
theorem teach_order_amended :
    ∀ (sa sb sc : MState) (u d p tb : Bool),
      (sa.mode = 1 → sa.nextPosition = Pos.top →
        sa.bottomThreshold ≤ sa.middleThreshold →
        (onProgramButtonPressed sa).bottomThreshold ≤
          (onProgramButtonPressed sa).middleThreshold ∧
        (onProgramButtonPressed sa).middleThreshold ≤
          (onProgramButtonPressed sa).topThreshold) ∧
      (sb.mode = 1 → sb.nextPosition = Pos.mid →
        (onProgramButtonPressed sb).bottomThreshold ≤
          (onProgramButtonPressed sb).middleThreshold) ∧
      ((timer0Tick u d p tb sc).bottomThreshold = sc.bottomThreshold ∧
       (timer0Tick u d p tb sc).middleThreshold = sc.middleThreshold ∧
       (timer0Tick u d p tb sc).topThreshold = sc.topThreshold ∧
       (int0Pulse sc).bottomThreshold = sc.bottomThreshold ∧
       (int0Pulse sc).middleThreshold = sc.middleThreshold ∧
       (int0Pulse sc).topThreshold = sc.topThreshold ∧
       (timer1Expire sc).bottomThreshold = sc.bottomThreshold ∧
       (timer1Expire sc).middleThreshold = sc.middleThreshold ∧
       (timer1Expire sc).topThreshold = sc.topThreshold) := by
  intro sa sb sc u d p tb
  refine ⟨?_, ?_, by simp, by simp, by simp, by simp, by simp, by simp,
          by simp, by simp, by simp⟩
  · intro hm hn hord
    have hc : (ledSet (teachAdv2 (teachAdv1 sa)).currPosition false
        (teachAdv2 (teachAdv1 sa))).currPosition = Pos.top := by simp [hn]
    have hk := teachCommit_top hc
    unfold onProgramButtonPressed
    rw [if_pos hm]
    constructor
    · rw [hk.2.2.1, hk.2.2.2.1]
      simpa using hord
    · rw [hk.2.2.2.1, hk.1]
      simpa using le_max_right _ _
  · intro hm hn
    have hc : (ledSet (teachAdv2 (teachAdv1 sb)).currPosition false
        (teachAdv2 (teachAdv1 sb))).currPosition = Pos.mid := by simp [hn]
    have hk := teachCommit_mid hc
    unfold onProgramButtonPressed
    rw [if_pos hm]
    rw [hk.1, hk.2.2.1]
    simpa using le_max_right _ _

/-- Witness for the amended C5 at concrete states. -/
theorem teach_order_amended_witness :
    (onProgramButtonPressed teachStateT).middleThreshold ≤
      (onProgramButtonPressed teachStateT).topThreshold ∧
    (onProgramButtonPressed teachStateM).bottomThreshold ≤
      (onProgramButtonPressed teachStateM).middleThreshold := by
  obtain ⟨h1, h2, h3⟩ :=
    teach_order_amended teachStateT teachStateM (bootState 0 0) true true true true
  exact ⟨(h1 (by decide) (by decide) (by decide)).2, h2 (by decide) (by decide)⟩

/-- Counterexample to C7 as stated: cC7S is reachable with block latched
(by the TOP teach commit) and the timer-1 clock not even running; the next
supervisor iteration, a foreground action that records the pull-up reading
and commits changeMode into RUN, clears block without any timer-1
expiry. -/
theorem mode_change_clears_block :
    Reachable cC7S ∧ cC7S.block = true ∧ cC7S.timer1running = false ∧
    (loopIter cC7S).block = false ∧ (loopIter cC7S).mode = 2 :=
  ⟨cC7S_reach, by decide, by decide, by decide, by decide⟩

/-- C7 (amended): once block is latched, ticks and pulses never clear it
and a supervisor iteration with no tumbler commit pending keeps it latched
whatever the buttons do; it is cleared by a timer-1 expiry, or by a
committed mode change into RUN (changeMode), the one foreground action
that can cancel it. -/
theorem block_persistence_amended :
    ∀ (s1 s2 s3 s4 : MState) (u d p tb : Bool),
      (timer0Tick u d p tb s1).block = s1.block ∧
      (int0Pulse s2).block = s2.block ∧
      (s3.block = true → s3.tumbler.pinBuffer ≠ 255 → s3.tumbler.pinBuffer ≠ 0 →
        (loopIter s3).block = true) ∧
      (timer1Expire s4).block = false := by
  intro s1 s2 s3 s4 u d p tb
  refine ⟨by simp, by simp, ?_, by simp⟩
  intro hb ht1 ht2
  have hid := serviceTumbler_id ht1 ht2
  unfold loopIter progPhase blockGate
  rw [hid]
  by_cases hm1 : s3.mode = 1
  · rw [if_pos hm1]
    have hpb := serviceProgramButton_block_mono (s := s3) hb
    rw [if_pos hpb]
    simpa using hpb
  · rw [if_neg hm1, if_pos hb]
    simpa using hb

/-- Witness for the amended C7 at concrete states. -/
theorem block_persistence_amended_witness :
    (loopIter { bootState 0 0 with block := true, tumbler := ⟨85, false, false⟩ }).block = true ∧
    (timer1Expire (bootState 0 0)).block = false := by
  obtain ⟨h1, h2, h3, h4⟩ := block_persistence_amended
    (bootState 0 0) (bootState 0 0)
    { bootState 0 0 with block := true, tumbler := ⟨85, false, false⟩ }
    (bootState 0 0) true true true true
  exact ⟨h3 (by decide) (by decide) (by decide), h4⟩

end Motoplugas
